import Mathlib

/-!
# The GGX microfacet closure of Cycles

A shallow embedding of `intern/cycles/kernel/closure/bsdf_microfacet.h`.

* A `float` is a rational number: arithmetic is exact, and rounding, infinities and NaN are
  not represented.
* A C division is the checked division `fdiv`: a zero divisor makes the whole result `none`,
  so no statement below rests on the value of a quotient by zero.
* A read through `bsdf->extra` finds a payload of the kind the branch expects, or the result
  is `none` (the C code dereferences a null pointer or reinterprets the other layout).
* Functions of headers that are not part of the sources (`bsdf_microfacet_util.h`,
  `bsdf_util.h`, the lookup tables, `sqrtf`/`powf`) are the fields of `Helpers`.
* Out-parameters become components of the returned value; an out-parameter a path leaves
  unwritten keeps the content it had on entry.
-/

namespace Microfacet

/-! ## Numbers and vectors -/

/-- Cycles' `float3`, with exact components. -/
structure float3 where
  x : ℚ
  y : ℚ
  z : ℚ
deriving DecidableEq

/-- Modelled from the spec: `make_float3` of `util/types_float3.h`, the vector with the
given components. -/
def make_float3 (x y z : ℚ) : float3 := ⟨x, y, z⟩

/-- Modelled from the spec: `one_float3` of `util/math_float3.h`, uniform white. -/
def one_float3 : float3 := make_float3 1 1 1

/-- Modelled from the spec: `zero_float3` of `util/math_float3.h`. -/
def zero_float3 : float3 := make_float3 0 0 0

/-- Component-wise sum, `operator+` on `float3`. -/
def float3.add (a b : float3) : float3 := ⟨a.x + b.x, a.y + b.y, a.z + b.z⟩

/-- Component-wise difference, `operator-` on `float3`. -/
def float3.sub (a b : float3) : float3 := ⟨a.x - b.x, a.y - b.y, a.z - b.z⟩

/-- Unary minus on `float3`. -/
def float3.neg (a : float3) : float3 := ⟨-a.x, -a.y, -a.z⟩

/-- Component-wise product, `operator*` on two `float3`. -/
def float3.mul (a b : float3) : float3 := ⟨a.x * b.x, a.y * b.y, a.z * b.z⟩

/-- Product of a vector and a scalar, `operator*` on `float3` and `float` in either order. -/
def float3.scale (a : float3) (f : ℚ) : float3 := ⟨a.x * f, a.y * f, a.z * f⟩

instance : Add float3 := ⟨float3.add⟩

instance : Sub float3 := ⟨float3.sub⟩

instance : Neg float3 := ⟨float3.neg⟩

instance : Mul float3 := ⟨float3.mul⟩

instance : HMul float3 ℚ float3 := ⟨float3.scale⟩

instance : HMul ℚ float3 float3 := ⟨fun f a => float3.scale a f⟩

/-- Checked `float` division `a / b`: `none` when the divisor is zero. -/
def fdiv (a b : ℚ) : Option ℚ := if b = 0 then none else some (a / b)

/-- Checked division of a vector by a scalar, `operator/` on `float3` and `float`. -/
def float3.div_float (a : float3) (f : ℚ) : Option float3 :=
  if f = 0 then none else some ⟨a.x / f, a.y / f, a.z / f⟩

/-- Checked component-wise division, `operator/` on two `float3`: `none` when a component of
the divisor is zero. -/
def float3.div (a b : float3) : Option float3 :=
  if b.x = 0 ∨ b.y = 0 ∨ b.z = 0 then none else some ⟨a.x / b.x, a.y / b.y, a.z / b.z⟩

/-- Modelled from the spec: `dot` of `util/math_float3.h`, the dot product. -/
def dot (a b : float3) : ℚ := a.x * b.x + a.y * b.y + a.z * b.z

/-- Modelled from the spec: `average` of `util/math_float3.h`, the arithmetic mean of the
three channels. -/
def average (a : float3) : ℚ := (a.x + a.y + a.z) * (1 / 3)

/-- Modelled from the spec: `clamp` of `util/math.h`, the clamp of `a` to `[mn, mx]`. -/
def clamp (a mn mx : ℚ) : ℚ := min (max a mn) mx

/-- Modelled from the spec: `saturatef` of `util/math.h`, the clamp to `[0,1]`. -/
def saturatef (a : ℚ) : ℚ := clamp a 0 1

/-- Modelled from the spec: `saturate` of `util/math_float3.h`, the channel-wise clamp to
`[0,1]`. -/
def saturate (a : float3) : float3 := ⟨saturatef a.x, saturatef a.y, saturatef a.z⟩

/-- Modelled from the spec: `fmaxf` of the C library, the larger of two finite numbers. -/
def fmaxf (a b : ℚ) : ℚ := max a b

/-- Modelled from the spec: `fabsf` of the C library. -/
def fabsf (a : ℚ) : ℚ := |a|

/-- Modelled from the spec: `sqr` of `util/math.h`. -/
def sqr (a : ℚ) : ℚ := a * a

/-- Modelled from the spec: `mix` of `util/math.h`, the blend `a + t * (b - a)`. -/
def mix (a b : float3) (t : ℚ) : float3 := a + t * (b - a)

/-! ## Constants of `kernel/types.h` and `kernel/svm/types.h` -/

/-- Modelled from the spec: the closure tags of `kernel/svm/types.h` this file compares
against; `CLOSURE_OTHER_ID` stands for every other tag of the enum. -/
inductive ClosureType where
  | CLOSURE_BSDF_MICROFACET_GGX_ID
  | CLOSURE_BSDF_MICROFACET_GGX_FRESNEL_ID
  | CLOSURE_BSDF_MICROFACET_GGX_CLEARCOAT_ID
  | CLOSURE_BSDF_MICROFACET_GGX_CLEARCOAT_V2_ID
  | CLOSURE_BSDF_MICROFACET_GGX_FRESNEL_V2_ID
  | CLOSURE_BSDF_MICROFACET_GGX_REFRACTION_ID
  | CLOSURE_OTHER_ID (id : Nat)
deriving DecidableEq

open ClosureType

/-- Modelled from the spec: the "no sample" label of `kernel/types.h`. -/
def LABEL_NONE : Nat := 0

/-- Modelled from the spec: the transmit bit of the label enum of `kernel/types.h`. -/
def LABEL_TRANSMIT : Nat := 1

/-- Modelled from the spec: the reflect bit of the label enum of `kernel/types.h`. -/
def LABEL_REFLECT : Nat := 2

/-- Modelled from the spec: the glossy bit of the label enum of `kernel/types.h`. -/
def LABEL_GLOSSY : Nat := 8

/-- Modelled from the spec: the singular bit of the label enum of `kernel/types.h`. -/
def LABEL_SINGULAR : Nat := 16

/-- Modelled from the spec: the capability flag "has a BSDF" of `kernel/types.h`. -/
def SD_BSDF : Nat := 4

/-- Modelled from the spec: the capability flag "supports evaluation" of `kernel/types.h`. -/
def SD_BSDF_HAS_EVAL : Nat := 8

/-! ## The closure record -/

/-- The payload `MicrofacetExtra`. -/
structure MicrofacetExtra where
  color : float3
  cspec0 : float3
  fresnel_color : float3
deriving DecidableEq

/-- The payload `MicrofacetExtrav2` (metallic fresnel control). -/
structure MicrofacetExtrav2 where
  metal_base : float3
  metal_edge : float3
  metal_falloff : ℚ
  dielectric : ℚ
deriving DecidableEq

/-- What `bsdf->extra` points to: the block holds one of the two layouts. -/
inductive ExtraPayload where
  | v1 (e : MicrofacetExtra)
  | v2 (e : MicrofacetExtrav2)
deriving DecidableEq

/-- The closure `MicrofacetBsdf`. The first four fields are `SHADER_CLOSURE_BASE`
(`weight`, `type`, `sample_weight`, `N`); `extra = none` is the null pointer. -/
structure MicrofacetBsdf where
  weight : float3
  type : ClosureType
  sample_weight : ℚ
  N : float3
  alpha_x : ℚ
  alpha_y : ℚ
  ior : ℚ
  extra : Option ExtraPayload
  T : float3
deriving DecidableEq

/-- The part of `ShaderData` the closure reads: the view direction `sd->I`. -/
structure ShaderData where
  I : float3
deriving DecidableEq

/-- What the vector form of `fresnel_dielectric` returns and writes through its pointers. -/
structure FresnelSplit where
  fresnel : ℚ
  R : float3
  T : float3
  inside : Bool
  dRdx : float3
  dRdy : float3
  dTdx : float3
  dTdy : float3

/-- The functions this file calls that live in headers outside the sources, the lookup
tables behind `KernelGlobals`, and the compile-time switch `__RAY_DIFFERENTIALS__`. -/
structure Helpers where
  sqrtf : ℚ → ℚ
  powf : ℚ → ℚ → ℚ
  interpolate_fresnel_color : float3 → float3 → ℚ → float3 → float3
  fresnel_dielectric_cos : ℚ → ℚ → ℚ
  fresnel_dielectric : ℚ → float3 → float3 → float3 → float3 → FresnelSplit
  schlick_fresnel_Fss : float3 → float3
  metallic_Fss : float3 → float3 → ℚ → float3
  dielectric_fresnel_Fss : ℚ → ℚ
  microfacet_ggx_E : ℚ → ℚ → ℚ
  microfacet_ggx_E_avg : ℚ → ℚ
  microfacet_ggx_D : ℚ → ℚ → ℚ
  microfacet_GTR1_D : ℚ → ℚ → ℚ
  microfacet_ggx_lambda : ℚ → ℚ → ℚ
  microfacet_ggx_D_aniso : float3 → ℚ → ℚ → ℚ
  microfacet_ggx_lambda_aniso : float3 → ℚ → ℚ → ℚ
  microfacet_ggx_sample_vndf : float3 → ℚ → ℚ → ℚ → ℚ → float3
  make_orthonormals : float3 → float3 × float3
  make_orthonormals_tangent : float3 → float3 → float3 × float3
  ray_differentials : Bool

/-- Modelled from the spec: `len` of `util/math_float3.h`, the Euclidean length. -/
def len (k : Helpers) (a : float3) : ℚ := k.sqrtf (dot a a)

/-- Modelled from the spec: `normalize` of `util/math_float3.h`, the vector divided by its
length. -/
def normalize (k : Helpers) (a : float3) : Option float3 := a.div_float (len k a)

/-! ## Reflection colour and energy compensation -/

/-- The function `reflection_color`: the tint applied to the microfacet term. -/
def reflection_color (k : Helpers) (bsdf : MicrofacetBsdf) (L H : float3) : Option float3 :=
  if bsdf.type = CLOSURE_BSDF_MICROFACET_GGX_FRESNEL_ID then
    match bsdf.extra with
    | some (ExtraPayload.v1 extra) =>
      some (k.interpolate_fresnel_color L H bsdf.ior extra.cspec0)
    | _ => none
  else if bsdf.type = CLOSURE_BSDF_MICROFACET_GGX_CLEARCOAT_ID then
    some (k.interpolate_fresnel_color L H bsdf.ior (make_float3 (1 / 25) (1 / 25) (1 / 25)))
  else if bsdf.type = CLOSURE_BSDF_MICROFACET_GGX_CLEARCOAT_V2_ID then
    let f := k.fresnel_dielectric_cos (dot H L) bsdf.ior
    some (make_float3 f f f)
  else if bsdf.type = CLOSURE_BSDF_MICROFACET_GGX_FRESNEL_V2_ID then
    match bsdf.extra with
    | some (ExtraPayload.v2 extra) =>
      let cosHL := dot H L
      let metallicBlend := k.powf (1 - cosHL) extra.metal_falloff
      let metallic := mix extra.metal_base extra.metal_edge metallicBlend
      let dielectric := extra.dielectric * k.fresnel_dielectric_cos cosHL bsdf.ior
      some (metallic + make_float3 dielectric dielectric dielectric)
    | _ => none
  else
    some one_float3

/-- The function `bsdf_microfacet_fresnel_color`: folds the mean of the tint at the view
direction into `sample_weight` and caches the tint in a `MicrofacetExtra` payload. -/
def bsdf_microfacet_fresnel_color (k : Helpers) (sd : ShaderData) (bsdf : MicrofacetBsdf) :
    Option MicrofacetBsdf := do
  let average_fresnel ← reflection_color k bsdf sd.I bsdf.N
  let bsdf := { bsdf with sample_weight := bsdf.sample_weight * average average_fresnel }
  match bsdf.extra with
  | none => pure bsdf
  | some (ExtraPayload.v1 extra) =>
    pure { bsdf with extra := some (ExtraPayload.v1 { extra with fresnel_color := average_fresnel }) }
  | some (ExtraPayload.v2 _) => none

/-- The function `microfacet_ggx_albedo_scaling`: the colour energy-compensation scale. -/
def microfacet_ggx_albedo_scaling (k : Helpers) (bsdf : MicrofacetBsdf) (sd : ShaderData)
    (Fss : float3) : Option float3 := do
  let mu := dot sd.I bsdf.N
  let rough := k.sqrtf (k.sqrtf (bsdf.alpha_x * bsdf.alpha_y))
  let E := k.microfacet_ggx_E mu rough
  let E_avg := k.microfacet_ggx_E_avg rough
  let Fms ← (Fss * E_avg).div (one_float3 - Fss * (1 - E_avg))
  let r ← fdiv (1 - E) E
  pure (one_float3 + Fms * r)

/-- The function `microfacet_ggx_albedo_scaling_float`: the scalar energy-compensation
scale. -/
def microfacet_ggx_albedo_scaling_float (k : Helpers) (bsdf : MicrofacetBsdf) (sd : ShaderData)
    (Fss : ℚ) : Option ℚ := do
  let mu := dot sd.I bsdf.N
  let rough := k.sqrtf (k.sqrtf (bsdf.alpha_x * bsdf.alpha_y))
  let E := k.microfacet_ggx_E mu rough
  let E_avg := k.microfacet_ggx_E_avg rough
  let Fms ← fdiv (Fss * E_avg) (1 - Fss * (1 - E_avg))
  let r ← fdiv (1 - E) E
  pure (1 + Fms * r)

/-! ## Setup

Each setup returns the configured closure and the capability flags. -/

/-- The function `bsdf_microfacet_ggx_setup`. -/
def bsdf_microfacet_ggx_setup (bsdf : MicrofacetBsdf) : MicrofacetBsdf × Nat :=
  let bsdf := { bsdf with extra := none }
  let bsdf := { bsdf with alpha_x := saturatef bsdf.alpha_x }
  let bsdf := { bsdf with alpha_y := saturatef bsdf.alpha_y }
  let bsdf := { bsdf with type := CLOSURE_BSDF_MICROFACET_GGX_ID }
  (bsdf, SD_BSDF ||| SD_BSDF_HAS_EVAL)

/-- The function `bsdf_microfacet_ggx_isotropic_setup`. -/
def bsdf_microfacet_ggx_isotropic_setup (bsdf : MicrofacetBsdf) : MicrofacetBsdf × Nat :=
  let bsdf := { bsdf with alpha_y := bsdf.alpha_x }
  bsdf_microfacet_ggx_setup bsdf

/-- The function `bsdf_microfacet_multi_ggx_setup`. -/
def bsdf_microfacet_multi_ggx_setup (k : Helpers) (bsdf : MicrofacetBsdf) (sd : ShaderData)
    (color : float3) : Option (MicrofacetBsdf × Nat) := do
  let scale ← microfacet_ggx_albedo_scaling k bsdf sd (saturate color)
  let bsdf := { bsdf with weight := bsdf.weight * scale }
  pure (bsdf_microfacet_ggx_setup bsdf)

/-- The function `bsdf_microfacet_ggx_fresnel_setup`. -/
def bsdf_microfacet_ggx_fresnel_setup (k : Helpers) (bsdf : MicrofacetBsdf) (sd : ShaderData) :
    Option (MicrofacetBsdf × Nat) :=
  match bsdf.extra with
  | some (ExtraPayload.v1 extra) => do
    let bsdf :=
      { bsdf with extra := some (ExtraPayload.v1 { extra with cspec0 := saturate extra.cspec0 }) }
    let bsdf := { bsdf with alpha_x := saturatef bsdf.alpha_x }
    let bsdf := { bsdf with alpha_y := saturatef bsdf.alpha_y }
    let bsdf := { bsdf with type := CLOSURE_BSDF_MICROFACET_GGX_FRESNEL_ID }
    let bsdf ← bsdf_microfacet_fresnel_color k sd bsdf
    pure (bsdf, SD_BSDF ||| SD_BSDF_HAS_EVAL)
  | _ => none

/-- The function `bsdf_microfacet_multi_ggx_fresnel_setup`. -/
def bsdf_microfacet_multi_ggx_fresnel_setup (k : Helpers) (bsdf : MicrofacetBsdf)
    (sd : ShaderData) : Option (MicrofacetBsdf × Nat) :=
  match bsdf.extra with
  | some (ExtraPayload.v1 extra) => do
    let Fss := k.schlick_fresnel_Fss extra.cspec0
    let scale ← microfacet_ggx_albedo_scaling k bsdf sd Fss
    let bsdf := { bsdf with weight := bsdf.weight * scale }
    bsdf_microfacet_ggx_fresnel_setup k bsdf sd
  | _ => none

/-- The function `bsdf_microfacet_ggx_fresnel_v2_setup`. -/
def bsdf_microfacet_ggx_fresnel_v2_setup (k : Helpers) (bsdf : MicrofacetBsdf) (sd : ShaderData)
    (metallic dielectric : ℚ) : Option (MicrofacetBsdf × Nat) := do
  let bsdf := { bsdf with alpha_x := saturatef bsdf.alpha_x }
  let bsdf := { bsdf with alpha_y := saturatef bsdf.alpha_y }
  match bsdf.extra with
  | some (ExtraPayload.v2 extra) =>
    let extra ←
      if metallic > 0 then do
        let extra := { extra with metal_base := saturate extra.metal_base }
        let extra := { extra with metal_edge := saturate extra.metal_edge }
        let falloff ← fdiv 1 (clamp extra.metal_falloff (1 / 1000) 1)
        let extra := { extra with metal_falloff := falloff }
        let metal_Fss := k.metallic_Fss extra.metal_base extra.metal_edge extra.metal_falloff
        let metal_scale ← microfacet_ggx_albedo_scaling k bsdf sd metal_Fss
        let extra := { extra with metal_base := extra.metal_base * (metallic * metal_scale) }
        let extra := { extra with metal_edge := extra.metal_edge * (metallic * metal_scale) }
        pure extra
      else
        pure { extra with
          metal_falloff := 0, metal_base := zero_float3, metal_edge := zero_float3 }
    let extra ←
      if dielectric > 0 then do
        let dielectric_Fss := k.dielectric_fresnel_Fss bsdf.ior
        let scale ← microfacet_ggx_albedo_scaling_float k bsdf sd dielectric_Fss
        pure { extra with dielectric := dielectric * scale }
      else
        pure { extra with dielectric := 0 }
    let bsdf := { bsdf with extra := some (ExtraPayload.v2 extra) }
    let bsdf := { bsdf with type := CLOSURE_BSDF_MICROFACET_GGX_FRESNEL_V2_ID }
    pure (bsdf, SD_BSDF ||| SD_BSDF_HAS_EVAL)
  | _ => none

/-- The function `bsdf_microfacet_ggx_clearcoat_setup`. -/
def bsdf_microfacet_ggx_clearcoat_setup (k : Helpers) (bsdf : MicrofacetBsdf) (sd : ShaderData) :
    Option (MicrofacetBsdf × Nat) := do
  let bsdf := { bsdf with alpha_x := saturatef bsdf.alpha_x }
  let bsdf := { bsdf with alpha_y := bsdf.alpha_x }
  let bsdf := { bsdf with type := CLOSURE_BSDF_MICROFACET_GGX_CLEARCOAT_ID }
  let bsdf ← bsdf_microfacet_fresnel_color k sd bsdf
  pure (bsdf, SD_BSDF ||| SD_BSDF_HAS_EVAL)

/-- The function `bsdf_microfacet_ggx_clearcoat_v2_setup`. -/
def bsdf_microfacet_ggx_clearcoat_v2_setup (k : Helpers) (bsdf : MicrofacetBsdf)
    (sd : ShaderData) : Option (MicrofacetBsdf × Nat) := do
  let bsdf := { bsdf with alpha_x := saturatef bsdf.alpha_x }
  let bsdf := { bsdf with alpha_y := bsdf.alpha_x }
  let bsdf := { bsdf with type := CLOSURE_BSDF_MICROFACET_GGX_CLEARCOAT_V2_ID }
  let Fss := k.dielectric_fresnel_Fss bsdf.ior
  let scale ← microfacet_ggx_albedo_scaling_float k bsdf sd Fss
  let bsdf := { bsdf with weight := bsdf.weight * scale }
  let bsdf ← bsdf_microfacet_fresnel_color k sd bsdf
  pure (bsdf, SD_BSDF ||| SD_BSDF_HAS_EVAL)

/-- The function `bsdf_microfacet_ggx_refraction_setup`. -/
def bsdf_microfacet_ggx_refraction_setup (bsdf : MicrofacetBsdf) : MicrofacetBsdf × Nat :=
  let bsdf := { bsdf with extra := none }
  let bsdf := { bsdf with alpha_x := saturatef bsdf.alpha_x }
  let bsdf := { bsdf with alpha_y := bsdf.alpha_x }
  let bsdf := { bsdf with type := CLOSURE_BSDF_MICROFACET_GGX_REFRACTION_ID }
  (bsdf, SD_BSDF ||| SD_BSDF_HAS_EVAL)

/-- The function `bsdf_microfacet_ggx_blur`. -/
def bsdf_microfacet_ggx_blur (bsdf : MicrofacetBsdf) (roughness : ℚ) : MicrofacetBsdf :=
  let bsdf := { bsdf with alpha_x := fmaxf roughness bsdf.alpha_x }
  let bsdf := { bsdf with alpha_y := fmaxf roughness bsdf.alpha_y }
  bsdf

/-! ## Evaluation -/

/-- The function `bsdf_microfacet_ggx_eval_reflect`: the returned value and `*pdf`. -/
def bsdf_microfacet_ggx_eval_reflect (k : Helpers) (bsdf : MicrofacetBsdf) (I omega_in : float3) :
    Option (float3 × ℚ) :=
  let alpha_x := bsdf.alpha_x
  let alpha_y := bsdf.alpha_y
  let alpha2 := alpha_x * alpha_y
  let m_refractive : Bool := decide (bsdf.type = CLOSURE_BSDF_MICROFACET_GGX_REFRACTION_ID)
  let N := bsdf.N
  if m_refractive = true ∨ alpha2 ≤ 1 / 10000000 then
    some (make_float3 0 0 0, 0)
  else
    /- Ensure that both direction are in the upper hemisphere -/
    let cosNO := dot N I
    let cosNI := dot N omega_in
    if cosNI ≤ 0 ∨ cosNO ≤ 0 then
      some (make_float3 0 0 0, 0)
    else do
      /- Compute half vector -/
      let m ← normalize k (omega_in + I)
      let (D, lambdaO, lambdaI) :=
        if alpha_x = alpha_y then
          /- Isotropic case -/
          let (D, alpha2) :=
            if bsdf.type = CLOSURE_BSDF_MICROFACET_GGX_CLEARCOAT_ID then
              /- use GTR1 for clearcoat, then the fixed alpha2 = 0.25 * 0.25 -/
              (k.microfacet_GTR1_D (dot N m) alpha2, (1 / 16 : ℚ))
            else
              /- use GTR2 otherwise -/
              (k.microfacet_ggx_D (dot N m) alpha2, alpha2)
          (D, k.microfacet_ggx_lambda cosNO alpha2, k.microfacet_ggx_lambda cosNI alpha2)
        else
          /- Anisotropic case -/
          let Z := N
          let (X, Y) := k.make_orthonormals_tangent Z bsdf.T
          /- Transform vectors into local coordinate space -/
          let local_m := make_float3 (dot X m) (dot Y m) (dot Z m)
          let local_O := make_float3 (dot X I) (dot Y I) cosNO
          let local_I := make_float3 (dot X omega_in) (dot Y omega_in) cosNI
          (k.microfacet_ggx_D_aniso local_m alpha_x alpha_y,
            k.microfacet_ggx_lambda_aniso local_O alpha_x alpha_y,
            k.microfacet_ggx_lambda_aniso local_I alpha_x alpha_y)
      /- Evaluate BSDF -/
      let common ← fdiv (D * (1 / 4)) cosNO
      let F ← reflection_color k bsdf omega_in m
      let out ← (F * common).div_float (1 + lambdaO + lambdaI)
      let pdf ← fdiv common (1 + lambdaO)
      pure (out, pdf)

/-- The function `bsdf_microfacet_ggx_eval_transmit`: the returned value and `*pdf`. -/
def bsdf_microfacet_ggx_eval_transmit (k : Helpers) (bsdf : MicrofacetBsdf)
    (I omega_in : float3) : Option (float3 × ℚ) :=
  let alpha_x := bsdf.alpha_x
  let alpha_y := bsdf.alpha_y
  let alpha2 := alpha_x * alpha_y
  let m_eta := bsdf.ior
  let m_refractive : Bool := decide (bsdf.type = CLOSURE_BSDF_MICROFACET_GGX_REFRACTION_ID)
  let N := bsdf.N
  if m_refractive = false ∨ alpha2 ≤ 1 / 10000000 then
    some (make_float3 0 0 0, 0)
  else
    /- Ensure that both directions are in the expected hemispheres. -/
    let cosNO := dot N I
    let cosNI := dot N omega_in
    if cosNO ≤ 0 ∨ cosNI ≥ 0 then
      some (make_float3 0 0 0, 0)
    else do
      /- Compute half vector -/
      let ht := -(m_eta * omega_in + I)
      let m ← normalize k ht
      let cosMO := dot m I
      let cosMI := dot m omega_in
      /- Evaluate microfacet model -/
      let D := k.microfacet_ggx_D (dot N m) alpha2
      let lambdaO := k.microfacet_ggx_lambda cosNO alpha2
      let lambdaI := k.microfacet_ggx_lambda cosNI alpha2
      /- Evaluate BSDF -/
      let Ht2 := dot ht ht
      let common ← fdiv (fabsf (cosMI * cosMO) * D * sqr m_eta) (cosNO * Ht2)
      let out ← fdiv common (1 + lambdaO + lambdaI)
      let pdf ← fdiv common (1 + lambdaO)
      pure (make_float3 out out out, pdf)

/-! ## Sampling -/

/-- The out-parameters of `bsdf_microfacet_ggx_sample`. -/
structure SampleOut where
  eval : float3
  omega_in : float3
  domega_in_dx : float3
  domega_in_dy : float3
  pdf : ℚ
deriving DecidableEq

/-- The function `bsdf_microfacet_ggx_sample`: the returned label and the out-parameters,
which hold `out` on entry. -/
def bsdf_microfacet_ggx_sample (k : Helpers) (bsdf : MicrofacetBsdf) (Ng I dIdx dIdy : float3)
    (randu randv : ℚ) (out : SampleOut) : Option (Nat × SampleOut) :=
  let alpha_x := bsdf.alpha_x
  let alpha_y := bsdf.alpha_y
  let alpha2 := alpha_x * alpha_y
  let m_refractive : Bool := decide (bsdf.type = CLOSURE_BSDF_MICROFACET_GGX_REFRACTION_ID)
  let N := bsdf.N
  /- Ensure that the view direction is in the upper hemisphere. -/
  let cosNO := dot N I
  if cosNO ≤ 0 then
    some (LABEL_NONE, { out with pdf := 0 })
  else
    /- Form local coordinate frame -/
    let Z := N
    let (X, Y) :=
      if alpha_x = alpha_y then k.make_orthonormals Z else k.make_orthonormals_tangent Z bsdf.T
    /- Sample distribution of visible normals to find the microfacet normal. -/
    let local_O := make_float3 (dot X I) (dot Y I) cosNO
    let local_m := k.microfacet_ggx_sample_vndf local_O alpha_x alpha_y randu randv
    let m := X * local_m.x + Y * local_m.y + Z * local_m.z
    let cosThetaM := local_m.z
    /- Reflection or refraction? -/
    if m_refractive = false then
      /- Compute reflected direction and ensure that it is in the upper hemisphere. -/
      let cosMO := dot m I
      let out := { out with omega_in := (2 * cosMO) * m - I }
      if cosMO ≤ 0 ∨ dot Ng out.omega_in ≤ 0 then
        some (LABEL_NONE, { out with pdf := 0 })
      else do
        let F ← reflection_color k bsdf out.omega_in m
        if alpha2 ≤ 1 / 10000000 then
          /- Specular case, just return some high number for MIS -/
          let out := { out with pdf := 1000000 }
          let out := { out with eval := make_float3 1000000 1000000 1000000 * F }
          pure (LABEL_REFLECT ||| LABEL_SINGULAR, out)
        else
          /- Evaluate microfacet model. -/
          let (D, lambdaO, lambdaI) :=
            if alpha_x = alpha_y then
              /- Isotropic case -/
              let (D, alpha2) :=
                if bsdf.type = CLOSURE_BSDF_MICROFACET_GGX_CLEARCOAT_ID then
                  /- use GTR1 for clearcoat, then the fixed alpha2 = 0.25 * 0.25 -/
                  (k.microfacet_GTR1_D cosThetaM alpha2, (1 / 16 : ℚ))
                else
                  /- use GTR2 otherwise -/
                  (k.microfacet_ggx_D cosThetaM alpha2, alpha2)
              let cosNI := dot N out.omega_in
              (D, k.microfacet_ggx_lambda cosNO alpha2, k.microfacet_ggx_lambda cosNI alpha2)
            else
              /- Anisotropic case -/
              let D := k.microfacet_ggx_D_aniso local_m alpha_x alpha_y
              let local_I :=
                make_float3 (dot X out.omega_in) (dot Y out.omega_in) (dot N out.omega_in)
              (D, k.microfacet_ggx_lambda_aniso local_O alpha_x alpha_y,
                k.microfacet_ggx_lambda_aniso local_I alpha_x alpha_y)
          /- See bsdf_microfacet_ggx_eval_reflect for derivation. -/
          let common ← fdiv (D * (1 / 4)) cosNO
          let pdf ← fdiv common (1 + lambdaO)
          let out := { out with pdf := pdf }
          let eval ← (common * F).div_float (1 + lambdaO + lambdaI)
          let out := { out with eval := eval }
          let out :=
            if k.ray_differentials = true then
              { out with
                domega_in_dx := (2 * dot m dIdx) * m - dIdx,
                domega_in_dy := (2 * dot m dIdy) * m - dIdy }
            else out
          pure (LABEL_REFLECT ||| LABEL_GLOSSY, out)
    else
      /- Compute refracted direction -/
      let m_eta := bsdf.ior
      let split := k.fresnel_dielectric m_eta m I dIdx dIdy
      /- Ensure that the microfacet is nor masked and that we don't encounter TIR -/
      if split.inside = true ∨ split.fresnel = 1 then
        some (LABEL_NONE, { out with pdf := 0 })
      else
        let out := { out with omega_in := split.T }
        let out :=
          if k.ray_differentials = true then
            { out with domega_in_dx := split.dTdx, domega_in_dy := split.dTdy }
          else out
        if alpha2 ≤ 1 / 10000000 ∨ fabsf (m_eta - 1) < 1 / 10000 then
          /- some high number for MIS -/
          let out := { out with pdf := 1000000 }
          let out := { out with eval := make_float3 1000000 1000000 1000000 }
          some (LABEL_TRANSMIT ||| LABEL_SINGULAR, out)
        else do
          /- Evaluate microfacet model -/
          let D := k.microfacet_ggx_D cosThetaM alpha2
          let cosNI := dot N out.omega_in
          let lambdaO := k.microfacet_ggx_lambda cosNO alpha2
          let lambdaI := k.microfacet_ggx_lambda cosNI alpha2
          /- Evaluate BSDF -/
          let cosMI := dot m out.omega_in
          let cosMO := dot m I
          let Ht2 := sqr (m_eta * cosMI + cosMO)
          let common ← fdiv (fabsf (cosMI * cosMO) * D * sqr m_eta) (cosNO * Ht2)
          let out1 ← fdiv common (1 + lambdaO + lambdaI)
          let pdf ← fdiv common (1 + lambdaO)
          let out := { out with pdf := pdf }
          let out := { out with eval := make_float3 out1 out1 out1 }
          pure (LABEL_TRANSMIT ||| LABEL_GLOSSY, out)

/-! ## Payload kinds -/

/-- Whether `extra` points to a block laid out as `MicrofacetExtra`. -/
def extra_is_v1 (extra : Option ExtraPayload) : Bool :=
  match extra with
  | some (ExtraPayload.v1 _) => true
  | _ => false

/-- Whether `extra` points to a block laid out as `MicrofacetExtrav2`. -/
def extra_is_v2 (extra : Option ExtraPayload) : Bool :=
  match extra with
  | some (ExtraPayload.v2 _) => true
  | _ => false

/-- The closure with both roughness fields replaced, all other fields kept. -/
def with_roughness (bsdf : MicrofacetBsdf) (alpha_x alpha_y : ℚ) : MicrofacetBsdf :=
  { bsdf with alpha_x := alpha_x, alpha_y := alpha_y }

/-! ## The quantities the sampler forms on the way

They are the local variables of `bsdf_microfacet_ggx_sample`, named so that statements
about the sampler can refer to them. -/

/-- The local frame `(X, Y)` the sampler forms around `Z = N`. -/
def sample_frame (k : Helpers) (bsdf : MicrofacetBsdf) : float3 × float3 :=
  if bsdf.alpha_x = bsdf.alpha_y then k.make_orthonormals bsdf.N
  else k.make_orthonormals_tangent bsdf.N bsdf.T

/-- The view direction in the local frame, `local_O`. -/
def sample_local_O (k : Helpers) (bsdf : MicrofacetBsdf) (I : float3) : float3 :=
  make_float3 (dot (sample_frame k bsdf).1 I) (dot (sample_frame k bsdf).2 I) (dot bsdf.N I)

/-- The microfacet normal in the local frame drawn by the VNDF sampler, `local_m`. -/
def sample_local_m (k : Helpers) (bsdf : MicrofacetBsdf) (I : float3) (randu randv : ℚ) :
    float3 :=
  k.microfacet_ggx_sample_vndf (sample_local_O k bsdf I) bsdf.alpha_x bsdf.alpha_y randu randv

/-- The sampled microfacet normal in world space, `m`. -/
def sample_m (k : Helpers) (bsdf : MicrofacetBsdf) (I : float3) (randu randv : ℚ) : float3 :=
  (sample_frame k bsdf).1 * (sample_local_m k bsdf I randu randv).x +
    (sample_frame k bsdf).2 * (sample_local_m k bsdf I randu randv).y +
    bsdf.N * (sample_local_m k bsdf I randu randv).z

/-- The view direction reflected about the sampled normal, `2 * cosMO * m - I`. -/
def sample_reflected (k : Helpers) (bsdf : MicrofacetBsdf) (I : float3) (randu randv : ℚ) :
    float3 :=
  (2 * dot (sample_m k bsdf I randu randv) I) * sample_m k bsdf I randu randv - I

/-- The triple `(D, lambdaO, lambdaI)` the glossy reflection path of the sampler
evaluates. -/
def sample_reflect_terms (k : Helpers) (bsdf : MicrofacetBsdf) (I : float3) (randu randv : ℚ) :
    ℚ × ℚ × ℚ :=
  let alpha_x := bsdf.alpha_x
  let alpha_y := bsdf.alpha_y
  let alpha2 := alpha_x * alpha_y
  let N := bsdf.N
  let cosNO := dot N I
  let (X, Y) := sample_frame k bsdf
  let local_O := sample_local_O k bsdf I
  let local_m := sample_local_m k bsdf I randu randv
  let cosThetaM := local_m.z
  let omega_in := sample_reflected k bsdf I randu randv
  if alpha_x = alpha_y then
    let (D, alpha2) :=
      if bsdf.type = CLOSURE_BSDF_MICROFACET_GGX_CLEARCOAT_ID then
        (k.microfacet_GTR1_D cosThetaM alpha2, (1 / 16 : ℚ))
      else
        (k.microfacet_ggx_D cosThetaM alpha2, alpha2)
    let cosNI := dot N omega_in
    (D, k.microfacet_ggx_lambda cosNO alpha2, k.microfacet_ggx_lambda cosNI alpha2)
  else
    let D := k.microfacet_ggx_D_aniso local_m alpha_x alpha_y
    let local_I := make_float3 (dot X omega_in) (dot Y omega_in) (dot N omega_in)
    (D, k.microfacet_ggx_lambda_aniso local_O alpha_x alpha_y,
      k.microfacet_ggx_lambda_aniso local_I alpha_x alpha_y)

/-- The triple `(D, lambdaO, lambdaI)` that `bsdf_microfacet_ggx_eval_reflect` evaluates for
the half vector `m`. -/
def eval_reflect_terms (k : Helpers) (bsdf : MicrofacetBsdf) (I omega_in m : float3) :
    ℚ × ℚ × ℚ :=
  let alpha_x := bsdf.alpha_x
  let alpha_y := bsdf.alpha_y
  let alpha2 := alpha_x * alpha_y
  let N := bsdf.N
  let cosNO := dot N I
  let cosNI := dot N omega_in
  if alpha_x = alpha_y then
    let (D, alpha2) :=
      if bsdf.type = CLOSURE_BSDF_MICROFACET_GGX_CLEARCOAT_ID then
        (k.microfacet_GTR1_D (dot N m) alpha2, (1 / 16 : ℚ))
      else
        (k.microfacet_ggx_D (dot N m) alpha2, alpha2)
    (D, k.microfacet_ggx_lambda cosNO alpha2, k.microfacet_ggx_lambda cosNI alpha2)
  else
    let Z := N
    let (X, Y) := k.make_orthonormals_tangent Z bsdf.T
    let local_m := make_float3 (dot X m) (dot Y m) (dot Z m)
    let local_O := make_float3 (dot X I) (dot Y I) cosNO
    let local_I := make_float3 (dot X omega_in) (dot Y omega_in) cosNI
    (k.microfacet_ggx_D_aniso local_m alpha_x alpha_y,
      k.microfacet_ggx_lambda_aniso local_O alpha_x alpha_y,
      k.microfacet_ggx_lambda_aniso local_I alpha_x alpha_y)

/-- What the refraction solver returns for the sampled normal, `fresnel_dielectric(m_eta, m,
I, ...)`. -/
def sample_split (k : Helpers) (bsdf : MicrofacetBsdf) (I dIdx dIdy : float3)
    (randu randv : ℚ) : FresnelSplit :=
  k.fresnel_dielectric bsdf.ior (sample_m k bsdf I randu randv) I dIdx dIdy

/-- The out-parameters after a transmit outcome: the direction `T`, its differentials when
they are compiled in, and the given `pdf` and `eval`. -/
def sample_transmit_out (k : Helpers) (split : FresnelSplit) (out : SampleOut) (pdf : ℚ)
    (eval : float3) : SampleOut :=
  let out := { out with omega_in := split.T }
  let out :=
    if k.ray_differentials = true then
      { out with domega_in_dx := split.dTdx, domega_in_dy := split.dTdy }
    else out
  let out := { out with pdf := pdf }
  { out with eval := eval }

/-- The vectors `X`, `Y`, `Z` are of unit length and pairwise orthogonal. -/
def orthonormal (X Y Z : float3) : Prop :=
  dot X X = 1 ∧ dot Y Y = 1 ∧ dot Z Z = 1 ∧ dot X Y = 0 ∧ dot X Z = 0 ∧ dot Y Z = 0

instance (X Y Z : float3) : Decidable (orthonormal X Y Z) := by
  unfold orthonormal
  infer_instance

/-! ## A concrete instance

Rational stand-ins for the helper functions, used to run the definitions and to instantiate
the theorems at concrete inputs. They are not Cycles' implementations: those need square
roots, powers and the precomputed albedo tables. -/

/-- Cross product, used by the stand-in for `make_orthonormals_tangent`. -/
def cross (a b : float3) : float3 :=
  ⟨a.y * b.z - a.z * b.y, a.z * b.x - a.x * b.z, a.x * b.y - a.y * b.x⟩

/-- Schlick weight `(1 - c)^5`, used by the stand-ins for the Fresnel helpers. -/
def schlick_weight (c : ℚ) : ℚ := (1 - c) ^ 5

/-- Stand-in helper functions with rational values. -/
def rational_helpers : Helpers where
  sqrtf := Rat.sqrt
  powf := fun a _ => a
  interpolate_fresnel_color := fun L H _ F0 => mix F0 one_float3 (schlick_weight (dot L H))
  fresnel_dielectric_cos := fun c eta =>
    sqr ((eta - 1) / (eta + 1)) + (1 - sqr ((eta - 1) / (eta + 1))) * schlick_weight c
  fresnel_dielectric := fun eta N I dIdx dIdy =>
    { fresnel := sqr ((eta - 1) / (eta + 1)),
      R := (2 * dot N I) * N - I,
      T := -I,
      inside := false,
      dRdx := (2 * dot N dIdx) * N - dIdx,
      dRdy := (2 * dot N dIdy) * N - dIdy,
      dTdx := -dIdx,
      dTdy := -dIdy }
  schlick_fresnel_Fss := fun F0 => mix F0 one_float3 (1 / 21)
  metallic_Fss := fun base edge _ => mix base edge (1 / 21)
  dielectric_fresnel_Fss := fun eta => sqr ((eta - 1) / (eta + 1))
  microfacet_ggx_E := fun mu rough => 1 - rough * (1 - mu / 2)
  microfacet_ggx_E_avg := fun rough => 1 - rough / 2
  microfacet_ggx_D := fun c a2 => a2 / sqr (1 + (a2 - 1) * sqr c)
  microfacet_GTR1_D := fun c a2 => (a2 - 1) / (1 + (a2 - 1) * sqr c)
  microfacet_ggx_lambda := fun c a2 => a2 * (1 - sqr c) / (2 * sqr c)
  microfacet_ggx_D_aniso := fun m ax ay =>
    ax * ay / sqr (sqr (m.x * ay) + sqr (m.y * ax) + sqr (m.z * ax * ay))
  microfacet_ggx_lambda_aniso := fun w ax ay =>
    (sqr (ax * w.x) + sqr (ay * w.y)) / (2 * sqr w.z)
  microfacet_ggx_sample_vndf := fun _ _ _ _ _ => make_float3 0 0 1
  make_orthonormals := fun N => (make_float3 N.z 0 (-N.x), cross N (make_float3 N.z 0 (-N.x)))
  make_orthonormals_tangent := fun N T => (cross (cross N T) N, cross N T)
  ray_differentials := true

/-- A plain closure with `alpha_x = alpha_y = 1/2`, `ior = 3/2` and normal `(0,0,1)`. -/
def plain_closure : MicrofacetBsdf where
  weight := one_float3
  type := CLOSURE_BSDF_MICROFACET_GGX_ID
  sample_weight := 1
  N := make_float3 0 0 1
  alpha_x := 1 / 2
  alpha_y := 1 / 2
  ior := 3 / 2
  extra := none
  T := make_float3 1 0 0

/-- The direction along the normal of `plain_closure`. -/
def up : float3 := make_float3 0 0 1

/-- A unit view direction tilted away from the normal of `plain_closure`. -/
def tilted : float3 := make_float3 (3 / 5) 0 (4 / 5)

/-- The mirror image of `tilted` about the normal of `plain_closure`. -/
def tilted_mirror : float3 := make_float3 (-3 / 5) 0 (4 / 5)

/-- Out-parameters holding zeros on entry. -/
def blank_out : SampleOut where
  eval := zero_float3
  omega_in := zero_float3
  domega_in_dx := zero_float3
  domega_in_dy := zero_float3
  pdf := 0

/-- The closure `plain_closure` with zero roughness: a mirror. -/
def mirror_closure : MicrofacetBsdf := { plain_closure with alpha_x := 0, alpha_y := 0 }

/-- The closure `plain_closure` tagged as a refraction closure. -/
def refraction_closure : MicrofacetBsdf :=
  { plain_closure with type := CLOSURE_BSDF_MICROFACET_GGX_REFRACTION_ID }

/-- A closure with out-of-range roughness and a `MicrofacetExtra` payload. -/
def fresnel_closure : MicrofacetBsdf :=
  { plain_closure with
    alpha_x := 3 / 2,
    alpha_y := -1,
    extra := some (ExtraPayload.v1
      { color := one_float3, cspec0 := make_float3 2 (1 / 2) (-1), fresnel_color := zero_float3 }) }

/-- A closure with out-of-range roughness and a `MicrofacetExtrav2` payload. -/
def metal_closure : MicrofacetBsdf :=
  { plain_closure with
    alpha_x := 3 / 2,
    alpha_y := -1,
    extra := some (ExtraPayload.v2
      { metal_base := one_float3, metal_edge := one_float3, metal_falloff := 1 / 5,
        dielectric := 1 }) }

/-- The shading context whose view direction is `up`. -/
def up_context : ShaderData := { I := up }

/-- Stand-in helpers whose directional-albedo table returns 0, a value inside the range
`[0,1]` the tables are documented to have, and whose average-albedo table returns 1/2. -/
def zero_albedo_helpers : Helpers :=
  { rational_helpers with
    microfacet_ggx_E := fun _ _ => 0,
    microfacet_ggx_E_avg := fun _ => 1 / 2 }

/-- Stand-in helpers with constant albedo tables `E = 1/2` and `E_avg = 1/2`. -/
def half_albedo_helpers : Helpers :=
  { rational_helpers with
    microfacet_ggx_E := fun _ _ => 1 / 2,
    microfacet_ggx_E_avg := fun _ => 1 / 2 }

/-- Stand-in helpers whose VNDF sampler returns the unit local normal `(4/5, 0, 3/5)`, a
microfacet normal tilted away from the shading normal. -/
def tilted_vndf_helpers : Helpers :=
  { rational_helpers with
    microfacet_ggx_sample_vndf := fun _ _ _ _ _ => make_float3 (4 / 5) 0 (3 / 5) }

/-- A unit geometric normal that differs from the shading normal of `plain_closure`. -/
def tilted_normal : float3 := make_float3 (3 / 5) 0 (4 / 5)

/-- Stand-in helpers whose distributions and Smith lambdas are squares, hence non-negative
for every argument. -/
def squared_helpers : Helpers :=
  { rational_helpers with
    microfacet_ggx_D := fun c a2 => sqr (a2 / (1 + (a2 - 1) * sqr c)),
    microfacet_GTR1_D := fun c a2 => sqr (c * a2),
    microfacet_ggx_lambda := fun c a2 => sqr (a2 * (1 - c)),
    microfacet_ggx_D_aniso := fun m ax ay => sqr (ax * ay * m.z),
    microfacet_ggx_lambda_aniso := fun w ax ay => sqr (ax * w.x) + sqr (ay * w.y) }

/-- Stand-in helpers with a constant directional albedo `E = 1/2` and the average albedo
`E_avg = 1 - rough / 2`, which does not increase with roughness. -/
def flat_E_helpers : Helpers :=
  { rational_helpers with microfacet_ggx_E := fun _ _ => 1 / 2 }

/-- Stand-in helpers with the directional albedo `E = (1 + rough) / 2`, which does not
decrease with roughness, and a constant average albedo `E_avg = 1/2`. -/
def rising_E_helpers : Helpers :=
  { rational_helpers with
    microfacet_ggx_E := fun _ rough => (1 + rough) / 2,
    microfacet_ggx_E_avg := fun _ => 1 / 2 }

/-- Stand-in helpers with the directional albedo `E = 1 - rough / 2`, which does not
increase with roughness, and the average albedo `E_avg = (1 + rough) / 2`, which does not
decrease with roughness. -/
def opposed_helpers : Helpers :=
  { rational_helpers with
    microfacet_ggx_E := fun _ rough => 1 - rough / 2,
    microfacet_ggx_E_avg := fun rough => (1 + rough) / 2 }

/-- Stand-in helpers with directional albedo `E = 1/2` and average albedo `E_avg = 0`. -/
def zero_average_helpers : Helpers :=
  { rational_helpers with
    microfacet_ggx_E := fun _ _ => 1 / 2,
    microfacet_ggx_E_avg := fun _ => 0 }

/-- The closure `plain_closure` with full roughness `alpha_x = alpha_y = 1`. -/
def rough_closure : MicrofacetBsdf := { plain_closure with alpha_x := 1, alpha_y := 1 }

/-- The closure `plain_closure` with the out-of-range roughness `alpha_x = 16` and
`alpha_y = 1/16`. -/
def wide_closure : MicrofacetBsdf := { plain_closure with alpha_x := 16, alpha_y := 1 / 16 }

/-- The closure `wide_closure` with its roughness clamped to `[0,1]` beforehand. -/
def wide_closure_clamped : MicrofacetBsdf :=
  { plain_closure with alpha_x := 1, alpha_y := 1 / 16 }

/-- A refraction closure with `ior = 1`. -/
def unit_ior_closure : MicrofacetBsdf := { refraction_closure with ior := 1 }

/-- A refraction closure with `ior = 3/4`. -/
def thin_closure : MicrofacetBsdf := { refraction_closure with ior := 3 / 4 }

/-- The closure `plain_closure` tagged as a clearcoat closure. -/
def clearcoat_closure : MicrofacetBsdf :=
  { plain_closure with type := CLOSURE_BSDF_MICROFACET_GGX_CLEARCOAT_ID }

/-- A unit view direction close to grazing for the normal `(0,0,1)`. -/
def grazing : float3 := make_float3 (143 / 145) 0 (24 / 145)

/-- The refraction formula of Snell's law for a direction `I` on the outer side of the
normal `N`: `T = -(I / eta) + (cos / eta - sqrt(1 - (1 - cos^2) / eta^2)) * N`, with a
rational square root; total internal reflection reports `fresnel = 1`. The differentials
are not modelled. -/
def snell_split (eta : ℚ) (N I : float3) : FresnelSplit :=
  let cos := dot N I
  let neta := 1 / eta
  let arg := 1 - neta * neta * (1 - cos * cos)
  if cos ≤ 0 ∨ arg < 0 then
    { fresnel := 1, R := (2 * cos) * N - I, T := zero_float3, inside := decide (cos ≤ 0),
      dRdx := zero_float3, dRdy := zero_float3, dTdx := zero_float3, dTdy := zero_float3 }
  else
    { fresnel := sqr ((eta - 1) / (eta + 1)),
      R := (2 * cos) * N - I,
      T := -(neta * I) + (neta * cos - Rat.sqrt arg) * N,
      inside := false,
      dRdx := zero_float3, dRdy := zero_float3, dTdx := zero_float3, dTdy := zero_float3 }

/-- Stand-in helpers whose refraction solver follows Snell's law and whose VNDF sampler
returns the unit local normal `(20/29, 0, 21/29)`. -/
def snell_helpers : Helpers :=
  { rational_helpers with
    fresnel_dielectric := fun eta N I _ _ => snell_split eta N I,
    microfacet_ggx_sample_vndf := fun _ _ _ _ _ => make_float3 (20 / 29) 0 (21 / 29) }

/-- The closure `metal_closure` already tagged as a `FresnelV2` closure. -/
def metal_v2_closure : MicrofacetBsdf :=
  { metal_closure with type := CLOSURE_BSDF_MICROFACET_GGX_FRESNEL_V2_ID }

/-! # Theorems -/

/-! ## Vector arithmetic -/

theorem float3.add_def (a b : float3) : a + b = ⟨a.x + b.x, a.y + b.y, a.z + b.z⟩ := rfl
theorem float3.sub_def (a b : float3) : a - b = ⟨a.x - b.x, a.y - b.y, a.z - b.z⟩ := rfl
theorem float3.neg_def (a : float3) : -a = ⟨-a.x, -a.y, -a.z⟩ := rfl
theorem float3.mul_def (a b : float3) : a * b = ⟨a.x * b.x, a.y * b.y, a.z * b.z⟩ := rfl
theorem float3.scale_def (a : float3) (f : ℚ) : a * f = ⟨a.x * f, a.y * f, a.z * f⟩ := rfl
theorem float3.smul_def (f : ℚ) (a : float3) : f * a = ⟨a.x * f, a.y * f, a.z * f⟩ := rfl

theorem rat_sqrt_mul_self (q : ℚ) (h : 0 ≤ q) : Rat.sqrt (q * q) = q := by
  rw [Rat.sqrt_eq, abs_of_nonneg h]

theorem one_scale_div_float (c d : ℚ) :
    (one_float3 * c).div_float d = (fdiv c d).map (fun q => make_float3 q q q) := by
  unfold float3.div_float fdiv
  by_cases h : d = 0 <;> simp [h, one_float3, make_float3, float3.scale_def]

/-! ## The paths of the evaluator and of the sampler -/

theorem eval_reflect_unfold (k : Helpers) (bsdf : MicrofacetBsdf) (I omega_in : float3)
    (hR : bsdf.type ≠ CLOSURE_BSDF_MICROFACET_GGX_REFRACTION_ID)
    (ha : 1 / 10000000 < bsdf.alpha_x * bsdf.alpha_y)
    (hO : 0 < dot bsdf.N I) (hI : 0 < dot bsdf.N omega_in) :
    bsdf_microfacet_ggx_eval_reflect k bsdf I omega_in =
      (normalize k (omega_in + I)).bind fun m =>
      (fdiv ((eval_reflect_terms k bsdf I omega_in m).1 * (1 / 4)) (dot bsdf.N I)).bind
        fun common =>
      (reflection_color k bsdf omega_in m).bind fun F =>
      ((F * common).div_float (1 + (eval_reflect_terms k bsdf I omega_in m).2.1 +
        (eval_reflect_terms k bsdf I omega_in m).2.2)).bind fun value =>
      (fdiv common (1 + (eval_reflect_terms k bsdf I omega_in m).2.1)).bind fun pdf =>
      some (value, pdf) := by
  unfold bsdf_microfacet_ggx_eval_reflect eval_reflect_terms
  simp only [decide_eq_true_eq, hR, false_or, not_le.mpr ha, not_le.mpr hO, not_le.mpr hI,
    or_self, if_false]
  by_cases h1 : bsdf.alpha_x = bsdf.alpha_y <;>
    by_cases h2 : bsdf.type = CLOSURE_BSDF_MICROFACET_GGX_CLEARCOAT_ID <;>
    simp only [h1, h2, if_true, if_false] <;> rfl

theorem sample_reflect_unfold (k : Helpers) (bsdf : MicrofacetBsdf) (Ng I dIdx dIdy : float3)
    (randu randv : ℚ) (out : SampleOut)
    (hR : bsdf.type ≠ CLOSURE_BSDF_MICROFACET_GGX_REFRACTION_ID) (hO : 0 < dot bsdf.N I) :
    bsdf_microfacet_ggx_sample k bsdf Ng I dIdx dIdy randu randv out =
      if dot (sample_m k bsdf I randu randv) I ≤ 0 ∨
          dot Ng (sample_reflected k bsdf I randu randv) ≤ 0 then
        some (LABEL_NONE,
          { out with omega_in := sample_reflected k bsdf I randu randv, pdf := 0 })
      else
        (reflection_color k bsdf (sample_reflected k bsdf I randu randv)
          (sample_m k bsdf I randu randv)).bind fun F =>
        if bsdf.alpha_x * bsdf.alpha_y ≤ 1 / 10000000 then
          some (LABEL_REFLECT ||| LABEL_SINGULAR,
            { out with
              omega_in := sample_reflected k bsdf I randu randv,
              pdf := 1000000,
              eval := make_float3 1000000 1000000 1000000 * F })
        else
          (fdiv ((sample_reflect_terms k bsdf I randu randv).1 * (1 / 4)) (dot bsdf.N I)).bind
            fun common =>
          (fdiv common (1 + (sample_reflect_terms k bsdf I randu randv).2.1)).bind fun pdf =>
          ((common * F).div_float (1 + (sample_reflect_terms k bsdf I randu randv).2.1 +
            (sample_reflect_terms k bsdf I randu randv).2.2)).bind fun eval =>
          some (LABEL_REFLECT ||| LABEL_GLOSSY,
            if k.ray_differentials = true then
              { out with
                omega_in := sample_reflected k bsdf I randu randv,
                pdf := pdf,
                eval := eval,
                domega_in_dx :=
                  (2 * dot (sample_m k bsdf I randu randv) dIdx) * sample_m k bsdf I randu randv
                    - dIdx,
                domega_in_dy :=
                  (2 * dot (sample_m k bsdf I randu randv) dIdy) * sample_m k bsdf I randu randv
                    - dIdy }
            else
              { out with
                omega_in := sample_reflected k bsdf I randu randv,
                pdf := pdf,
                eval := eval }) := by
  unfold bsdf_microfacet_ggx_sample sample_reflect_terms sample_reflected sample_m
    sample_local_m sample_local_O sample_frame
  simp only [decide_eq_true_eq, decide_eq_false_iff_not, hR, not_le.mpr hO, if_false,
    not_false_eq_true, if_true, decide_False]
  by_cases h1 : bsdf.alpha_x = bsdf.alpha_y <;>
    by_cases h2 : bsdf.type = CLOSURE_BSDF_MICROFACET_GGX_CLEARCOAT_ID <;>
    simp only [h1, h2, if_true, if_false] <;> rfl

theorem float3.ext_iff3 (a b : float3) : a = b ↔ a.x = b.x ∧ a.y = b.y ∧ a.z = b.z := by
  cases a; cases b; simp

theorem normalize_reflected (k : Helpers) (m I : float3)
    (hsqrt : ∀ q : ℚ, 0 < q → k.sqrtf (q * q) = q)
    (hm : dot m m = 1) (hc : 0 < dot m I) :
    normalize k ((2 * dot m I) * m - I + I) = some m := by
  have hsum : (2 * dot m I) * m - I + I = (2 * dot m I) * m := by
    rw [float3.ext_iff3]
    simp [float3.add_def, float3.sub_def, float3.smul_def]
  have hlen : dot ((2 * dot m I) * m) ((2 * dot m I) * m) = (2 * dot m I) * (2 * dot m I) := by
    have : dot ((2 * dot m I) * m) ((2 * dot m I) * m) =
        (2 * dot m I) * (2 * dot m I) * dot m m := by
      simp only [dot, float3.smul_def]
      ring
    rw [this, hm, mul_one]
  have hpos : (0 : ℚ) < 2 * dot m I := by linarith
  rw [hsum]
  unfold normalize len
  rw [hlen, hsqrt _ hpos]
  unfold float3.div_float
  rw [if_neg (ne_of_gt hpos)]
  congr 1
  rw [float3.ext_iff3]
  simp only [float3.smul_def]
  refine ⟨?_, ?_, ?_⟩ <;> field_simp

theorem dot_frame (X Y Z l : float3) (h : orthonormal X Y Z) :
    dot X (X * l.x + Y * l.y + Z * l.z) = l.x ∧ dot Y (X * l.x + Y * l.y + Z * l.z) = l.y ∧
      dot Z (X * l.x + Y * l.y + Z * l.z) = l.z := by
  obtain ⟨hXX, hYY, hZZ, hXY, hXZ, hYZ⟩ := h
  simp only [dot, float3.add_def, float3.scale_def] at *
  refine ⟨?_, ?_, ?_⟩
  · linear_combination l.x * hXX + l.y * hXY + l.z * hXZ
  · linear_combination l.x * hXY + l.y * hYY + l.z * hYZ
  · linear_combination l.x * hXZ + l.y * hYZ + l.z * hZZ

theorem reflect_terms_agree (k : Helpers) (bsdf : MicrofacetBsdf) (I : float3) (randu randv : ℚ)
    (hframe : orthonormal (sample_frame k bsdf).1 (sample_frame k bsdf).2 bsdf.N) :
    eval_reflect_terms k bsdf I (sample_reflected k bsdf I randu randv)
      (sample_m k bsdf I randu randv) = sample_reflect_terms k bsdf I randu randv := by
  obtain ⟨hx, hy, hz⟩ := dot_frame _ _ _ (sample_local_m k bsdf I randu randv) hframe
  have hmx : dot (sample_frame k bsdf).1 (sample_m k bsdf I randu randv) =
      (sample_local_m k bsdf I randu randv).x := hx
  have hmy : dot (sample_frame k bsdf).2 (sample_m k bsdf I randu randv) =
      (sample_local_m k bsdf I randu randv).y := hy
  have hmz : dot bsdf.N (sample_m k bsdf I randu randv) =
      (sample_local_m k bsdf I randu randv).z := hz
  unfold eval_reflect_terms sample_reflect_terms
  by_cases h1 : bsdf.alpha_x = bsdf.alpha_y
  · by_cases h2 : bsdf.type = CLOSURE_BSDF_MICROFACET_GGX_CLEARCOAT_ID <;>
      simp only [h1, h2, if_true, if_false, hmz]
  · have hfr : sample_frame k bsdf = k.make_orthonormals_tangent bsdf.N bsdf.T := by
      unfold sample_frame
      rw [if_neg h1]
    rw [hfr] at hmx hmy
    simp only [h1, if_false, hmz, hmx, hmy, hfr, sample_local_O, make_float3]

theorem sample_below_unfold (k : Helpers) (bsdf : MicrofacetBsdf) (Ng I dIdx dIdy : float3)
    (randu randv : ℚ) (out : SampleOut) (hO : dot bsdf.N I ≤ 0) :
    bsdf_microfacet_ggx_sample k bsdf Ng I dIdx dIdy randu randv out =
      some (LABEL_NONE, { out with pdf := 0 }) := by
  unfold bsdf_microfacet_ggx_sample
  simp only [hO, if_true]

theorem sample_refract_unfold (k : Helpers) (bsdf : MicrofacetBsdf) (Ng I dIdx dIdy : float3)
    (randu randv : ℚ) (out : SampleOut)
    (hR : bsdf.type = CLOSURE_BSDF_MICROFACET_GGX_REFRACTION_ID) (hO : 0 < dot bsdf.N I) :
    bsdf_microfacet_ggx_sample k bsdf Ng I dIdx dIdy randu randv out =
      if (sample_split k bsdf I dIdx dIdy randu randv).inside = true ∨
          (sample_split k bsdf I dIdx dIdy randu randv).fresnel = 1 then
        some (LABEL_NONE, { out with pdf := 0 })
      else if bsdf.alpha_x * bsdf.alpha_y ≤ 1 / 10000000 ∨ fabsf (bsdf.ior - 1) < 1 / 10000 then
        some (LABEL_TRANSMIT ||| LABEL_SINGULAR,
          sample_transmit_out k (sample_split k bsdf I dIdx dIdy randu randv) out 1000000
            (make_float3 1000000 1000000 1000000))
      else
        (fdiv
          (fabsf (dot (sample_m k bsdf I randu randv)
              (sample_split k bsdf I dIdx dIdy randu randv).T *
              dot (sample_m k bsdf I randu randv) I) *
            k.microfacet_ggx_D (sample_local_m k bsdf I randu randv).z
              (bsdf.alpha_x * bsdf.alpha_y) * sqr bsdf.ior)
          (dot bsdf.N I *
            sqr (bsdf.ior * dot (sample_m k bsdf I randu randv)
              (sample_split k bsdf I dIdx dIdy randu randv).T +
              dot (sample_m k bsdf I randu randv) I))).bind fun common =>
        (fdiv common
          (1 + k.microfacet_ggx_lambda (dot bsdf.N I) (bsdf.alpha_x * bsdf.alpha_y) +
            k.microfacet_ggx_lambda
              (dot bsdf.N (sample_split k bsdf I dIdx dIdy randu randv).T)
              (bsdf.alpha_x * bsdf.alpha_y))).bind fun out1 =>
        (fdiv common
          (1 + k.microfacet_ggx_lambda (dot bsdf.N I) (bsdf.alpha_x * bsdf.alpha_y))).bind
            fun pdf =>
        some (LABEL_TRANSMIT ||| LABEL_GLOSSY,
          sample_transmit_out k (sample_split k bsdf I dIdx dIdy randu randv) out pdf
            (make_float3 out1 out1 out1)) := by
  unfold bsdf_microfacet_ggx_sample sample_transmit_out sample_split sample_m
    sample_local_m sample_local_O sample_frame
  simp only [hR, decide_True, Bool.true_eq_false, if_false, not_le.mpr hO]
  by_cases h1 : bsdf.alpha_x = bsdf.alpha_y <;>
    by_cases hrd : k.ray_differentials = true <;>
    simp only [h1, hrd, if_true, if_false] <;> rfl

theorem sample_refract_label (k : Helpers) (bsdf : MicrofacetBsdf) (Ng I dIdx dIdy : float3)
    (randu randv : ℚ) (out res : SampleOut) (label : Nat)
    (hR : bsdf.type = CLOSURE_BSDF_MICROFACET_GGX_REFRACTION_ID)
    (hs : bsdf_microfacet_ggx_sample k bsdf Ng I dIdx dIdy randu randv out = some (label, res)) :
    label = LABEL_NONE ∨ label = LABEL_TRANSMIT ||| LABEL_SINGULAR ∨
      label = LABEL_TRANSMIT ||| LABEL_GLOSSY := by
  by_cases hO : dot bsdf.N I ≤ 0
  · rw [sample_below_unfold k bsdf Ng I dIdx dIdy randu randv out hO] at hs
    exact Or.inl (Prod.mk.inj (Option.some.inj hs)).1.symm
  · rw [sample_refract_unfold k bsdf Ng I dIdx dIdy randu randv out hR (not_le.mp hO)] at hs
    split_ifs at hs with h1 h2
    · exact Or.inl (Prod.mk.inj (Option.some.inj hs)).1.symm
    · exact Or.inr (Or.inl (Prod.mk.inj (Option.some.inj hs)).1.symm)
    · simp only [Option.bind_eq_some] at hs
      obtain ⟨c, -, o, -, p, -, hs⟩ := hs
      exact Or.inr (Or.inr (Prod.mk.inj (Option.some.inj hs)).1.symm)

theorem sample_reflect_inv (k : Helpers) (bsdf : MicrofacetBsdf) (Ng I dIdx dIdy : float3)
    (randu randv : ℚ) (out res : SampleOut) (label : Nat)
    (hR : bsdf.type ≠ CLOSURE_BSDF_MICROFACET_GGX_REFRACTION_ID)
    (hs : bsdf_microfacet_ggx_sample k bsdf Ng I dIdx dIdy randu randv out = some (label, res)) :
    label = LABEL_NONE ∨
      (0 < dot bsdf.N I ∧ 0 < dot (sample_m k bsdf I randu randv) I ∧
        0 < dot Ng (sample_reflected k bsdf I randu randv) ∧
        res.omega_in = sample_reflected k bsdf I randu randv ∧
        ((label = LABEL_REFLECT ||| LABEL_SINGULAR ∧
            bsdf.alpha_x * bsdf.alpha_y ≤ 1 / 10000000) ∨
          (label = LABEL_REFLECT ||| LABEL_GLOSSY ∧
            1 / 10000000 < bsdf.alpha_x * bsdf.alpha_y))) := by
  by_cases hO : dot bsdf.N I ≤ 0
  · rw [sample_below_unfold k bsdf Ng I dIdx dIdy randu randv out hO] at hs
    exact Or.inl (Prod.mk.inj (Option.some.inj hs)).1.symm
  · rw [sample_reflect_unfold k bsdf Ng I dIdx dIdy randu randv out hR (not_le.mp hO)] at hs
    by_cases hrej : dot (sample_m k bsdf I randu randv) I ≤ 0 ∨
        dot Ng (sample_reflected k bsdf I randu randv) ≤ 0
    · rw [if_pos hrej] at hs
      exact Or.inl (Prod.mk.inj (Option.some.inj hs)).1.symm
    · rw [if_neg hrej] at hs
      rw [not_or, not_le, not_le] at hrej
      refine Or.inr ⟨not_le.mp hO, hrej.1, hrej.2, ?_⟩
      simp only [Option.bind_eq_some] at hs
      obtain ⟨F, -, hs⟩ := hs
      by_cases hsing : bsdf.alpha_x * bsdf.alpha_y ≤ 1 / 10000000
      · rw [if_pos hsing] at hs
        obtain ⟨hl, hres⟩ := Prod.mk.inj (Option.some.inj hs)
        exact ⟨by rw [← hres], Or.inl ⟨hl.symm, hsing⟩⟩
      · rw [if_neg hsing] at hs
        simp only [Option.bind_eq_some] at hs
        obtain ⟨c, -, p, -, e, -, hs⟩ := hs
        obtain ⟨hl, hres⟩ := Prod.mk.inj (Option.some.inj hs)
        refine ⟨?_, Or.inr ⟨hl.symm, not_le.mp hsing⟩⟩
        rw [← hres]
        split_ifs <;> rfl

theorem plain_sample_tilted :
    bsdf_microfacet_ggx_sample rational_helpers plain_closure up tilted up up 0 0 blank_out =
      some (LABEL_REFLECT ||| LABEL_GLOSSY,
        { eval := make_float3 (80 / 73) (80 / 73) (80 / 73),
          omega_in := tilted_mirror,
          domega_in_dx := up,
          domega_in_dy := up,
          pdf := 160 / 137 }) := by
  rw [sample_reflect_unfold _ _ _ _ _ _ _ _ _ (by decide)
    (by norm_num [plain_closure, tilted, dot, make_float3])]
  simp [rational_helpers, plain_closure, sample_m, sample_reflected, sample_local_m,
    sample_local_O, sample_frame, sample_reflect_terms, dot, make_float3, cross,
    float3.add_def, float3.sub_def, float3.scale_def, float3.smul_def, float3.mul_def, fdiv,
    float3.div_float, reflection_color, one_float3, zero_float3, sqr, tilted, tilted_mirror, up,
    blank_out]
  norm_num

/-! ## Evaluation of reflection -/

/-- C1: for a closure that is neither Refraction nor Clearcoat, with `alpha_x = alpha_y`,
`alpha_x * alpha_y > 1e-7` and both directions above the surface,
`bsdf_microfacet_ggx_eval_reflect` returns `value = reflection_color(bsdf, omega_in, m) * c /
(1 + LO + LI)` and `pdf = c / (1 + LO)` with `m = normalize(omega_in + I)`,
`c = D * 0.25 / dot(N, I)`, `D = microfacet_ggx_D(dot(N, m), alpha_x * alpha_y)`, and `LO`,
`LI` the Smith lambda at `dot(N, I)` and `dot(N, omega_in)`; for the plain variant the tint
is white and every channel of the value is `c / (1 + LO + LI)`. -/
theorem eval_reflect_isotropic_formula (k : Helpers) (bsdf : MicrofacetBsdf)
    (I omega_in : float3)
    (hR : bsdf.type ≠ CLOSURE_BSDF_MICROFACET_GGX_REFRACTION_ID)
    (hC : bsdf.type ≠ CLOSURE_BSDF_MICROFACET_GGX_CLEARCOAT_ID)
    (hiso : bsdf.alpha_x = bsdf.alpha_y)
    (ha : 1 / 10000000 < bsdf.alpha_x * bsdf.alpha_y)
    (hO : 0 < dot bsdf.N I) (hI : 0 < dot bsdf.N omega_in) :
    bsdf_microfacet_ggx_eval_reflect k bsdf I omega_in =
      (do
        let m ← normalize k (omega_in + I)
        let D := k.microfacet_ggx_D (dot bsdf.N m) (bsdf.alpha_x * bsdf.alpha_y)
        let LO := k.microfacet_ggx_lambda (dot bsdf.N I) (bsdf.alpha_x * bsdf.alpha_y)
        let LI := k.microfacet_ggx_lambda (dot bsdf.N omega_in) (bsdf.alpha_x * bsdf.alpha_y)
        let c ← fdiv (D * (1 / 4)) (dot bsdf.N I)
        let F ← reflection_color k bsdf omega_in m
        let value ← (F * c).div_float (1 + LO + LI)
        let pdf ← fdiv c (1 + LO)
        pure (value, pdf)) ∧
    (bsdf.type = CLOSURE_BSDF_MICROFACET_GGX_ID →
      bsdf_microfacet_ggx_eval_reflect k bsdf I omega_in =
        (do
          let m ← normalize k (omega_in + I)
          let D := k.microfacet_ggx_D (dot bsdf.N m) (bsdf.alpha_x * bsdf.alpha_y)
          let LO := k.microfacet_ggx_lambda (dot bsdf.N I) (bsdf.alpha_x * bsdf.alpha_y)
          let LI := k.microfacet_ggx_lambda (dot bsdf.N omega_in) (bsdf.alpha_x * bsdf.alpha_y)
          let c ← fdiv (D * (1 / 4)) (dot bsdf.N I)
          let value ← fdiv c (1 + LO + LI)
          let pdf ← fdiv c (1 + LO)
          pure (make_float3 value value value, pdf))) := by
  have key : bsdf_microfacet_ggx_eval_reflect k bsdf I omega_in =
      (do
        let m ← normalize k (omega_in + I)
        let D := k.microfacet_ggx_D (dot bsdf.N m) (bsdf.alpha_x * bsdf.alpha_y)
        let LO := k.microfacet_ggx_lambda (dot bsdf.N I) (bsdf.alpha_x * bsdf.alpha_y)
        let LI := k.microfacet_ggx_lambda (dot bsdf.N omega_in) (bsdf.alpha_x * bsdf.alpha_y)
        let c ← fdiv (D * (1 / 4)) (dot bsdf.N I)
        let F ← reflection_color k bsdf omega_in m
        let value ← (F * c).div_float (1 + LO + LI)
        let pdf ← fdiv c (1 + LO)
        pure (value, pdf)) := by
    unfold bsdf_microfacet_ggx_eval_reflect
    simp only [decide_eq_true_eq, hR, false_or, not_le.mpr ha, not_le.mpr hO, not_le.mpr hI,
      or_self, if_false]
    simp only [hiso, if_true, hC, if_false]
  refine ⟨key, fun hP => ?_⟩
  rw [key]
  have hF : ∀ m, reflection_color k bsdf omega_in m = some one_float3 := by
    intro m
    simp [reflection_color, hP]
  simp only [hF, Option.bind_eq_bind, Option.some_bind, Option.pure_def, one_scale_div_float]
  cases normalize k (omega_in + I) with
  | none => rfl
  | some m =>
    simp only [Option.some_bind]
    cases fdiv (k.microfacet_ggx_D (dot bsdf.N m) (bsdf.alpha_x * bsdf.alpha_y) * (1 / 4))
      (dot bsdf.N I) with
    | none => rfl
    | some c =>
      simp only [Option.some_bind]
      cases fdiv c (1 + k.microfacet_ggx_lambda (dot bsdf.N I) (bsdf.alpha_x * bsdf.alpha_y) +
        k.microfacet_ggx_lambda (dot bsdf.N omega_in) (bsdf.alpha_x * bsdf.alpha_y)) <;> simp

/-- Witness for C1: the plain closure with `alpha_x = alpha_y = 1/2`, view and light along
the normal, evaluates to value `(1, 1, 1)` and pdf `1` under the stand-in helpers. -/
theorem eval_reflect_isotropic_formula_witness :
    plain_closure.type ≠ CLOSURE_BSDF_MICROFACET_GGX_REFRACTION_ID ∧
    plain_closure.type ≠ CLOSURE_BSDF_MICROFACET_GGX_CLEARCOAT_ID ∧
    plain_closure.alpha_x = plain_closure.alpha_y ∧
    1 / 10000000 < plain_closure.alpha_x * plain_closure.alpha_y ∧
    0 < dot plain_closure.N up ∧
    bsdf_microfacet_ggx_eval_reflect rational_helpers plain_closure up up =
      some (make_float3 1 1 1, 1) := by
  refine ⟨by decide, by decide, rfl, by norm_num [plain_closure],
    by norm_num [plain_closure, up, dot, make_float3], ?_⟩
  rw [(eval_reflect_isotropic_formula rational_helpers plain_closure up up (by decide)
    (by decide) rfl (by norm_num [plain_closure])
    (by norm_num [plain_closure, up, dot, make_float3])
    (by norm_num [plain_closure, up, dot, make_float3])).1]
  have h4 : (4 : ℚ) = 2 * 2 := by norm_num
  simp [normalize, len, rational_helpers, plain_closure, up, dot, make_float3, float3.add_def,
    float3.div_float, fdiv, reflection_color, one_float3, float3.scale_def, sqr]
  norm_num [h4, rat_sqrt_mul_self]

/-- C2: `bsdf_microfacet_ggx_eval_reflect` returns value `(0,0,0)` and pdf `0` whenever the
closure is a Refraction closure, or `alpha_x * alpha_y <= 1e-7`, or `dot(N, I) <= 0`, or
`dot(N, omega_in) <= 0`. -/
theorem eval_reflect_rejects (k : Helpers) (bsdf : MicrofacetBsdf) (I omega_in : float3)
    (h : bsdf.type = CLOSURE_BSDF_MICROFACET_GGX_REFRACTION_ID ∨
      bsdf.alpha_x * bsdf.alpha_y ≤ 1 / 10000000 ∨ dot bsdf.N I ≤ 0 ∨
      dot bsdf.N omega_in ≤ 0) :
    bsdf_microfacet_ggx_eval_reflect k bsdf I omega_in = some (make_float3 0 0 0, 0) := by
  unfold bsdf_microfacet_ggx_eval_reflect
  simp only [decide_eq_true_eq]
  by_cases h1 : bsdf.type = CLOSURE_BSDF_MICROFACET_GGX_REFRACTION_ID ∨
      bsdf.alpha_x * bsdf.alpha_y ≤ 1 / 10000000
  · rw [if_pos h1]
  · rw [if_neg h1]
    have h2 : dot bsdf.N omega_in ≤ 0 ∨ dot bsdf.N I ≤ 0 := by
      rcases h with h | h | h | h
      · exact absurd (Or.inl h) h1
      · exact absurd (Or.inr h) h1
      · exact Or.inr h
      · exact Or.inl h
    rw [if_pos h2]

/-- Witness for C2: a light direction below the surface of the plain closure is rejected. -/
theorem eval_reflect_rejects_witness :
    dot plain_closure.N (-up) ≤ 0 ∧
    bsdf_microfacet_ggx_eval_reflect rational_helpers plain_closure up (-up) =
      some (make_float3 0 0 0, 0) :=
  ⟨by norm_num [plain_closure, up, dot, make_float3, float3.neg_def],
    eval_reflect_rejects rational_helpers plain_closure up (-up)
      (Or.inr (Or.inr (Or.inr
        (by norm_num [plain_closure, up, dot, make_float3, float3.neg_def]))))⟩

/-! ## Sampling -/

/-- C3: sample and eval agree on reflection. For a non-Refraction closure whose local frame
`(X, Y, N)` is orthonormal, a view `I` with `dot(N, I) > 0` and a unit sampled microfacet
normal `m`, if `bsdf_microfacet_ggx_sample` returns `LABEL_REFLECT | LABEL_GLOSSY` with
direction `omega_in` and `dot(N, omega_in) > 0`, then the `eval` and `pdf` it writes are the
value and pdf `bsdf_microfacet_ggx_eval_reflect` returns for `(I, omega_in)`; the isotropic,
Clearcoat and anisotropic paths are all covered. The square root is exact on squares. -/
theorem sample_reflect_agrees_with_eval (k : Helpers) (bsdf : MicrofacetBsdf)
    (Ng I dIdx dIdy : float3) (randu randv : ℚ) (out res : SampleOut)
    (hR : bsdf.type ≠ CLOSURE_BSDF_MICROFACET_GGX_REFRACTION_ID)
    (hframe : orthonormal (sample_frame k bsdf).1 (sample_frame k bsdf).2 bsdf.N)
    (hsqrt : ∀ q : ℚ, 0 < q → k.sqrtf (q * q) = q)
    (hO : 0 < dot bsdf.N I)
    (hm : dot (sample_m k bsdf I randu randv) (sample_m k bsdf I randu randv) = 1)
    (hs : bsdf_microfacet_ggx_sample k bsdf Ng I dIdx dIdy randu randv out =
      some (LABEL_REFLECT ||| LABEL_GLOSSY, res))
    (hI : 0 < dot bsdf.N res.omega_in) :
    bsdf_microfacet_ggx_eval_reflect k bsdf I res.omega_in = some (res.eval, res.pdf) := by
  rw [sample_reflect_unfold k bsdf Ng I dIdx dIdy randu randv out hR hO] at hs
  by_cases hrej : dot (sample_m k bsdf I randu randv) I ≤ 0 ∨
      dot Ng (sample_reflected k bsdf I randu randv) ≤ 0
  · rw [if_pos hrej] at hs
    exact absurd (Prod.mk.inj (Option.some.inj hs)).1
      (by decide : LABEL_NONE ≠ LABEL_REFLECT ||| LABEL_GLOSSY)
  · rw [if_neg hrej] at hs
    have hMO : 0 < dot (sample_m k bsdf I randu randv) I := by
      by_contra hcon
      exact hrej (Or.inl (not_lt.mp hcon))
    cases hF : reflection_color k bsdf (sample_reflected k bsdf I randu randv)
        (sample_m k bsdf I randu randv) with
    | none =>
      rw [hF] at hs
      exact absurd hs (by simp)
    | some F =>
      rw [hF, Option.some_bind] at hs
      by_cases hsing : bsdf.alpha_x * bsdf.alpha_y ≤ 1 / 10000000
      · rw [if_pos hsing] at hs
        exact absurd (Prod.mk.inj (Option.some.inj hs)).1
          (by decide : LABEL_REFLECT ||| LABEL_SINGULAR ≠ LABEL_REFLECT ||| LABEL_GLOSSY)
      · rw [if_neg hsing] at hs
        cases hc : fdiv ((sample_reflect_terms k bsdf I randu randv).1 * (1 / 4))
            (dot bsdf.N I) with
        | none =>
          rw [hc] at hs
          exact absurd hs (by simp)
        | some common =>
          rw [hc, Option.some_bind] at hs
          cases hp : fdiv common (1 + (sample_reflect_terms k bsdf I randu randv).2.1) with
          | none =>
            rw [hp] at hs
            exact absurd hs (by simp)
          | some pdf =>
            rw [hp, Option.some_bind] at hs
            cases he : (common * F).div_float
                (1 + (sample_reflect_terms k bsdf I randu randv).2.1 +
                  (sample_reflect_terms k bsdf I randu randv).2.2) with
            | none =>
              rw [he] at hs
              exact absurd hs (by simp)
            | some ev =>
              rw [he, Option.some_bind] at hs
              have hres := (Prod.mk.inj (Option.some.inj hs)).2
              have ho : res.omega_in = sample_reflected k bsdf I randu randv := by
                rw [← hres]
                split_ifs <;> rfl
              have hpdf : res.pdf = pdf := by
                rw [← hres]
                split_ifs <;> rfl
              have hev : res.eval = ev := by
                rw [← hres]
                split_ifs <;> rfl
              have he2 : (F * common).div_float
                  (1 + (sample_reflect_terms k bsdf I randu randv).2.1 +
                    (sample_reflect_terms k bsdf I randu randv).2.2) = some ev := he
              rw [ho] at hI
              rw [ho, hpdf, hev, eval_reflect_unfold k bsdf I _ hR (not_le.mp hsing) hO hI]
              have hn : normalize k (sample_reflected k bsdf I randu randv + I) =
                  some (sample_m k bsdf I randu randv) :=
                normalize_reflected k _ I hsqrt hm hMO
              rw [hn, Option.some_bind, reflect_terms_agree k bsdf I randu randv hframe, hc,
                Option.some_bind, hF, Option.some_bind, he2, Option.some_bind, hp,
                Option.some_bind]

/-- Witness for C3: the plain closure, viewed from `tilted`, samples the mirror direction
with eval `80/73` per channel and pdf `160/137`, and eval returns the same pair. -/
theorem sample_reflect_agrees_with_eval_witness :
    orthonormal (sample_frame rational_helpers plain_closure).1
      (sample_frame rational_helpers plain_closure).2 plain_closure.N ∧
    (∀ q : ℚ, 0 < q → rational_helpers.sqrtf (q * q) = q) ∧
    0 < dot plain_closure.N tilted ∧
    dot (sample_m rational_helpers plain_closure tilted 0 0)
      (sample_m rational_helpers plain_closure tilted 0 0) = 1 ∧
    bsdf_microfacet_ggx_sample rational_helpers plain_closure up tilted up up 0 0 blank_out =
      some (LABEL_REFLECT ||| LABEL_GLOSSY,
        { eval := make_float3 (80 / 73) (80 / 73) (80 / 73),
          omega_in := tilted_mirror,
          domega_in_dx := up,
          domega_in_dy := up,
          pdf := 160 / 137 }) ∧
    bsdf_microfacet_ggx_eval_reflect rational_helpers plain_closure tilted tilted_mirror =
      some (make_float3 (80 / 73) (80 / 73) (80 / 73), 160 / 137) := by
  have hframe : orthonormal (sample_frame rational_helpers plain_closure).1
      (sample_frame rational_helpers plain_closure).2 plain_closure.N := by
    simp [orthonormal, sample_frame, rational_helpers, plain_closure, dot, make_float3, cross]
  have hsqrt : ∀ q : ℚ, 0 < q → rational_helpers.sqrtf (q * q) = q :=
    fun q hq => rat_sqrt_mul_self q (le_of_lt hq)
  have hO : 0 < dot plain_closure.N tilted := by
    norm_num [plain_closure, tilted, dot, make_float3]
  have hm : dot (sample_m rational_helpers plain_closure tilted 0 0)
      (sample_m rational_helpers plain_closure tilted 0 0) = 1 := by
    simp [sample_m, sample_local_m, sample_frame, rational_helpers, plain_closure, dot,
      make_float3, cross, float3.add_def, float3.scale_def]
  have h := sample_reflect_agrees_with_eval rational_helpers plain_closure up tilted up up 0 0
    blank_out
    { eval := make_float3 (80 / 73) (80 / 73) (80 / 73),
      omega_in := tilted_mirror,
      domega_in_dx := up,
      domega_in_dy := up,
      pdf := 160 / 137 }
    (by decide) hframe hsqrt hO hm plain_sample_tilted
    (by norm_num [plain_closure, tilted_mirror, dot, make_float3])
  exact ⟨hframe, hsqrt, hO, hm, plain_sample_tilted, h⟩

/-- C4: whenever `bsdf_microfacet_ggx_sample` returns a label containing `LABEL_REFLECT`,
the returned direction `omega_in` satisfies `dot(Ng, omega_in) > 0`. -/
theorem sample_reflect_above_geometric_normal (k : Helpers) (bsdf : MicrofacetBsdf)
    (Ng I dIdx dIdy : float3) (randu randv : ℚ) (out res : SampleOut) (label : Nat)
    (hs : bsdf_microfacet_ggx_sample k bsdf Ng I dIdx dIdy randu randv out = some (label, res))
    (hl : label &&& LABEL_REFLECT ≠ 0) :
    0 < dot Ng res.omega_in := by
  by_cases hR : bsdf.type = CLOSURE_BSDF_MICROFACET_GGX_REFRACTION_ID
  · rcases sample_refract_label k bsdf Ng I dIdx dIdy randu randv out res label hR hs with
      h | h | h <;> rw [h] at hl <;> exact absurd hl (by decide)
  · rcases sample_reflect_inv k bsdf Ng I dIdx dIdy randu randv out res label hR hs with
      h | ⟨-, -, hNg, ho, -⟩
    · rw [h] at hl
      exact absurd hl (by decide)
    · rw [ho]
      exact hNg

/-- Witness for C4: the reflect outcome sampled on the plain closure points above the
geometric normal `up`. -/
theorem sample_reflect_above_geometric_normal_witness :
    bsdf_microfacet_ggx_sample rational_helpers plain_closure up tilted up up 0 0 blank_out =
      some (LABEL_REFLECT ||| LABEL_GLOSSY,
        { eval := make_float3 (80 / 73) (80 / 73) (80 / 73),
          omega_in := tilted_mirror,
          domega_in_dx := up,
          domega_in_dy := up,
          pdf := 160 / 137 }) ∧
    (LABEL_REFLECT ||| LABEL_GLOSSY) &&& LABEL_REFLECT ≠ 0 ∧ 0 < dot up tilted_mirror :=
  ⟨plain_sample_tilted, by decide,
    sample_reflect_above_geometric_normal rational_helpers plain_closure up tilted up up 0 0
      blank_out
      { eval := make_float3 (80 / 73) (80 / 73) (80 / 73),
        omega_in := tilted_mirror,
        domega_in_dx := up,
        domega_in_dy := up,
        pdf := 160 / 137 }
      (LABEL_REFLECT ||| LABEL_GLOSSY) plain_sample_tilted (by decide)⟩

/-- C5: for a non-Refraction closure with `alpha_x * alpha_y <= 1e-7` the sampler never
returns a glossy label. Every returned label is `LABEL_NONE` or
`LABEL_REFLECT | LABEL_SINGULAR`; when `dot(N, I) > 0`, `dot(m, I) > 0` and
`dot(Ng, omega_in) > 0` for `omega_in = 2 * dot(m, I) * m - I`, it returns
`LABEL_REFLECT | LABEL_SINGULAR` with `pdf = 1e6` and `eval = 1e6 * reflection_color(bsdf,
omega_in, m)` in every channel, and when one of the three fails it returns `LABEL_NONE`. -/
theorem sample_singular_reflection (k : Helpers) (bsdf : MicrofacetBsdf)
    (Ng I dIdx dIdy : float3) (randu randv : ℚ) (out : SampleOut)
    (hR : bsdf.type ≠ CLOSURE_BSDF_MICROFACET_GGX_REFRACTION_ID)
    (ha : bsdf.alpha_x * bsdf.alpha_y ≤ 1 / 10000000) :
    (∀ label res,
      bsdf_microfacet_ggx_sample k bsdf Ng I dIdx dIdy randu randv out = some (label, res) →
        label &&& LABEL_GLOSSY = 0 ∧
        (label = LABEL_NONE ∨ label = LABEL_REFLECT ||| LABEL_SINGULAR)) ∧
    (0 < dot bsdf.N I → 0 < dot (sample_m k bsdf I randu randv) I →
      0 < dot Ng (sample_reflected k bsdf I randu randv) →
      bsdf_microfacet_ggx_sample k bsdf Ng I dIdx dIdy randu randv out =
        (reflection_color k bsdf (sample_reflected k bsdf I randu randv)
          (sample_m k bsdf I randu randv)).map fun F =>
          (LABEL_REFLECT ||| LABEL_SINGULAR,
            { out with
              omega_in := sample_reflected k bsdf I randu randv,
              pdf := 1000000,
              eval := make_float3 (1000000 * F.x) (1000000 * F.y) (1000000 * F.z) })) ∧
    (¬(0 < dot bsdf.N I ∧ 0 < dot (sample_m k bsdf I randu randv) I ∧
        0 < dot Ng (sample_reflected k bsdf I randu randv)) →
      ∃ res, bsdf_microfacet_ggx_sample k bsdf Ng I dIdx dIdy randu randv out =
        some (LABEL_NONE, res) ∧ res.pdf = 0) := by
  refine ⟨fun label res hs => ?_, fun hO hMO hNg => ?_, fun hnot => ?_⟩
  · rcases sample_reflect_inv k bsdf Ng I dIdx dIdy randu randv out res label hR hs with
      h | ⟨-, -, -, -, h | h⟩
    · rw [h]
      exact ⟨by decide, Or.inl rfl⟩
    · rw [h.1]
      exact ⟨by decide, Or.inr rfl⟩
    · exact absurd ha (not_le.mpr h.2)
  · rw [sample_reflect_unfold k bsdf Ng I dIdx dIdy randu randv out hR hO,
      if_neg (by rw [not_or, not_le, not_le]; exact ⟨hMO, hNg⟩)]
    cases reflection_color k bsdf (sample_reflected k bsdf I randu randv)
        (sample_m k bsdf I randu randv) with
    | none => rfl
    | some F =>
      rw [Option.some_bind, if_pos ha]
      rfl
  · by_cases hO : dot bsdf.N I ≤ 0
    · exact ⟨_, sample_below_unfold k bsdf Ng I dIdx dIdy randu randv out hO, rfl⟩
    · have hO2 : 0 < dot bsdf.N I := not_le.mp hO
      have hrej : dot (sample_m k bsdf I randu randv) I ≤ 0 ∨
          dot Ng (sample_reflected k bsdf I randu randv) ≤ 0 := by
        by_contra hcon
        rw [not_or, not_le, not_le] at hcon
        exact hnot ⟨hO2, hcon.1, hcon.2⟩
      rw [sample_reflect_unfold k bsdf Ng I dIdx dIdy randu randv out hR hO2, if_pos hrej]
      exact ⟨_, rfl, rfl⟩

/-- Witness for C5: the mirror closure, viewed from `tilted`, returns
`LABEL_REFLECT | LABEL_SINGULAR` with pdf `1e6` and eval `1e6` per channel. -/
theorem sample_singular_reflection_witness :
    mirror_closure.type ≠ CLOSURE_BSDF_MICROFACET_GGX_REFRACTION_ID ∧
    mirror_closure.alpha_x * mirror_closure.alpha_y ≤ 1 / 10000000 ∧
    bsdf_microfacet_ggx_sample rational_helpers mirror_closure up tilted up up 0 0 blank_out =
      some (LABEL_REFLECT ||| LABEL_SINGULAR,
        { blank_out with
          omega_in := tilted_mirror,
          pdf := 1000000,
          eval := make_float3 1000000 1000000 1000000 }) := by
  refine ⟨by decide, by norm_num [mirror_closure], ?_⟩
  rw [(sample_singular_reflection rational_helpers mirror_closure up tilted up up 0 0 blank_out
    (by decide) (by norm_num [mirror_closure])).2.1
    (by norm_num [mirror_closure, plain_closure, tilted, dot, make_float3])
    (by norm_num [sample_m, sample_local_m, sample_frame, rational_helpers, mirror_closure,
      plain_closure, tilted, dot, make_float3, cross, float3.add_def, float3.scale_def])
    (by norm_num [sample_reflected, sample_m, sample_local_m, sample_frame, rational_helpers,
      mirror_closure, plain_closure, tilted, up, dot, make_float3, cross, float3.add_def,
      float3.sub_def, float3.smul_def, float3.scale_def])]
  simp [reflection_color, sample_reflected, sample_m, sample_local_m, sample_frame,
    rational_helpers, mirror_closure, plain_closure, tilted, tilted_mirror, up, dot,
    make_float3, cross, float3.add_def, float3.sub_def, float3.smul_def, float3.scale_def,
    one_float3, blank_out]
  norm_num

/-! ## Energy compensation -/

theorem albedo_scaling_float_eq (k : Helpers) (bsdf : MicrofacetBsdf) (sd : ShaderData)
    (Fss : ℚ) :
    microfacet_ggx_albedo_scaling_float k bsdf sd Fss =
      (fdiv (Fss * k.microfacet_ggx_E_avg (k.sqrtf (k.sqrtf (bsdf.alpha_x * bsdf.alpha_y))))
        (1 - Fss * (1 - k.microfacet_ggx_E_avg
          (k.sqrtf (k.sqrtf (bsdf.alpha_x * bsdf.alpha_y)))))).bind fun Fms =>
      (fdiv (1 - k.microfacet_ggx_E (dot sd.I bsdf.N)
          (k.sqrtf (k.sqrtf (bsdf.alpha_x * bsdf.alpha_y))))
        (k.microfacet_ggx_E (dot sd.I bsdf.N)
          (k.sqrtf (k.sqrtf (bsdf.alpha_x * bsdf.alpha_y))))).bind fun r =>
      some (1 + Fms * r) := rfl

theorem albedo_scaling_eq (k : Helpers) (bsdf : MicrofacetBsdf) (sd : ShaderData)
    (Fss : float3) :
    microfacet_ggx_albedo_scaling k bsdf sd Fss =
      ((Fss * k.microfacet_ggx_E_avg (k.sqrtf (k.sqrtf (bsdf.alpha_x * bsdf.alpha_y)))).div
        (one_float3 - Fss * (1 - k.microfacet_ggx_E_avg
          (k.sqrtf (k.sqrtf (bsdf.alpha_x * bsdf.alpha_y)))))).bind fun Fms =>
      (fdiv (1 - k.microfacet_ggx_E (dot sd.I bsdf.N)
          (k.sqrtf (k.sqrtf (bsdf.alpha_x * bsdf.alpha_y))))
        (k.microfacet_ggx_E (dot sd.I bsdf.N)
          (k.sqrtf (k.sqrtf (bsdf.alpha_x * bsdf.alpha_y))))).bind fun r =>
      some (one_float3 + Fms * r) := rfl

theorem clamp_unit_range (a : ℚ) : 0 ≤ clamp a 0 1 ∧ clamp a 0 1 ≤ 1 := by
  unfold clamp
  exact ⟨le_min (le_max_right a 0) zero_le_one, min_le_right _ _⟩

theorem albedo_scaling_roughness_only (k : Helpers) (b c : MicrofacetBsdf) (sd : ShaderData)
    (Fss : float3) (hx : b.alpha_x = c.alpha_x) (hy : b.alpha_y = c.alpha_y) (hN : b.N = c.N) :
    microfacet_ggx_albedo_scaling k b sd Fss = microfacet_ggx_albedo_scaling k c sd Fss := by
  rw [albedo_scaling_eq, albedo_scaling_eq, hx, hy, hN]

theorem albedo_scaling_float_roughness_only (k : Helpers) (b c : MicrofacetBsdf)
    (sd : ShaderData) (Fss : ℚ) (hx : b.alpha_x = c.alpha_x) (hy : b.alpha_y = c.alpha_y)
    (hN : b.N = c.N) :
    microfacet_ggx_albedo_scaling_float k b sd Fss =
      microfacet_ggx_albedo_scaling_float k c sd Fss := by
  rw [albedo_scaling_float_eq, albedo_scaling_float_eq, hx, hy, hN]

theorem multi_ggx_setup_eq (k : Helpers) (bsdf : MicrofacetBsdf) (sd : ShaderData)
    (color : float3) :
    bsdf_microfacet_multi_ggx_setup k bsdf sd color =
      (microfacet_ggx_albedo_scaling k bsdf sd (saturate color)).map fun scale =>
        bsdf_microfacet_ggx_setup { bsdf with weight := bsdf.weight * scale } := by
  unfold bsdf_microfacet_multi_ggx_setup
  cases microfacet_ggx_albedo_scaling k bsdf sd (saturate color) <;> rfl

theorem fresnel_setup_eq (k : Helpers) (bsdf : MicrofacetBsdf) (sd : ShaderData)
    (e : MicrofacetExtra) (h : bsdf.extra = some (ExtraPayload.v1 e)) :
    bsdf_microfacet_ggx_fresnel_setup k bsdf sd =
      some ({ bsdf with
          alpha_x := saturatef bsdf.alpha_x,
          alpha_y := saturatef bsdf.alpha_y,
          type := CLOSURE_BSDF_MICROFACET_GGX_FRESNEL_ID,
          sample_weight := bsdf.sample_weight *
            average (k.interpolate_fresnel_color sd.I bsdf.N bsdf.ior (saturate e.cspec0)),
          extra := some (ExtraPayload.v1
            { e with
              cspec0 := saturate e.cspec0,
              fresnel_color :=
                k.interpolate_fresnel_color sd.I bsdf.N bsdf.ior (saturate e.cspec0) }) },
        SD_BSDF ||| SD_BSDF_HAS_EVAL) := by
  obtain ⟨w, t, sw, N, ax, ay, ior, extra, T⟩ := bsdf
  simp only at h
  subst h
  simp [bsdf_microfacet_ggx_fresnel_setup, bsdf_microfacet_fresnel_color, reflection_color]

theorem fresnel_setup_none (k : Helpers) (bsdf : MicrofacetBsdf) (sd : ShaderData)
    (h : extra_is_v1 bsdf.extra = false) :
    bsdf_microfacet_ggx_fresnel_setup k bsdf sd = none := by
  obtain ⟨w, t, sw, N, ax, ay, ior, extra, T⟩ := bsdf
  cases extra with
  | none => rfl
  | some p =>
    cases p with
    | v1 e => simp [extra_is_v1] at h
    | v2 e => rfl

theorem multi_ggx_fresnel_setup_eq (k : Helpers) (bsdf : MicrofacetBsdf) (sd : ShaderData)
    (e : MicrofacetExtra) (h : bsdf.extra = some (ExtraPayload.v1 e)) :
    bsdf_microfacet_multi_ggx_fresnel_setup k bsdf sd =
      (microfacet_ggx_albedo_scaling k bsdf sd (k.schlick_fresnel_Fss e.cspec0)).bind
        fun scale =>
        bsdf_microfacet_ggx_fresnel_setup k { bsdf with weight := bsdf.weight * scale } sd := by
  obtain ⟨w, t, sw, N, ax, ay, ior, extra, T⟩ := bsdf
  simp only at h
  subst h
  rfl

theorem multi_ggx_fresnel_setup_none (k : Helpers) (bsdf : MicrofacetBsdf) (sd : ShaderData)
    (h : extra_is_v1 bsdf.extra = false) :
    bsdf_microfacet_multi_ggx_fresnel_setup k bsdf sd = none := by
  obtain ⟨w, t, sw, N, ax, ay, ior, extra, T⟩ := bsdf
  cases extra with
  | none => rfl
  | some p =>
    cases p with
    | v1 e => simp [extra_is_v1] at h
    | v2 e => rfl

theorem fresnel_color_clearcoat (k : Helpers) (sd : ShaderData) (b : MicrofacetBsdf)
    (ht : b.type = CLOSURE_BSDF_MICROFACET_GGX_CLEARCOAT_ID ∨
      b.type = CLOSURE_BSDF_MICROFACET_GGX_CLEARCOAT_V2_ID) :
    (∀ r, bsdf_microfacet_fresnel_color k sd b = some r →
      r.alpha_x = b.alpha_x ∧ r.alpha_y = b.alpha_y) ∧
    ((bsdf_microfacet_fresnel_color k sd b).isSome ↔ extra_is_v2 b.extra = false) := by
  obtain ⟨w, t, sw, N, ax, ay, ior, extra, T⟩ := b
  simp only at ht
  rcases ht with ht | ht <;> subst ht <;>
  · cases extra with
    | none => simp [bsdf_microfacet_fresnel_color, reflection_color, extra_is_v2]
    | some p =>
      cases p with
      | v1 e => simp [bsdf_microfacet_fresnel_color, reflection_color, extra_is_v2]
      | v2 e => simp [bsdf_microfacet_fresnel_color, reflection_color, extra_is_v2]

theorem clearcoat_setup_facts (k : Helpers) (bsdf : MicrofacetBsdf) (sd : ShaderData) :
    (∀ r, bsdf_microfacet_ggx_clearcoat_setup k bsdf sd = some r →
      r.1.alpha_x = clamp bsdf.alpha_x 0 1 ∧ r.1.alpha_y = clamp bsdf.alpha_x 0 1) ∧
    ((bsdf_microfacet_ggx_clearcoat_setup k bsdf sd).isSome ↔
      extra_is_v2 bsdf.extra = false) := by
  obtain ⟨hk, hs⟩ := fresnel_color_clearcoat k sd
    { bsdf with
      alpha_x := saturatef bsdf.alpha_x,
      alpha_y := saturatef bsdf.alpha_x,
      type := CLOSURE_BSDF_MICROFACET_GGX_CLEARCOAT_ID } (Or.inl rfl)
  unfold bsdf_microfacet_ggx_clearcoat_setup
  cases hc : bsdf_microfacet_fresnel_color k sd
      { bsdf with
        alpha_x := saturatef bsdf.alpha_x,
        alpha_y := saturatef bsdf.alpha_x,
        type := CLOSURE_BSDF_MICROFACET_GGX_CLEARCOAT_ID } with
  | none =>
    rw [hc] at hs
    simp only [Option.bind_eq_bind, Option.pure_def] at *
    rw [hc]
    simpa using hs
  | some b =>
    rw [hc] at hs
    simp only [Option.bind_eq_bind, Option.pure_def] at *
    rw [hc]
    have := hk b hc
    simpa [saturatef] using ⟨this, hs.mp rfl⟩

theorem clearcoat_v2_setup_facts (k : Helpers) (bsdf : MicrofacetBsdf) (sd : ShaderData) :
    (∀ r, bsdf_microfacet_ggx_clearcoat_v2_setup k bsdf sd = some r →
      r.1.alpha_x = clamp bsdf.alpha_x 0 1 ∧ r.1.alpha_y = clamp bsdf.alpha_x 0 1) ∧
    ((bsdf_microfacet_ggx_clearcoat_v2_setup k bsdf sd).isSome ↔
      extra_is_v2 bsdf.extra = false ∧
      (microfacet_ggx_albedo_scaling_float k
        (with_roughness bsdf (saturatef bsdf.alpha_x) (saturatef bsdf.alpha_x)) sd
        (k.dielectric_fresnel_Fss bsdf.ior)).isSome) := by
  have hsc : microfacet_ggx_albedo_scaling_float k
      { bsdf with
        alpha_x := saturatef bsdf.alpha_x,
        alpha_y := saturatef bsdf.alpha_x,
        type := CLOSURE_BSDF_MICROFACET_GGX_CLEARCOAT_V2_ID } sd
      (k.dielectric_fresnel_Fss bsdf.ior) =
      microfacet_ggx_albedo_scaling_float k
        (with_roughness bsdf (saturatef bsdf.alpha_x) (saturatef bsdf.alpha_x)) sd
        (k.dielectric_fresnel_Fss bsdf.ior) :=
    albedo_scaling_float_roughness_only k _ _ sd _ rfl rfl rfl
  unfold bsdf_microfacet_ggx_clearcoat_v2_setup
  simp only [Option.bind_eq_bind, Option.pure_def]
  rw [hsc]
  cases microfacet_ggx_albedo_scaling_float k
      (with_roughness bsdf (saturatef bsdf.alpha_x) (saturatef bsdf.alpha_x)) sd
      (k.dielectric_fresnel_Fss bsdf.ior) with
  | none => simp
  | some s =>
    obtain ⟨hk, hs⟩ := fresnel_color_clearcoat k sd
      { bsdf with
        alpha_x := saturatef bsdf.alpha_x,
        alpha_y := saturatef bsdf.alpha_x,
        type := CLOSURE_BSDF_MICROFACET_GGX_CLEARCOAT_V2_ID,
        weight := bsdf.weight * s } (Or.inr rfl)
    simp only [Option.some_bind]
    cases hc : bsdf_microfacet_fresnel_color k sd
        { bsdf with
          alpha_x := saturatef bsdf.alpha_x,
          alpha_y := saturatef bsdf.alpha_x,
          type := CLOSURE_BSDF_MICROFACET_GGX_CLEARCOAT_V2_ID,
          weight := bsdf.weight * s } with
    | none =>
      rw [hc] at hs
      simpa using hs
    | some b =>
      rw [hc] at hs
      have := hk b hc
      simpa [saturatef] using ⟨this, hs.mp rfl⟩

theorem clamp_falloff_ne_zero (a : ℚ) : clamp a (1 / 1000) 1 ≠ 0 := by
  unfold clamp
  have h : (0 : ℚ) < min (max a (1 / 1000)) 1 :=
    lt_min (lt_of_lt_of_le (by norm_num) (le_max_right a (1 / 1000))) one_pos
  exact ne_of_gt h

theorem fresnel_v2_setup_facts (k : Helpers) (bsdf : MicrofacetBsdf) (sd : ShaderData)
    (metallic dielectric : ℚ) :
    (∀ r, bsdf_microfacet_ggx_fresnel_v2_setup k bsdf sd metallic dielectric = some r →
      r.1.alpha_x = clamp bsdf.alpha_x 0 1 ∧ r.1.alpha_y = clamp bsdf.alpha_y 0 1) ∧
    ((bsdf_microfacet_ggx_fresnel_v2_setup k bsdf sd metallic dielectric).isSome ↔
      ∃ e, bsdf.extra = some (ExtraPayload.v2 e) ∧
        (0 < metallic →
          (microfacet_ggx_albedo_scaling k
            (with_roughness bsdf (saturatef bsdf.alpha_x) (saturatef bsdf.alpha_y)) sd
            (k.metallic_Fss (saturate e.metal_base) (saturate e.metal_edge)
              (1 / clamp e.metal_falloff (1 / 1000) 1))).isSome) ∧
        (0 < dielectric →
          (microfacet_ggx_albedo_scaling_float k
            (with_roughness bsdf (saturatef bsdf.alpha_x) (saturatef bsdf.alpha_y)) sd
            (k.dielectric_fresnel_Fss bsdf.ior)).isSome)) := by
  obtain ⟨w, t, sw, N, ax, ay, ior, extra, T⟩ := bsdf
  cases extra with
  | none => simp [bsdf_microfacet_ggx_fresnel_v2_setup]
  | some p =>
    cases p with
    | v1 e => simp [bsdf_microfacet_ggx_fresnel_v2_setup]
    | v2 e =>
      simp only [bsdf_microfacet_ggx_fresnel_v2_setup, with_roughness, gt_iff_lt,
        Option.bind_eq_bind, Option.pure_def, fdiv, if_neg (clamp_falloff_ne_zero _),
        Option.some_bind, Option.some.injEq, ExtraPayload.v2.injEq, exists_eq_left']
      by_cases hm : 0 < metallic <;> by_cases hd : 0 < dielectric <;>
        simp only [hm, hd, if_true, if_false, true_implies, false_implies, and_true,
          true_and, Option.some_bind]
      · cases microfacet_ggx_albedo_scaling k
            { weight := w, type := t, sample_weight := sw, N := N, alpha_x := saturatef ax,
              alpha_y := saturatef ay, ior := ior, extra := some (ExtraPayload.v2 e), T := T }
            sd (k.metallic_Fss (saturate e.metal_base) (saturate e.metal_edge)
              (1 / clamp e.metal_falloff (1 / 1000) 1)) with
        | none => simp
        | some s =>
          cases microfacet_ggx_albedo_scaling_float k
              { weight := w, type := t, sample_weight := sw, N := N, alpha_x := saturatef ax,
                alpha_y := saturatef ay, ior := ior, extra := some (ExtraPayload.v2 e), T := T }
              sd (k.dielectric_fresnel_Fss ior) with
          | none => simp
          | some s2 => simp [saturatef]
      · cases microfacet_ggx_albedo_scaling k
            { weight := w, type := t, sample_weight := sw, N := N, alpha_x := saturatef ax,
              alpha_y := saturatef ay, ior := ior, extra := some (ExtraPayload.v2 e), T := T }
            sd (k.metallic_Fss (saturate e.metal_base) (saturate e.metal_edge)
              (1 / clamp e.metal_falloff (1 / 1000) 1)) with
        | none => simp
        | some s => simp [saturatef]
      · cases microfacet_ggx_albedo_scaling_float k
            { weight := w, type := t, sample_weight := sw, N := N, alpha_x := saturatef ax,
              alpha_y := saturatef ay, ior := ior, extra := some (ExtraPayload.v2 e), T := T }
            sd (k.dielectric_fresnel_Fss ior) with
        | none => simp
        | some s2 => simp [saturatef]
      · simp [saturatef]

theorem extra_is_v1_iff (extra : Option ExtraPayload) :
    extra_is_v1 extra = true ↔ ∃ e, extra = some (ExtraPayload.v1 e) := by
  cases extra with
  | none => simp [extra_is_v1]
  | some p => cases p <;> simp [extra_is_v1]

theorem multi_ggx_setup_facts (k : Helpers) (bsdf : MicrofacetBsdf) (sd : ShaderData)
    (color : float3) :
    (∀ r, bsdf_microfacet_multi_ggx_setup k bsdf sd color = some r →
      r.1.alpha_x = clamp bsdf.alpha_x 0 1 ∧ r.1.alpha_y = clamp bsdf.alpha_y 0 1) ∧
    ((bsdf_microfacet_multi_ggx_setup k bsdf sd color).isSome ↔
      (microfacet_ggx_albedo_scaling k bsdf sd (saturate color)).isSome) := by
  rw [multi_ggx_setup_eq]
  cases microfacet_ggx_albedo_scaling k bsdf sd (saturate color) with
  | none => simp
  | some s =>
    refine ⟨fun r hr => ?_, by simp⟩
    obtain rfl := Option.some.inj hr
    exact ⟨rfl, rfl⟩

theorem fresnel_setup_facts (k : Helpers) (bsdf : MicrofacetBsdf) (sd : ShaderData) :
    (∀ r, bsdf_microfacet_ggx_fresnel_setup k bsdf sd = some r →
      r.1.alpha_x = clamp bsdf.alpha_x 0 1 ∧ r.1.alpha_y = clamp bsdf.alpha_y 0 1) ∧
    ((bsdf_microfacet_ggx_fresnel_setup k bsdf sd).isSome ↔
      extra_is_v1 bsdf.extra = true) := by
  cases hv : extra_is_v1 bsdf.extra with
  | false =>
    rw [fresnel_setup_none k bsdf sd hv]
    simp
  | true =>
    obtain ⟨e, he⟩ := (extra_is_v1_iff _).mp hv
    rw [fresnel_setup_eq k bsdf sd e he]
    refine ⟨fun r hr => ?_, by simp⟩
    obtain rfl := Option.some.inj hr
    exact ⟨rfl, rfl⟩

theorem multi_ggx_fresnel_setup_facts (k : Helpers) (bsdf : MicrofacetBsdf)
    (sd : ShaderData) :
    (∀ r, bsdf_microfacet_multi_ggx_fresnel_setup k bsdf sd = some r →
      r.1.alpha_x = clamp bsdf.alpha_x 0 1 ∧ r.1.alpha_y = clamp bsdf.alpha_y 0 1) ∧
    ((bsdf_microfacet_multi_ggx_fresnel_setup k bsdf sd).isSome ↔
      ∃ e, bsdf.extra = some (ExtraPayload.v1 e) ∧
        (microfacet_ggx_albedo_scaling k bsdf sd (k.schlick_fresnel_Fss e.cspec0)).isSome) := by
  cases hv : extra_is_v1 bsdf.extra with
  | false =>
    rw [multi_ggx_fresnel_setup_none k bsdf sd hv]
    refine ⟨fun r hr => absurd hr (by simp), ?_⟩
    constructor
    · intro h
      exact absurd h (by simp)
    · rintro ⟨e, he, -⟩
      have := (extra_is_v1_iff _).mpr ⟨e, he⟩
      rw [hv] at this
      exact absurd this (by simp)
  | true =>
    obtain ⟨e, he⟩ := (extra_is_v1_iff _).mp hv
    rw [multi_ggx_fresnel_setup_eq k bsdf sd e he]
    cases hs : microfacet_ggx_albedo_scaling k bsdf sd (k.schlick_fresnel_Fss e.cspec0) with
    | none =>
      refine ⟨fun r hr => absurd hr (by simp), ?_⟩
      constructor
      · intro h
        exact absurd h (by simp)
      · rintro ⟨e2, he2, h2⟩
        rw [he] at he2
        obtain rfl : e = e2 := by simpa using he2
        rw [hs] at h2
        exact absurd h2 (by simp)
    | some s =>
      rw [Option.some_bind,
        fresnel_setup_eq k { bsdf with weight := bsdf.weight * s } sd e he]
      refine ⟨fun r hr => ?_, ?_⟩
      · obtain rfl := Option.some.inj hr
        exact ⟨rfl, rfl⟩
      · constructor
        · intro _
          exact ⟨e, he, by rw [hs]; rfl⟩
        · intro _
          rfl

/-- C8: every setup entry point leaves the roughness fields clamped. After the plain, multi,
fresnel, multi-fresnel and fresnel-v2 setups `alpha_x = clamp(alpha_x_in, 0, 1)` and
`alpha_y = clamp(alpha_y_in, 0, 1)`; after the isotropic, clearcoat, clearcoat-v2 and
refraction setups `alpha_x = alpha_y = clamp(alpha_x_in, 0, 1)` whatever `alpha_y_in` was;
so both lie in `[0,1]`. A setup that reads `extra` or divides returns a closure exactly when
the payload has the layout it expects and the energy-compensation scale it folds in is
defined. -/
theorem setup_clamps_roughness (k : Helpers) (bsdf : MicrofacetBsdf) (sd : ShaderData)
    (color : float3) (metallic dielectric : ℚ) :
    ((bsdf_microfacet_ggx_setup bsdf).1.alpha_x = clamp bsdf.alpha_x 0 1 ∧
      (bsdf_microfacet_ggx_setup bsdf).1.alpha_y = clamp bsdf.alpha_y 0 1) ∧
    ((bsdf_microfacet_ggx_isotropic_setup bsdf).1.alpha_x = clamp bsdf.alpha_x 0 1 ∧
      (bsdf_microfacet_ggx_isotropic_setup bsdf).1.alpha_y = clamp bsdf.alpha_x 0 1) ∧
    ((bsdf_microfacet_ggx_refraction_setup bsdf).1.alpha_x = clamp bsdf.alpha_x 0 1 ∧
      (bsdf_microfacet_ggx_refraction_setup bsdf).1.alpha_y = clamp bsdf.alpha_x 0 1) ∧
    (∀ r, bsdf_microfacet_multi_ggx_setup k bsdf sd color = some r →
      r.1.alpha_x = clamp bsdf.alpha_x 0 1 ∧ r.1.alpha_y = clamp bsdf.alpha_y 0 1) ∧
    (∀ r, bsdf_microfacet_ggx_fresnel_setup k bsdf sd = some r →
      r.1.alpha_x = clamp bsdf.alpha_x 0 1 ∧ r.1.alpha_y = clamp bsdf.alpha_y 0 1) ∧
    (∀ r, bsdf_microfacet_multi_ggx_fresnel_setup k bsdf sd = some r →
      r.1.alpha_x = clamp bsdf.alpha_x 0 1 ∧ r.1.alpha_y = clamp bsdf.alpha_y 0 1) ∧
    (∀ r, bsdf_microfacet_ggx_fresnel_v2_setup k bsdf sd metallic dielectric = some r →
      r.1.alpha_x = clamp bsdf.alpha_x 0 1 ∧ r.1.alpha_y = clamp bsdf.alpha_y 0 1) ∧
    (∀ r, bsdf_microfacet_ggx_clearcoat_setup k bsdf sd = some r →
      r.1.alpha_x = clamp bsdf.alpha_x 0 1 ∧ r.1.alpha_y = clamp bsdf.alpha_x 0 1) ∧
    (∀ r, bsdf_microfacet_ggx_clearcoat_v2_setup k bsdf sd = some r →
      r.1.alpha_x = clamp bsdf.alpha_x 0 1 ∧ r.1.alpha_y = clamp bsdf.alpha_x 0 1) ∧
    (0 ≤ clamp bsdf.alpha_x 0 1 ∧ clamp bsdf.alpha_x 0 1 ≤ 1 ∧
      0 ≤ clamp bsdf.alpha_y 0 1 ∧ clamp bsdf.alpha_y 0 1 ≤ 1) ∧
    ((bsdf_microfacet_multi_ggx_setup k bsdf sd color).isSome ↔
      (microfacet_ggx_albedo_scaling k bsdf sd (saturate color)).isSome) ∧
    ((bsdf_microfacet_ggx_fresnel_setup k bsdf sd).isSome ↔
      extra_is_v1 bsdf.extra = true) ∧
    ((bsdf_microfacet_multi_ggx_fresnel_setup k bsdf sd).isSome ↔
      ∃ e, bsdf.extra = some (ExtraPayload.v1 e) ∧
        (microfacet_ggx_albedo_scaling k bsdf sd (k.schlick_fresnel_Fss e.cspec0)).isSome) ∧
    ((bsdf_microfacet_ggx_fresnel_v2_setup k bsdf sd metallic dielectric).isSome ↔
      ∃ e, bsdf.extra = some (ExtraPayload.v2 e) ∧
        (0 < metallic →
          (microfacet_ggx_albedo_scaling k
            (with_roughness bsdf (saturatef bsdf.alpha_x) (saturatef bsdf.alpha_y)) sd
            (k.metallic_Fss (saturate e.metal_base) (saturate e.metal_edge)
              (1 / clamp e.metal_falloff (1 / 1000) 1))).isSome) ∧
        (0 < dielectric →
          (microfacet_ggx_albedo_scaling_float k
            (with_roughness bsdf (saturatef bsdf.alpha_x) (saturatef bsdf.alpha_y)) sd
            (k.dielectric_fresnel_Fss bsdf.ior)).isSome)) ∧
    ((bsdf_microfacet_ggx_clearcoat_setup k bsdf sd).isSome ↔
      extra_is_v2 bsdf.extra = false) ∧
    ((bsdf_microfacet_ggx_clearcoat_v2_setup k bsdf sd).isSome ↔
      extra_is_v2 bsdf.extra = false ∧
      (microfacet_ggx_albedo_scaling_float k
        (with_roughness bsdf (saturatef bsdf.alpha_x) (saturatef bsdf.alpha_x)) sd
        (k.dielectric_fresnel_Fss bsdf.ior)).isSome) :=
  ⟨⟨rfl, rfl⟩, ⟨rfl, rfl⟩, ⟨rfl, rfl⟩,
    (multi_ggx_setup_facts k bsdf sd color).1,
    (fresnel_setup_facts k bsdf sd).1,
    (multi_ggx_fresnel_setup_facts k bsdf sd).1,
    (fresnel_v2_setup_facts k bsdf sd metallic dielectric).1,
    (clearcoat_setup_facts k bsdf sd).1,
    (clearcoat_v2_setup_facts k bsdf sd).1,
    ⟨(clamp_unit_range _).1, (clamp_unit_range _).2, (clamp_unit_range _).1,
      (clamp_unit_range _).2⟩,
    (multi_ggx_setup_facts k bsdf sd color).2,
    (fresnel_setup_facts k bsdf sd).2,
    (multi_ggx_fresnel_setup_facts k bsdf sd).2,
    (fresnel_v2_setup_facts k bsdf sd metallic dielectric).2,
    (clearcoat_setup_facts k bsdf sd).2,
    (clearcoat_v2_setup_facts k bsdf sd).2⟩

/-- Witness for C8: the fresnel setup returns a closure for `fresnel_closure`, whose input
roughness `(3/2, -1)` comes out as `(1, 0)`. -/
theorem setup_clamps_roughness_witness :
    (bsdf_microfacet_ggx_fresnel_setup half_albedo_helpers fresnel_closure up_context).isSome ∧
    (∀ r, bsdf_microfacet_ggx_fresnel_setup half_albedo_helpers fresnel_closure up_context =
      some r → r.1.alpha_x = 1 ∧ r.1.alpha_y = 0) := by
  have h := setup_clamps_roughness half_albedo_helpers fresnel_closure up_context one_float3 1 1
  refine ⟨h.2.2.2.2.2.2.2.2.2.2.2.1.mpr rfl, fun r hr => ?_⟩
  have h2 := h.2.2.2.2.1 r hr
  have hx : clamp fresnel_closure.alpha_x 0 1 = 1 := by
    norm_num [clamp, fresnel_closure, plain_closure]
  have hy : clamp fresnel_closure.alpha_y 0 1 = 0 := by
    norm_num [clamp, fresnel_closure, plain_closure]
  rw [hx, hy] at h2
  exact h2

/-- C9: `bsdf_microfacet_ggx_blur` sets `alpha_x` to `max(r, alpha_x)` and `alpha_y` to
`max(r, alpha_y)`, so each is at least its previous value and at least `r`. -/
theorem blur_widens (bsdf : MicrofacetBsdf) (r : ℚ) :
    (bsdf_microfacet_ggx_blur bsdf r).alpha_x = max r bsdf.alpha_x ∧
    (bsdf_microfacet_ggx_blur bsdf r).alpha_y = max r bsdf.alpha_y ∧
    bsdf.alpha_x ≤ (bsdf_microfacet_ggx_blur bsdf r).alpha_x ∧
    r ≤ (bsdf_microfacet_ggx_blur bsdf r).alpha_x ∧
    bsdf.alpha_y ≤ (bsdf_microfacet_ggx_blur bsdf r).alpha_y ∧
    r ≤ (bsdf_microfacet_ggx_blur bsdf r).alpha_y :=
  ⟨rfl, rfl, le_max_right r bsdf.alpha_x, le_max_left r bsdf.alpha_x,
    le_max_right r bsdf.alpha_y, le_max_left r bsdf.alpha_y⟩

/-! ## Evaluation of transmission -/

/-- C10: `bsdf_microfacet_ggx_eval_transmit` returns value `(0,0,0)` and pdf `0` whenever
the closure is not a Refraction closure, or `alpha_x * alpha_y <= 1e-7`, or the view is not
above the surface (`dot(N, I) <= 0`), or the light is not below it
(`dot(N, omega_in) >= 0`). -/
theorem eval_transmit_rejects (k : Helpers) (bsdf : MicrofacetBsdf) (I omega_in : float3)
    (h : bsdf.type ≠ CLOSURE_BSDF_MICROFACET_GGX_REFRACTION_ID ∨
      bsdf.alpha_x * bsdf.alpha_y ≤ 1 / 10000000 ∨ dot bsdf.N I ≤ 0 ∨
      0 ≤ dot bsdf.N omega_in) :
    bsdf_microfacet_ggx_eval_transmit k bsdf I omega_in = some (make_float3 0 0 0, 0) := by
  unfold bsdf_microfacet_ggx_eval_transmit
  simp only [decide_eq_false_iff_not, ge_iff_le]
  by_cases h1 : ¬bsdf.type = CLOSURE_BSDF_MICROFACET_GGX_REFRACTION_ID ∨
      bsdf.alpha_x * bsdf.alpha_y ≤ 1 / 10000000
  · rw [if_pos h1]
  · rw [if_neg h1]
    have h2 : dot bsdf.N I ≤ 0 ∨ 0 ≤ dot bsdf.N omega_in := by
      rcases h with h | h | h | h
      · exact absurd (Or.inl h) h1
      · exact absurd (Or.inr h) h1
      · exact Or.inl h
      · exact Or.inr h
    rw [if_pos h2]

/-- Witness for C10: a light direction on the view's side of a refraction closure is
rejected. -/
theorem eval_transmit_rejects_witness :
    0 ≤ dot refraction_closure.N tilted ∧
    bsdf_microfacet_ggx_eval_transmit rational_helpers refraction_closure tilted tilted =
      some (make_float3 0 0 0, 0) :=
  ⟨by norm_num [refraction_closure, plain_closure, tilted, dot, make_float3],
    eval_transmit_rejects rational_helpers refraction_closure tilted tilted
      (Or.inr (Or.inr (Or.inr
        (by norm_num [refraction_closure, plain_closure, tilted, dot, make_float3]))))⟩

/-! ## Transmission formula and sign of the reflection value -/

/-- C11: for a Refraction closure with `alpha_x * alpha_y > 1e-7` and directions with
`dot(N, I) > 0 > dot(N, omega_in)`, `bsdf_microfacet_ggx_eval_transmit` returns
`pdf = c / (1 + LO)` and `value = c / (1 + LO + LI)` in all three channels, where
`ht = -(ior * omega_in + I)`, `m = normalize(ht)`,
`c = |dot(m, omega_in) * dot(m, I)| * D * ior^2 / (dot(N, I) * dot(ht, ht))`,
`D = microfacet_ggx_D(dot(N, m), alpha_x * alpha_y)` and `LO`, `LI` are
`microfacet_ggx_lambda` at `dot(N, I)` and `dot(N, omega_in)`. -/
theorem eval_transmit_formula (k : Helpers) (bsdf : MicrofacetBsdf) (I omega_in : float3)
    (hR : bsdf.type = CLOSURE_BSDF_MICROFACET_GGX_REFRACTION_ID)
    (ha : 1 / 10000000 < bsdf.alpha_x * bsdf.alpha_y)
    (hO : 0 < dot bsdf.N I) (hI : dot bsdf.N omega_in < 0) :
    bsdf_microfacet_ggx_eval_transmit k bsdf I omega_in =
      (do
        let ht := -(bsdf.ior * omega_in + I)
        let m ← normalize k ht
        let D := k.microfacet_ggx_D (dot bsdf.N m) (bsdf.alpha_x * bsdf.alpha_y)
        let LO := k.microfacet_ggx_lambda (dot bsdf.N I) (bsdf.alpha_x * bsdf.alpha_y)
        let LI := k.microfacet_ggx_lambda (dot bsdf.N omega_in) (bsdf.alpha_x * bsdf.alpha_y)
        let c ← fdiv (|dot m omega_in * dot m I| * D * (bsdf.ior * bsdf.ior))
          (dot bsdf.N I * dot ht ht)
        let value ← fdiv c (1 + LO + LI)
        let pdf ← fdiv c (1 + LO)
        pure (make_float3 value value value, pdf)) := by
  unfold bsdf_microfacet_ggx_eval_transmit
  simp only [hR, decide_True, Bool.true_eq_false, false_or, not_le.mpr ha, if_false,
    ge_iff_le, not_le.mpr hO, not_le.mpr hI, or_self]
  rfl

/-- Witness for C11: the refraction closure with `ior = 3/2`, viewed from `tilted` with the
light at `-tilted`, transmits value `112500/12337` per channel with pdf `225000/23153`. -/
theorem eval_transmit_formula_witness :
    refraction_closure.type = CLOSURE_BSDF_MICROFACET_GGX_REFRACTION_ID ∧
    1 / 10000000 < refraction_closure.alpha_x * refraction_closure.alpha_y ∧
    0 < dot refraction_closure.N tilted ∧ dot refraction_closure.N (-tilted) < 0 ∧
    bsdf_microfacet_ggx_eval_transmit rational_helpers refraction_closure tilted (-tilted) =
      some (make_float3 (112500 / 12337) (112500 / 12337) (112500 / 12337),
        225000 / 23153) := by
  have hO : 0 < dot refraction_closure.N tilted := by
    norm_num [refraction_closure, plain_closure, tilted, dot, make_float3]
  have hI : dot refraction_closure.N (-tilted) < 0 := by
    norm_num [refraction_closure, plain_closure, tilted, dot, make_float3, float3.neg_def]
  have ha : 1 / 10000000 < refraction_closure.alpha_x * refraction_closure.alpha_y := by
    norm_num [refraction_closure, plain_closure]
  refine ⟨rfl, ha, hO, hI, ?_⟩
  rw [eval_transmit_formula rational_helpers refraction_closure tilted (-tilted) rfl ha hO hI]
  have hs : Rat.sqrt (1 / 4) = 1 / 2 := by
    have h4 : (1 / 4 : ℚ) = 1 / 2 * (1 / 2) := by norm_num
    rw [h4]
    exact rat_sqrt_mul_self _ (by norm_num)
  simp [normalize, len, rational_helpers, refraction_closure, plain_closure, tilted, dot,
    make_float3, float3.add_def, float3.neg_def, float3.smul_def, float3.div_float, fdiv, sqr]
  norm_num [hs, abs_mul]

theorem dot_self_pos_of_dot_pos (N v : float3) (h : 0 < dot N v) : 0 < dot v v := by
  unfold dot at *
  by_contra hcon
  have hx := mul_self_nonneg v.x
  have hy := mul_self_nonneg v.y
  have hz := mul_self_nonneg v.z
  have hx0 : v.x = 0 := mul_self_eq_zero.mp (by linarith)
  have hy0 : v.y = 0 := mul_self_eq_zero.mp (by linarith)
  have hz0 : v.z = 0 := mul_self_eq_zero.mp (by linarith)
  rw [hx0, hy0, hz0] at h
  simp at h

theorem dot_add_right (N a b : float3) : dot N (a + b) = dot N a + dot N b := by
  simp only [dot, float3.add_def]
  ring

theorem eval_reflect_terms_nonneg (k : Helpers) (bsdf : MicrofacetBsdf) (I omega_in m : float3)
    (hD : ∀ c a, 0 ≤ k.microfacet_ggx_D c a) (hG : ∀ c a, 0 ≤ k.microfacet_GTR1_D c a)
    (hDa : ∀ w ax ay, 0 ≤ k.microfacet_ggx_D_aniso w ax ay)
    (hL : ∀ c a, 0 ≤ k.microfacet_ggx_lambda c a)
    (hLa : ∀ w ax ay, 0 ≤ k.microfacet_ggx_lambda_aniso w ax ay) :
    0 ≤ (eval_reflect_terms k bsdf I omega_in m).1 ∧
    0 ≤ (eval_reflect_terms k bsdf I omega_in m).2.1 ∧
    0 ≤ (eval_reflect_terms k bsdf I omega_in m).2.2 := by
  unfold eval_reflect_terms
  by_cases h1 : bsdf.alpha_x = bsdf.alpha_y
  · by_cases h2 : bsdf.type = CLOSURE_BSDF_MICROFACET_GGX_CLEARCOAT_ID
    · simp only [h1, h2, if_true]
      exact ⟨hG _ _, hL _ _, hL _ _⟩
    · simp only [h1, h2, if_true, if_false]
      exact ⟨hD _ _, hL _ _, hL _ _⟩
  · simp only [h1, if_false]
    exact ⟨hDa _ _ _, hLa _ _ _, hLa _ _ _⟩

theorem fdiv_eq_some (a b q : ℚ) : fdiv a b = some q ↔ b ≠ 0 ∧ q = a / b := by
  unfold fdiv
  by_cases h : b = 0
  · simp [h]
  · simp [h, eq_comm]

theorem div_float_eq_some (a : float3) (f : ℚ) (v : float3) :
    a.div_float f = some v ↔ f ≠ 0 ∧ v = ⟨a.x / f, a.y / f, a.z / f⟩ := by
  unfold float3.div_float
  by_cases h : f = 0
  · simp [h]
  · simp [h, eq_comm]

/-- C12: given non-negative helpers (the distributions `D`, the Smith lambdas and the
channels of `reflection_color`), every value `bsdf_microfacet_ggx_eval_reflect` returns has
`pdf >= 0` and every colour channel `>= 0`, for every closure and pair of directions (the
bounds on `alpha_x`, `alpha_y` are not needed). It does return a value whenever the square
root is non-zero on positive numbers and the payload `reflection_color` reads is present. -/
theorem eval_reflect_nonneg (k : Helpers) (bsdf : MicrofacetBsdf) (I omega_in : float3)
    (hD : ∀ c a, 0 ≤ k.microfacet_ggx_D c a) (hG : ∀ c a, 0 ≤ k.microfacet_GTR1_D c a)
    (hDa : ∀ w ax ay, 0 ≤ k.microfacet_ggx_D_aniso w ax ay)
    (hL : ∀ c a, 0 ≤ k.microfacet_ggx_lambda c a)
    (hLa : ∀ w ax ay, 0 ≤ k.microfacet_ggx_lambda_aniso w ax ay)
    (hF : ∀ L H F, reflection_color k bsdf L H = some F → 0 ≤ F.x ∧ 0 ≤ F.y ∧ 0 ≤ F.z) :
    (∀ value pdf, bsdf_microfacet_ggx_eval_reflect k bsdf I omega_in = some (value, pdf) →
      0 ≤ pdf ∧ 0 ≤ value.x ∧ 0 ≤ value.y ∧ 0 ≤ value.z) ∧
    ((∀ x, 0 < x → k.sqrtf x ≠ 0) → (∀ L H, (reflection_color k bsdf L H).isSome = true) →
      (bsdf_microfacet_ggx_eval_reflect k bsdf I omega_in).isSome = true) := by
  by_cases hrej : bsdf.type = CLOSURE_BSDF_MICROFACET_GGX_REFRACTION_ID ∨
      bsdf.alpha_x * bsdf.alpha_y ≤ 1 / 10000000 ∨ dot bsdf.N I ≤ 0 ∨
      dot bsdf.N omega_in ≤ 0
  · have h0 : bsdf_microfacet_ggx_eval_reflect k bsdf I omega_in =
        some (make_float3 0 0 0, 0) := by
      unfold bsdf_microfacet_ggx_eval_reflect
      simp only [decide_eq_true_eq]
      by_cases h1 : bsdf.type = CLOSURE_BSDF_MICROFACET_GGX_REFRACTION_ID ∨
          bsdf.alpha_x * bsdf.alpha_y ≤ 1 / 10000000
      · rw [if_pos h1]
      · rw [if_neg h1]
        have h2 : dot bsdf.N omega_in ≤ 0 ∨ dot bsdf.N I ≤ 0 := by
          rcases hrej with h | h | h | h
          · exact absurd (Or.inl h) h1
          · exact absurd (Or.inr h) h1
          · exact Or.inr h
          · exact Or.inl h
        rw [if_pos h2]
    rw [h0]
    refine ⟨fun value pdf h => ?_, fun _ _ => rfl⟩
    obtain ⟨hv, hp⟩ := Prod.mk.inj (Option.some.inj h)
    rw [← hv, ← hp]
    simp [make_float3]
  · simp only [not_or, not_le] at hrej
    obtain ⟨hR, ha, hO, hI⟩ := hrej
    have hT := fun m => eval_reflect_terms_nonneg k bsdf I omega_in m hD hG hDa hL hLa
    rw [eval_reflect_unfold k bsdf I omega_in hR ha hO hI]
    refine ⟨fun value pdf h => ?_, fun hsqrt hdef => ?_⟩
    · simp only [Option.bind_eq_some] at h
      obtain ⟨m, -, c, hc, F, hFm, v, hv, p, hp, heq⟩ := h
      obtain ⟨hT1, hT2, hT3⟩ := hT m
      obtain ⟨hFx, hFy, hFz⟩ := hF _ _ _ hFm
      obtain ⟨-, hc⟩ := (fdiv_eq_some _ _ _).mp hc
      obtain ⟨-, hv⟩ := (div_float_eq_some _ _ _).mp hv
      obtain ⟨-, hp⟩ := (fdiv_eq_some _ _ _).mp hp
      obtain ⟨hv2, hp2⟩ := Prod.mk.inj (Option.some.inj heq)
      have hc0 : 0 ≤ c := by
        rw [hc]
        exact div_nonneg (mul_nonneg hT1 (by norm_num)) (le_of_lt hO)
      have hd : 0 ≤ 1 + (eval_reflect_terms k bsdf I omega_in m).2.1 +
          (eval_reflect_terms k bsdf I omega_in m).2.2 := by linarith
      have hd1 : 0 ≤ 1 + (eval_reflect_terms k bsdf I omega_in m).2.1 := by linarith
      rw [← hv2, ← hp2, hv, hp]
      simp only [float3.scale_def]
      exact ⟨div_nonneg hc0 hd1, div_nonneg (mul_nonneg hFx hc0) hd,
        div_nonneg (mul_nonneg hFy hc0) hd, div_nonneg (mul_nonneg hFz hc0) hd⟩
    · have hpos : 0 < dot (omega_in + I) (omega_in + I) :=
        dot_self_pos_of_dot_pos bsdf.N _ (by rw [dot_add_right]; linarith)
      have hn : normalize k (omega_in + I) =
          some ⟨(omega_in + I).x / len k (omega_in + I), (omega_in + I).y / len k (omega_in + I),
            (omega_in + I).z / len k (omega_in + I)⟩ := by
        have hl : len k (omega_in + I) ≠ 0 := hsqrt _ hpos
        unfold normalize float3.div_float
        rw [if_neg hl]
      rw [hn, Option.some_bind]
      generalize (⟨(omega_in + I).x / len k (omega_in + I),
        (omega_in + I).y / len k (omega_in + I),
        (omega_in + I).z / len k (omega_in + I)⟩ : float3) = m
      obtain ⟨hT1, hT2, hT3⟩ := hT m
      obtain ⟨F, hFm⟩ := Option.isSome_iff_exists.mp (hdef omega_in m)
      have hd : (1 + (eval_reflect_terms k bsdf I omega_in m).2.1 +
          (eval_reflect_terms k bsdf I omega_in m).2.2) ≠ 0 := by
        have : 0 < 1 + (eval_reflect_terms k bsdf I omega_in m).2.1 +
          (eval_reflect_terms k bsdf I omega_in m).2.2 := by linarith
        exact ne_of_gt this
      have hd1 : (1 + (eval_reflect_terms k bsdf I omega_in m).2.1) ≠ 0 := by
        have : 0 < 1 + (eval_reflect_terms k bsdf I omega_in m).2.1 := by linarith
        exact ne_of_gt this
      simp [fdiv, float3.div_float, ne_of_gt hO, hFm, hd, hd1]

theorem sqr_nonneg (a : ℚ) : 0 ≤ sqr a := mul_self_nonneg a

/-- Witness for C12: with the squared stand-ins the plain closure, viewed and lit along the
normal, evaluates to value `1/4` per channel and pdf `1/4`, all non-negative. -/
theorem eval_reflect_nonneg_witness :
    (∀ c a, 0 ≤ squared_helpers.microfacet_ggx_D c a) ∧
    (∀ c a, 0 ≤ squared_helpers.microfacet_ggx_lambda c a) ∧
    bsdf_microfacet_ggx_eval_reflect squared_helpers plain_closure up up =
      some (make_float3 (1 / 4) (1 / 4) (1 / 4), 1 / 4) ∧
    (0 : ℚ) ≤ 1 / 4 ∧ 0 ≤ (make_float3 (1 / 4) (1 / 4) (1 / 4)).x ∧
    0 ≤ (make_float3 (1 / 4) (1 / 4) (1 / 4)).y ∧
    0 ≤ (make_float3 (1 / 4) (1 / 4) (1 / 4)).z := by
  have hD : ∀ c a, 0 ≤ squared_helpers.microfacet_ggx_D c a := fun c a => sqr_nonneg _
  have hG : ∀ c a, 0 ≤ squared_helpers.microfacet_GTR1_D c a := fun c a => sqr_nonneg _
  have hDa : ∀ w ax ay, 0 ≤ squared_helpers.microfacet_ggx_D_aniso w ax ay :=
    fun w ax ay => sqr_nonneg _
  have hL : ∀ c a, 0 ≤ squared_helpers.microfacet_ggx_lambda c a := fun c a => sqr_nonneg _
  have hLa : ∀ w ax ay, 0 ≤ squared_helpers.microfacet_ggx_lambda_aniso w ax ay :=
    fun w ax ay => add_nonneg (sqr_nonneg _) (sqr_nonneg _)
  have hF : ∀ L H F, reflection_color squared_helpers plain_closure L H = some F →
      0 ≤ F.x ∧ 0 ≤ F.y ∧ 0 ≤ F.z := by
    intro L H F h
    have h1 : reflection_color squared_helpers plain_closure L H = some one_float3 := by
      simp [reflection_color, plain_closure]
    rw [h1] at h
    rw [← Option.some.inj h]
    simp [one_float3, make_float3]
  have hev : bsdf_microfacet_ggx_eval_reflect squared_helpers plain_closure up up =
      some (make_float3 (1 / 4) (1 / 4) (1 / 4), 1 / 4) := by
    rw [eval_reflect_unfold squared_helpers plain_closure up up (by decide)
      (by norm_num [plain_closure]) (by norm_num [plain_closure, up, dot, make_float3])
      (by norm_num [plain_closure, up, dot, make_float3])]
    have h4 : (4 : ℚ) = 2 * 2 := by norm_num
    simp [normalize, len, eval_reflect_terms, squared_helpers, rational_helpers, plain_closure,
      up, dot, make_float3, float3.add_def, float3.div_float, fdiv, reflection_color,
      one_float3, float3.scale_def, sqr]
    norm_num [h4, rat_sqrt_mul_self]
  exact ⟨hD, hL, hev,
    (eval_reflect_nonneg squared_helpers plain_closure up up hD hG hDa hL hLa hF).1 _ _ hev⟩

/-! ## Outcomes of the sampler -/

/-- C13: for every closure and every view with `dot(N, I) <= 0`,
`bsdf_microfacet_ggx_sample` returns `LABEL_NONE` and sets `pdf = 0` (leaving the other
out-parameters untouched), whatever the random numbers and the geometric normal; and on
every path that returns `LABEL_NONE` the pdf written is 0. -/
theorem sample_none_pdf_zero (k : Helpers) (bsdf : MicrofacetBsdf) (Ng I dIdx dIdy : float3)
    (randu randv : ℚ) (out : SampleOut) :
    (dot bsdf.N I ≤ 0 →
      bsdf_microfacet_ggx_sample k bsdf Ng I dIdx dIdy randu randv out =
        some (LABEL_NONE, { out with pdf := 0 })) ∧
    (∀ res, bsdf_microfacet_ggx_sample k bsdf Ng I dIdx dIdy randu randv out =
      some (LABEL_NONE, res) → res.pdf = 0) := by
  refine ⟨fun hO => sample_below_unfold k bsdf Ng I dIdx dIdy randu randv out hO,
    fun res hs => ?_⟩
  by_cases hO : dot bsdf.N I ≤ 0
  · rw [sample_below_unfold k bsdf Ng I dIdx dIdy randu randv out hO] at hs
    rw [← (Prod.mk.inj (Option.some.inj hs)).2]
  · by_cases hR : bsdf.type = CLOSURE_BSDF_MICROFACET_GGX_REFRACTION_ID
    · rw [sample_refract_unfold k bsdf Ng I dIdx dIdy randu randv out hR (not_le.mp hO)] at hs
      split_ifs at hs with h1 h2
      · rw [← (Prod.mk.inj (Option.some.inj hs)).2]
      · exact absurd (Prod.mk.inj (Option.some.inj hs)).1
          (by decide : LABEL_TRANSMIT ||| LABEL_SINGULAR ≠ LABEL_NONE)
      · simp only [Option.bind_eq_some] at hs
        obtain ⟨c, -, o, -, p, -, hs⟩ := hs
        exact absurd (Prod.mk.inj (Option.some.inj hs)).1
          (by decide : LABEL_TRANSMIT ||| LABEL_GLOSSY ≠ LABEL_NONE)
    · rw [sample_reflect_unfold k bsdf Ng I dIdx dIdy randu randv out hR (not_le.mp hO)] at hs
      by_cases hrej : dot (sample_m k bsdf I randu randv) I ≤ 0 ∨
          dot Ng (sample_reflected k bsdf I randu randv) ≤ 0
      · rw [if_pos hrej] at hs
        rw [← (Prod.mk.inj (Option.some.inj hs)).2]
      · rw [if_neg hrej] at hs
        simp only [Option.bind_eq_some] at hs
        obtain ⟨F, -, hs⟩ := hs
        by_cases hsing : bsdf.alpha_x * bsdf.alpha_y ≤ 1 / 10000000
        · rw [if_pos hsing] at hs
          exact absurd (Prod.mk.inj (Option.some.inj hs)).1
            (by decide : LABEL_REFLECT ||| LABEL_SINGULAR ≠ LABEL_NONE)
        · rw [if_neg hsing] at hs
          simp only [Option.bind_eq_some] at hs
          obtain ⟨c, -, p, -, e, -, hs⟩ := hs
          exact absurd (Prod.mk.inj (Option.some.inj hs)).1
            (by decide : LABEL_REFLECT ||| LABEL_GLOSSY ≠ LABEL_NONE)

/-- Witness for C13: a view below the shading normal of the plain closure gives
`LABEL_NONE` with pdf 0, and the pdf held on entry is overwritten. -/
theorem sample_none_pdf_zero_witness :
    dot plain_closure.N (-up) ≤ 0 ∧
    bsdf_microfacet_ggx_sample rational_helpers plain_closure up (-up) up up 0 0
      { blank_out with pdf := 7 } = some (LABEL_NONE, blank_out) :=
  have h : dot plain_closure.N (-up) ≤ 0 := by
    norm_num [plain_closure, up, dot, make_float3, float3.neg_def]
  ⟨h, (sample_none_pdf_zero rational_helpers plain_closure up (-up) up up 0 0
    { blank_out with pdf := 7 }).1 h⟩

theorem transmit_out_fields (k : Helpers) (split : FresnelSplit) (out : SampleOut) (pdf : ℚ)
    (eval : float3) :
    (sample_transmit_out k split out pdf eval).omega_in = split.T ∧
    (sample_transmit_out k split out pdf eval).pdf = pdf ∧
    (sample_transmit_out k split out pdf eval).eval = eval := by
  unfold sample_transmit_out
  by_cases h : k.ray_differentials = true <;> simp [h]

/-- C14: for a Refraction closure and a view with `dot(N, I) > 0`, the sampler returns
`LABEL_NONE` with pdf 0 when the refraction solver reports `inside` or `fresnel = 1`;
otherwise the returned direction is the solver's `T`, and the label is
`LABEL_TRANSMIT | LABEL_SINGULAR` with `pdf = 1e6` and `eval = (1e6, 1e6, 1e6)` exactly when
`alpha_x * alpha_y <= 1e-7` or `|ior - 1| < 1e-4`, and `LABEL_TRANSMIT | LABEL_GLOSSY`
otherwise (a glossy result is produced exactly when none of its three divisors is zero).
A Refraction closure never yields a label with the reflect bit and a non-Refraction closure
never yields one with the transmit bit. -/
theorem sample_refraction_outcomes (k : Helpers) (bsdf : MicrofacetBsdf)
    (Ng I dIdx dIdy : float3) (randu randv : ℚ) (out : SampleOut) :
    (bsdf.type = CLOSURE_BSDF_MICROFACET_GGX_REFRACTION_ID → 0 < dot bsdf.N I →
      (((sample_split k bsdf I dIdx dIdy randu randv).inside = true ∨
          (sample_split k bsdf I dIdx dIdy randu randv).fresnel = 1) →
        bsdf_microfacet_ggx_sample k bsdf Ng I dIdx dIdy randu randv out =
          some (LABEL_NONE, { out with pdf := 0 })) ∧
      (¬((sample_split k bsdf I dIdx dIdy randu randv).inside = true ∨
          (sample_split k bsdf I dIdx dIdy randu randv).fresnel = 1) →
        ((bsdf.alpha_x * bsdf.alpha_y ≤ 1 / 10000000 ∨ |bsdf.ior - 1| < 1 / 10000) →
          ∃ res, bsdf_microfacet_ggx_sample k bsdf Ng I dIdx dIdy randu randv out =
              some (LABEL_TRANSMIT ||| LABEL_SINGULAR, res) ∧
            res.omega_in = (sample_split k bsdf I dIdx dIdy randu randv).T ∧
            res.pdf = 1000000 ∧ res.eval = make_float3 1000000 1000000 1000000) ∧
        (¬(bsdf.alpha_x * bsdf.alpha_y ≤ 1 / 10000000 ∨ |bsdf.ior - 1| < 1 / 10000) →
          (∀ label res,
            bsdf_microfacet_ggx_sample k bsdf Ng I dIdx dIdy randu randv out =
              some (label, res) →
            label = LABEL_TRANSMIT ||| LABEL_GLOSSY ∧
              res.omega_in = (sample_split k bsdf I dIdx dIdy randu randv).T) ∧
          ((bsdf_microfacet_ggx_sample k bsdf Ng I dIdx dIdy randu randv out).isSome = true ↔
            dot bsdf.N I *
                sqr (bsdf.ior * dot (sample_m k bsdf I randu randv)
                  (sample_split k bsdf I dIdx dIdy randu randv).T +
                  dot (sample_m k bsdf I randu randv) I) ≠ 0 ∧
              1 + k.microfacet_ggx_lambda (dot bsdf.N I) (bsdf.alpha_x * bsdf.alpha_y) +
                k.microfacet_ggx_lambda
                  (dot bsdf.N (sample_split k bsdf I dIdx dIdy randu randv).T)
                  (bsdf.alpha_x * bsdf.alpha_y) ≠ 0 ∧
              1 + k.microfacet_ggx_lambda (dot bsdf.N I) (bsdf.alpha_x * bsdf.alpha_y) ≠ 0)))) ∧
    (bsdf.type = CLOSURE_BSDF_MICROFACET_GGX_REFRACTION_ID → ∀ label res,
      bsdf_microfacet_ggx_sample k bsdf Ng I dIdx dIdy randu randv out = some (label, res) →
        label &&& LABEL_REFLECT = 0) ∧
    (bsdf.type ≠ CLOSURE_BSDF_MICROFACET_GGX_REFRACTION_ID → ∀ label res,
      bsdf_microfacet_ggx_sample k bsdf Ng I dIdx dIdy randu randv out = some (label, res) →
        label &&& LABEL_TRANSMIT = 0) := by
  refine ⟨fun hR hO => ?_, fun hR label res hs => ?_, fun hR label res hs => ?_⟩
  · rw [sample_refract_unfold k bsdf Ng I dIdx dIdy randu randv out hR hO]
    refine ⟨fun hrej => by rw [if_pos hrej], fun hrej => ?_⟩
    rw [if_neg hrej]
    refine ⟨fun hsing => ?_, fun hsing => ?_⟩
    · have hsing2 : bsdf.alpha_x * bsdf.alpha_y ≤ 1 / 10000000 ∨
          fabsf (bsdf.ior - 1) < 1 / 10000 := hsing
      rw [if_pos hsing2]
      obtain ⟨h1, h2, h3⟩ := transmit_out_fields k
        (sample_split k bsdf I dIdx dIdy randu randv) out 1000000
        (make_float3 1000000 1000000 1000000)
      exact ⟨_, rfl, h1, h2, h3⟩
    · have hsing2 : ¬(bsdf.alpha_x * bsdf.alpha_y ≤ 1 / 10000000 ∨
          fabsf (bsdf.ior - 1) < 1 / 10000) := hsing
      rw [if_neg hsing2]
      refine ⟨fun label res hs => ?_, ?_⟩
      · simp only [Option.bind_eq_some] at hs
        obtain ⟨c, -, o, -, p, -, hs⟩ := hs
        obtain ⟨hl, hres⟩ := Prod.mk.inj (Option.some.inj hs)
        refine ⟨hl.symm, ?_⟩
        rw [← hres]
        exact (transmit_out_fields k _ out p _).1
      · by_cases h1 : dot bsdf.N I *
            sqr (bsdf.ior * dot (sample_m k bsdf I randu randv)
              (sample_split k bsdf I dIdx dIdy randu randv).T +
              dot (sample_m k bsdf I randu randv) I) = 0
        · simp [fdiv, h1]
        · by_cases h2 : 1 + k.microfacet_ggx_lambda (dot bsdf.N I)
              (bsdf.alpha_x * bsdf.alpha_y) +
              k.microfacet_ggx_lambda
                (dot bsdf.N (sample_split k bsdf I dIdx dIdy randu randv).T)
                (bsdf.alpha_x * bsdf.alpha_y) = 0
          · simp [fdiv, h1, h2]
          · by_cases h3 : 1 + k.microfacet_ggx_lambda (dot bsdf.N I)
                (bsdf.alpha_x * bsdf.alpha_y) = 0
            · simp [fdiv, h1, h2, h3]
            · simp [fdiv, h1, h2, h3]
  · rcases sample_refract_label k bsdf Ng I dIdx dIdy randu randv out res label hR hs with
      h | h | h <;> rw [h] <;> decide
  · rcases sample_reflect_inv k bsdf Ng I dIdx dIdy randu randv out res label hR hs with
      h | ⟨-, -, -, -, h | h⟩
    · rw [h]
      decide
    · rw [h.1]
      decide
    · rw [h.1]
      decide

theorem refraction_sample_tilted :
    bsdf_microfacet_ggx_sample rational_helpers refraction_closure up tilted up up 0 0
        blank_out =
      some (LABEL_TRANSMIT ||| LABEL_GLOSSY,
        { eval := make_float3 (2880 / 73) (2880 / 73) (2880 / 73),
          omega_in := make_float3 (-3 / 5) 0 (-4 / 5),
          domega_in_dx := make_float3 0 0 (-1),
          domega_in_dy := make_float3 0 0 (-1),
          pdf := 5760 / 137 }) := by
  rw [sample_refract_unfold _ _ _ _ _ _ _ _ _ rfl
    (by norm_num [refraction_closure, plain_closure, tilted, dot, make_float3])]
  simp [rational_helpers, refraction_closure, plain_closure, sample_m, sample_split,
    sample_transmit_out, sample_local_m, sample_local_O, sample_frame, dot, make_float3, cross,
    float3.add_def, float3.sub_def, float3.scale_def, float3.smul_def, float3.mul_def,
    float3.neg_def, fdiv, fabsf, sqr, tilted, up, blank_out, zero_float3]
  have hab : |(1 / 2 : ℚ)| = 1 / 2 := abs_of_pos (by norm_num)
  norm_num [abs_mul, hab]

/-- Witness for C14: the refraction closure with `ior = 3/2` and roughness `1/2`, viewed
from `tilted`, returns `LABEL_TRANSMIT | LABEL_GLOSSY` with the solver's direction. -/
theorem sample_refraction_outcomes_witness :
    (LABEL_TRANSMIT ||| LABEL_GLOSSY) &&& LABEL_REFLECT = 0 ∧
    bsdf_microfacet_ggx_sample rational_helpers refraction_closure up tilted up up 0 0
        blank_out =
      some (LABEL_TRANSMIT ||| LABEL_GLOSSY,
        { eval := make_float3 (2880 / 73) (2880 / 73) (2880 / 73),
          omega_in := make_float3 (-3 / 5) 0 (-4 / 5),
          domega_in_dx := make_float3 0 0 (-1),
          domega_in_dy := make_float3 0 0 (-1),
          pdf := 5760 / 137 }) :=
  ⟨(sample_refraction_outcomes rational_helpers refraction_closure up tilted up up 0 0
      blank_out).2.1 rfl _ _ refraction_sample_tilted,
    refraction_sample_tilted⟩

/-- C15, as amended: on the reflection path the sampler rejects masked microfacets and
directions below the geometric normal. For a non-Refraction closure, whenever it returns a
label containing `LABEL_REFLECT`, the returned direction is `omega_in = 2 * dot(m, I) * m - I`
with `dot(m, I) > 0` and `dot(Ng, omega_in) > 0`; `dot(N, omega_in) > 0` for the shading
normal is guaranteed when the geometric normal supplied is the shading normal. -/
theorem sample_reflect_checks (k : Helpers) (bsdf : MicrofacetBsdf)
    (Ng I dIdx dIdy : float3) (randu randv : ℚ) (out res : SampleOut) (label : Nat)
    (hR : bsdf.type ≠ CLOSURE_BSDF_MICROFACET_GGX_REFRACTION_ID)
    (hs : bsdf_microfacet_ggx_sample k bsdf Ng I dIdx dIdy randu randv out = some (label, res))
    (hl : label &&& LABEL_REFLECT ≠ 0) :
    res.omega_in = sample_reflected k bsdf I randu randv ∧
    0 < dot (sample_m k bsdf I randu randv) I ∧
    0 < dot Ng res.omega_in ∧
    (Ng = bsdf.N → 0 < dot bsdf.N res.omega_in) := by
  rcases sample_reflect_inv k bsdf Ng I dIdx dIdy randu randv out res label hR hs with
    h | ⟨-, hMO, hNg, ho, -⟩
  · rw [h] at hl
    exact absurd hl (by decide)
  · rw [ho]
    exact ⟨rfl, hMO, hNg, fun hN => hN ▸ hNg⟩

theorem plain_sample_steep :
    bsdf_microfacet_ggx_sample tilted_vndf_helpers plain_closure tilted_normal up up up 0 0
        blank_out =
      some (LABEL_REFLECT ||| LABEL_GLOSSY,
        { eval := make_float3 (30625 / 644809) (30625 / 644809) (30625 / 644809),
          omega_in := make_float3 (24 / 25) 0 (-7 / 25),
          domega_in_dx := make_float3 (24 / 25) 0 (-7 / 25),
          domega_in_dy := make_float3 (24 / 25) 0 (-7 / 25),
          pdf := 625 / 5329 }) := by
  rw [sample_reflect_unfold _ _ _ _ _ _ _ _ _ (by decide)
    (by norm_num [plain_closure, up, dot, make_float3])]
  simp [tilted_vndf_helpers, rational_helpers, plain_closure, sample_m, sample_reflected,
    sample_local_m, sample_local_O, sample_frame, sample_reflect_terms, dot, make_float3, cross,
    float3.add_def, float3.sub_def, float3.scale_def, float3.smul_def, float3.mul_def, fdiv,
    float3.div_float, reflection_color, one_float3, zero_float3, sqr, tilted_normal, up,
    blank_out]
  norm_num

/-- Witness for C15 as amended: the reflect outcome sampled with the tilted microfacet
normal points above the geometric normal `tilted_normal`. -/
theorem sample_reflect_checks_witness :
    plain_closure.type ≠ CLOSURE_BSDF_MICROFACET_GGX_REFRACTION_ID ∧
    (LABEL_REFLECT ||| LABEL_GLOSSY) &&& LABEL_REFLECT ≠ 0 ∧
    0 < dot tilted_normal (make_float3 (24 / 25) 0 (-7 / 25)) :=
  ⟨by decide, by decide,
    (sample_reflect_checks tilted_vndf_helpers plain_closure tilted_normal up up up 0 0
      blank_out
      { eval := make_float3 (30625 / 644809) (30625 / 644809) (30625 / 644809),
        omega_in := make_float3 (24 / 25) 0 (-7 / 25),
        domega_in_dx := make_float3 (24 / 25) 0 (-7 / 25),
        domega_in_dy := make_float3 (24 / 25) 0 (-7 / 25),
        pdf := 625 / 5329 }
      (LABEL_REFLECT ||| LABEL_GLOSSY) (by decide) plain_sample_steep (by decide)).2.2.1⟩

/-- Counterexample to C15 as stated: with the shading normal `(0,0,1)`, the geometric
normal `(3/5, 0, 4/5)`, the view along the shading normal and the sampled microfacet normal
`(4/5, 0, 3/5)`, the plain closure returns `LABEL_REFLECT | LABEL_GLOSSY` with the direction
`(24/25, 0, -7/25)`, which lies below the shading normal. -/
theorem sample_reflect_below_shading_normal_counterexample :
    plain_closure.type ≠ CLOSURE_BSDF_MICROFACET_GGX_REFRACTION_ID ∧
    sample_m tilted_vndf_helpers plain_closure up 0 0 = make_float3 (4 / 5) 0 (3 / 5) ∧
    bsdf_microfacet_ggx_sample tilted_vndf_helpers plain_closure tilted_normal up up up 0 0
        blank_out =
      some (LABEL_REFLECT ||| LABEL_GLOSSY,
        { eval := make_float3 (30625 / 644809) (30625 / 644809) (30625 / 644809),
          omega_in := make_float3 (24 / 25) 0 (-7 / 25),
          domega_in_dx := make_float3 (24 / 25) 0 (-7 / 25),
          domega_in_dy := make_float3 (24 / 25) 0 (-7 / 25),
          pdf := 625 / 5329 }) ∧
    (LABEL_REFLECT ||| LABEL_GLOSSY) &&& LABEL_REFLECT ≠ 0 ∧
    dot plain_closure.N (make_float3 (24 / 25) 0 (-7 / 25)) < 0 := by
  refine ⟨by decide, ?_, plain_sample_steep, by decide, ?_⟩
  · simp [sample_m, sample_local_m, sample_frame, tilted_vndf_helpers, rational_helpers,
      plain_closure, make_float3, cross, float3.add_def, float3.scale_def]
  · norm_num [plain_closure, dot, make_float3]

/-! ## What the setups store, and reapplying setup and blur -/

theorem average_eq (a : float3) : average a = (a.x + a.y + a.z) / 3 := by
  unfold average
  ring

theorem clamp_idem (a : ℚ) : clamp (clamp a 0 1) 0 1 = clamp a 0 1 := by
  obtain ⟨h0, h1⟩ := clamp_unit_range a
  unfold clamp at *
  rw [max_eq_left h0, min_eq_left h1]

theorem saturate_idem (a : float3) : saturate (saturate a) = saturate a := by
  simp [saturate, saturatef, clamp_idem]

/-- C16: for a closure carrying a `MicrofacetExtra` payload,
`bsdf_microfacet_ggx_fresnel_setup` (i) replaces `cspec0` by its channel-wise clamp to
`[0,1]`, (ii) tags the closure as Fresnel, (iii) stores in `extra.fresnel_color` the tint
`reflection_color(bsdf, sd.I, bsdf.N)` computed with the clamped `cspec0`, and (iv)
multiplies `sample_weight` by the arithmetic mean of the tint's three channels; the
roughness is clamped and every other field is kept. -/
theorem fresnel_setup_effect (k : Helpers) (bsdf : MicrofacetBsdf) (sd : ShaderData)
    (e : MicrofacetExtra) (h : bsdf.extra = some (ExtraPayload.v1 e)) :
    ∃ tint,
      reflection_color k
        { bsdf with
          alpha_x := saturatef bsdf.alpha_x,
          alpha_y := saturatef bsdf.alpha_y,
          type := CLOSURE_BSDF_MICROFACET_GGX_FRESNEL_ID,
          extra := some (ExtraPayload.v1 { e with cspec0 := saturate e.cspec0 }) }
        sd.I bsdf.N = some tint ∧
      bsdf_microfacet_ggx_fresnel_setup k bsdf sd =
        some ({ bsdf with
            alpha_x := saturatef bsdf.alpha_x,
            alpha_y := saturatef bsdf.alpha_y,
            type := CLOSURE_BSDF_MICROFACET_GGX_FRESNEL_ID,
            sample_weight := bsdf.sample_weight * ((tint.x + tint.y + tint.z) / 3),
            extra := some (ExtraPayload.v1
              { e with cspec0 := saturate e.cspec0, fresnel_color := tint }) },
          SD_BSDF ||| SD_BSDF_HAS_EVAL) ∧
      saturate e.cspec0 =
        make_float3 (clamp e.cspec0.x 0 1) (clamp e.cspec0.y 0 1) (clamp e.cspec0.z 0 1) := by
  refine ⟨k.interpolate_fresnel_color sd.I bsdf.N bsdf.ior (saturate e.cspec0), ?_, ?_, rfl⟩
  · simp [reflection_color]
  · rw [fresnel_setup_eq k bsdf sd e h, average_eq]

/-- Witness for C16: on `fresnel_closure`, whose `cspec0` is `(2, 1/2, -1)`, the setup
stores the clamped `cspec0 = (1, 1/2, 0)`, caches the tint `(1, 1/2, 0)` and halves
`sample_weight`. -/
theorem fresnel_setup_effect_witness :
    (bsdf_microfacet_ggx_fresnel_setup half_albedo_helpers fresnel_closure up_context).map
        (fun r => (r.1.extra, r.1.sample_weight, r.1.type)) =
      some (some (ExtraPayload.v1
          { color := one_float3,
            cspec0 := make_float3 1 (1 / 2) 0,
            fresnel_color := make_float3 1 (1 / 2) 0 }),
        1 / 2, CLOSURE_BSDF_MICROFACET_GGX_FRESNEL_ID) := by
  obtain ⟨tint, ht, hs, -⟩ := fresnel_setup_effect half_albedo_helpers fresnel_closure
    up_context _ rfl
  have hc : saturate (make_float3 2 (1 / 2) (-1)) = make_float3 1 (1 / 2) 0 := by
    norm_num [saturate, saturatef, clamp, make_float3]
  have htint : tint = make_float3 1 (1 / 2) 0 := by
    have h2 : reflection_color half_albedo_helpers
        { fresnel_closure with
          alpha_x := saturatef fresnel_closure.alpha_x,
          alpha_y := saturatef fresnel_closure.alpha_y,
          type := CLOSURE_BSDF_MICROFACET_GGX_FRESNEL_ID,
          extra := some (ExtraPayload.v1
            { color := one_float3, cspec0 := saturate (make_float3 2 (1 / 2) (-1)),
              fresnel_color := zero_float3 }) }
        up_context.I fresnel_closure.N = some (make_float3 1 (1 / 2) 0) := by
      rw [hc]
      simp [reflection_color, half_albedo_helpers, rational_helpers, up_context, up,
        fresnel_closure, plain_closure, mix, dot, make_float3, schlick_weight, one_float3,
        float3.add_def, float3.sub_def, float3.smul_def]
    exact Option.some.inj (ht.symm.trans h2)
  rw [hs, htint]
  simp only [Option.map_some']
  rw [show saturate _ = make_float3 1 (1 / 2) 0 from hc]
  simp [fresnel_closure, plain_closure, make_float3]
  norm_num

theorem max_max (r1 r2 a : ℚ) : max r2 (max r1 a) = max (max r1 r2) a := by
  rw [max_assoc, max_left_comm]

/-- C17: blur composes by taking the larger minimum: `blur(r2)` after `blur(r1)` equals
`blur(max(r1, r2))`; so for `r1 >= r2` it equals `blur(r1)` alone, and `blur(r)` twice equals
`blur(r)` once. -/
theorem blur_composes (bsdf : MicrofacetBsdf) (r1 r2 : ℚ) :
    bsdf_microfacet_ggx_blur (bsdf_microfacet_ggx_blur bsdf r1) r2 =
      bsdf_microfacet_ggx_blur bsdf (max r1 r2) ∧
    (r2 ≤ r1 →
      bsdf_microfacet_ggx_blur (bsdf_microfacet_ggx_blur bsdf r1) r2 =
        bsdf_microfacet_ggx_blur bsdf r1) ∧
    bsdf_microfacet_ggx_blur (bsdf_microfacet_ggx_blur bsdf r1) r1 =
      bsdf_microfacet_ggx_blur bsdf r1 := by
  have key : ∀ s1 s2 : ℚ, bsdf_microfacet_ggx_blur (bsdf_microfacet_ggx_blur bsdf s1) s2 =
      bsdf_microfacet_ggx_blur bsdf (max s1 s2) := by
    intro s1 s2
    simp only [bsdf_microfacet_ggx_blur, fmaxf, max_max]
  refine ⟨key r1 r2, fun h => ?_, ?_⟩
  · rw [key, max_eq_left h]
  · rw [key, max_self]

/-- C18: for a closure with `alpha_x`, `alpha_y` in `[0,1]`, `bsdf_microfacet_ggx_blur` with
roughness 0 returns the closure unchanged, field for field. -/
theorem blur_zero_noop (bsdf : MicrofacetBsdf)
    (h : 0 ≤ bsdf.alpha_x ∧ bsdf.alpha_x ≤ 1 ∧ 0 ≤ bsdf.alpha_y ∧ bsdf.alpha_y ≤ 1) :
    bsdf_microfacet_ggx_blur bsdf 0 = bsdf := by
  obtain ⟨hx, -, hy, -⟩ := h
  simp only [bsdf_microfacet_ggx_blur, fmaxf, max_eq_right hx, max_eq_right hy]

/-- Witness for C18: `blur(0)` leaves the plain closure with roughness `1/2` unchanged. -/
theorem blur_zero_noop_witness :
    (0 ≤ plain_closure.alpha_x ∧ plain_closure.alpha_x ≤ 1 ∧ 0 ≤ plain_closure.alpha_y ∧
      plain_closure.alpha_y ≤ 1) ∧
    bsdf_microfacet_ggx_blur plain_closure 0 = plain_closure :=
  have h : 0 ≤ plain_closure.alpha_x ∧ plain_closure.alpha_x ≤ 1 ∧
      0 ≤ plain_closure.alpha_y ∧ plain_closure.alpha_y ≤ 1 := by
    norm_num [plain_closure]
  ⟨h, blur_zero_noop plain_closure h⟩

/-- C19: the payload-free setups are idempotent: applying `bsdf_microfacet_ggx_setup`,
`bsdf_microfacet_ggx_isotropic_setup` or `bsdf_microfacet_ggx_refraction_setup` to the
closure it returned yields the same closure record and the same flags. -/
theorem payload_free_setups_idempotent (bsdf : MicrofacetBsdf) :
    bsdf_microfacet_ggx_setup (bsdf_microfacet_ggx_setup bsdf).1 =
      bsdf_microfacet_ggx_setup bsdf ∧
    bsdf_microfacet_ggx_isotropic_setup (bsdf_microfacet_ggx_isotropic_setup bsdf).1 =
      bsdf_microfacet_ggx_isotropic_setup bsdf ∧
    bsdf_microfacet_ggx_refraction_setup (bsdf_microfacet_ggx_refraction_setup bsdf).1 =
      bsdf_microfacet_ggx_refraction_setup bsdf := by
  refine ⟨?_, ?_, ?_⟩ <;>
    simp only [bsdf_microfacet_ggx_setup, bsdf_microfacet_ggx_isotropic_setup,
      bsdf_microfacet_ggx_refraction_setup, saturatef, clamp_idem]

/-- C20, as amended: reapplying the fresnel setups keeps the roughness, the tag, the clamped
`cspec0`, the cached fresnel colour and the flags, but is not idempotent on the weights. For
a closure with a `MicrofacetExtra` payload, `bsdf_microfacet_ggx_fresnel_setup` applied to
its own result returns that result with `sample_weight` multiplied once more by the mean of
the cached fresnel colour; `bsdf_microfacet_multi_ggx_fresnel_setup` applied to its own
result does the same and also multiplies `weight` by the energy-compensation scale of the
clamped closure. -/
theorem fresnel_setup_reapplied (k : Helpers) (bsdf : MicrofacetBsdf) (sd : ShaderData)
    (e : MicrofacetExtra) (h : bsdf.extra = some (ExtraPayload.v1 e)) :
    (∃ r tint, bsdf_microfacet_ggx_fresnel_setup k bsdf sd =
        some (r, SD_BSDF ||| SD_BSDF_HAS_EVAL) ∧
      r.extra = some (ExtraPayload.v1
        { e with cspec0 := saturate e.cspec0, fresnel_color := tint }) ∧
      bsdf_microfacet_ggx_fresnel_setup k r sd =
        some ({ r with sample_weight := r.sample_weight * average tint },
          SD_BSDF ||| SD_BSDF_HAS_EVAL)) ∧
    (∀ r, bsdf_microfacet_multi_ggx_fresnel_setup k bsdf sd = some r →
      ∃ tint, r.1.extra = some (ExtraPayload.v1
          { e with cspec0 := saturate e.cspec0, fresnel_color := tint }) ∧
        bsdf_microfacet_multi_ggx_fresnel_setup k r.1 sd =
          (microfacet_ggx_albedo_scaling k r.1 sd
            (k.schlick_fresnel_Fss (saturate e.cspec0))).map fun scale =>
            ({ r.1 with
                weight := r.1.weight * scale,
                sample_weight := r.1.sample_weight * average tint },
              SD_BSDF ||| SD_BSDF_HAS_EVAL)) := by
  have hsat : ∀ a : ℚ, saturatef (saturatef a) = saturatef a := fun a => clamp_idem a
  constructor
  · refine ⟨_, k.interpolate_fresnel_color sd.I bsdf.N bsdf.ior (saturate e.cspec0),
      fresnel_setup_eq k bsdf sd e h, rfl, ?_⟩
    rw [fresnel_setup_eq k _ sd _ rfl]
    simp only [saturate_idem, hsat]
  · intro r hr
    rw [multi_ggx_fresnel_setup_eq k bsdf sd e h] at hr
    simp only [Option.bind_eq_some] at hr
    obtain ⟨s, -, hr⟩ := hr
    rw [fresnel_setup_eq k { bsdf with weight := bsdf.weight * s } sd e h] at hr
    obtain rfl := Option.some.inj hr
    refine ⟨k.interpolate_fresnel_color sd.I bsdf.N bsdf.ior (saturate e.cspec0), rfl, ?_⟩
    rw [multi_ggx_fresnel_setup_eq k _ sd _ rfl]
    simp only []
    cases microfacet_ggx_albedo_scaling k
        { weight := bsdf.weight * s, type := CLOSURE_BSDF_MICROFACET_GGX_FRESNEL_ID,
          sample_weight := bsdf.sample_weight *
            average (k.interpolate_fresnel_color sd.I bsdf.N bsdf.ior (saturate e.cspec0)),
          N := bsdf.N, alpha_x := saturatef bsdf.alpha_x, alpha_y := saturatef bsdf.alpha_y,
          ior := bsdf.ior,
          extra := some (ExtraPayload.v1
            { color := e.color, cspec0 := saturate e.cspec0,
              fresnel_color :=
                k.interpolate_fresnel_color sd.I bsdf.N bsdf.ior (saturate e.cspec0) }),
          T := bsdf.T } sd (k.schlick_fresnel_Fss (saturate e.cspec0)) with
    | none => rfl
    | some s2 =>
      rw [Option.some_bind, fresnel_setup_eq k _ sd _ rfl]
      simp only [saturate_idem, hsat, Option.map_some']

/-- Witness for C20 as amended: `fresnel_closure` carries a `MicrofacetExtra` payload, so
the second application of the setup multiplies `sample_weight` by the mean once more. -/
theorem fresnel_setup_reapplied_witness :
    ∃ r tint, bsdf_microfacet_ggx_fresnel_setup half_albedo_helpers fresnel_closure
        up_context = some (r, SD_BSDF ||| SD_BSDF_HAS_EVAL) ∧
      r.extra = some (ExtraPayload.v1
        { color := one_float3, cspec0 := saturate (make_float3 2 (1 / 2) (-1)),
          fresnel_color := tint }) ∧
      bsdf_microfacet_ggx_fresnel_setup half_albedo_helpers r up_context =
        some ({ r with sample_weight := r.sample_weight * average tint },
          SD_BSDF ||| SD_BSDF_HAS_EVAL) :=
  (fresnel_setup_reapplied half_albedo_helpers fresnel_closure up_context _ rfl).1

theorem fresnel_closure_tint :
    half_albedo_helpers.interpolate_fresnel_color up_context.I fresnel_closure.N
      fresnel_closure.ior (saturate (make_float3 2 (1 / 2) (-1))) = make_float3 1 (1 / 2) 0 := by
  have hc : saturate (make_float3 2 (1 / 2) (-1)) = make_float3 1 (1 / 2) 0 := by
    norm_num [saturate, saturatef, clamp, make_float3]
  rw [hc]
  simp [half_albedo_helpers, rational_helpers, up_context, up, fresnel_closure, plain_closure,
    mix, dot, make_float3, schlick_weight, one_float3, float3.add_def, float3.sub_def,
    float3.smul_def]

/-- Counterexample to C20 as stated: on `fresnel_closure` one application of
`bsdf_microfacet_ggx_fresnel_setup` leaves `sample_weight = 1/2`, two applications leave
`sample_weight = 1/4`, so applying the setup twice is not the same as applying it once. -/
theorem fresnel_setup_not_idempotent_counterexample :
    (bsdf_microfacet_ggx_fresnel_setup half_albedo_helpers fresnel_closure up_context).map
        (fun r => r.1.sample_weight) = some (1 / 2) ∧
    ((bsdf_microfacet_ggx_fresnel_setup half_albedo_helpers fresnel_closure up_context).bind
        fun r => bsdf_microfacet_ggx_fresnel_setup half_albedo_helpers r.1 up_context).map
        (fun r => r.1.sample_weight) = some (1 / 4) ∧
    ((bsdf_microfacet_ggx_fresnel_setup half_albedo_helpers fresnel_closure up_context).bind
        fun r => bsdf_microfacet_ggx_fresnel_setup half_albedo_helpers r.1 up_context) ≠
      bsdf_microfacet_ggx_fresnel_setup half_albedo_helpers fresnel_closure up_context := by
  have havg : average (make_float3 1 (1 / 2) 0) = 1 / 2 := by
    norm_num [average, make_float3]
  have h1 : (bsdf_microfacet_ggx_fresnel_setup half_albedo_helpers fresnel_closure
      up_context).map (fun r => r.1.sample_weight) = some (1 / 2) := by
    rw [fresnel_setup_eq half_albedo_helpers fresnel_closure up_context _ rfl]
    simp only [Option.map_some']
    rw [show half_albedo_helpers.interpolate_fresnel_color _ _ _ (saturate _) =
      make_float3 1 (1 / 2) 0 from fresnel_closure_tint, havg]
    norm_num [fresnel_closure, plain_closure]
  have h2 : ((bsdf_microfacet_ggx_fresnel_setup half_albedo_helpers fresnel_closure
      up_context).bind fun r =>
        bsdf_microfacet_ggx_fresnel_setup half_albedo_helpers r.1 up_context).map
      (fun r => r.1.sample_weight) = some (1 / 4) := by
    rw [fresnel_setup_eq half_albedo_helpers fresnel_closure up_context _ rfl,
      Option.some_bind, fresnel_setup_eq half_albedo_helpers _ up_context _ rfl]
    simp only [Option.map_some', saturate_idem]
    rw [show half_albedo_helpers.interpolate_fresnel_color _ _ _ (saturate _) =
      make_float3 1 (1 / 2) 0 from fresnel_closure_tint, havg]
    norm_num [fresnel_closure, plain_closure]
  refine ⟨h1, h2, fun hcon => ?_⟩
  rw [hcon, h1] at h2
  norm_num at h2

/-! ## Energy compensation: scalar against colour, and monotonicity -/

theorem albedo_scaling_channels (k : Helpers) (bsdf : MicrofacetBsdf) (sd : ShaderData)
    (Fss : float3) :
    microfacet_ggx_albedo_scaling k bsdf sd Fss =
      (microfacet_ggx_albedo_scaling_float k bsdf sd Fss.x).bind fun sx =>
      (microfacet_ggx_albedo_scaling_float k bsdf sd Fss.y).bind fun sy =>
      (microfacet_ggx_albedo_scaling_float k bsdf sd Fss.z).bind fun sz =>
      some (make_float3 sx sy sz) := by
  rw [albedo_scaling_eq, albedo_scaling_float_eq, albedo_scaling_float_eq,
    albedo_scaling_float_eq]
  generalize k.microfacet_ggx_E (dot sd.I bsdf.N)
    (k.sqrtf (k.sqrtf (bsdf.alpha_x * bsdf.alpha_y))) = E
  generalize k.microfacet_ggx_E_avg (k.sqrtf (k.sqrtf (bsdf.alpha_x * bsdf.alpha_y))) = A
  by_cases hE : E = 0
  · by_cases hx : 1 - Fss.x * (1 - A) = 0 <;> by_cases hy : 1 - Fss.y * (1 - A) = 0 <;>
      by_cases hz : 1 - Fss.z * (1 - A) = 0 <;>
      simp [fdiv, float3.div, hE, hx, hy, hz, make_float3, one_float3, float3.scale_def,
        float3.sub_def, float3.add_def]
  · by_cases hx : 1 - Fss.x * (1 - A) = 0 <;> by_cases hy : 1 - Fss.y * (1 - A) = 0 <;>
      by_cases hz : 1 - Fss.z * (1 - A) = 0 <;>
      simp [fdiv, float3.div, hE, hx, hy, hz, make_float3, one_float3, float3.scale_def,
        float3.sub_def, float3.add_def]

/-- C27: the scalar and colour energy-compensation functions agree. With `Fss = (f, f, f)`
the colour function returns `(s, s, s)` for the value `s` the scalar function returns at
`f`; for an arbitrary colour every channel of the result is the scalar function applied to
that channel of `Fss`, and the colour result is defined exactly when the three scalar
results are. -/
theorem albedo_scaling_scalar_colour_agree (k : Helpers) (bsdf : MicrofacetBsdf)
    (sd : ShaderData) (f : ℚ) (Fss : float3) :
    microfacet_ggx_albedo_scaling k bsdf sd (make_float3 f f f) =
      (microfacet_ggx_albedo_scaling_float k bsdf sd f).map (fun s => make_float3 s s s) ∧
    microfacet_ggx_albedo_scaling k bsdf sd Fss =
      ((microfacet_ggx_albedo_scaling_float k bsdf sd Fss.x).bind fun sx =>
        (microfacet_ggx_albedo_scaling_float k bsdf sd Fss.y).bind fun sy =>
        (microfacet_ggx_albedo_scaling_float k bsdf sd Fss.z).bind fun sz =>
        some (make_float3 sx sy sz)) ∧
    (∀ v, microfacet_ggx_albedo_scaling k bsdf sd Fss = some v →
      microfacet_ggx_albedo_scaling_float k bsdf sd Fss.x = some v.x ∧
      microfacet_ggx_albedo_scaling_float k bsdf sd Fss.y = some v.y ∧
      microfacet_ggx_albedo_scaling_float k bsdf sd Fss.z = some v.z) := by
  refine ⟨?_, albedo_scaling_channels k bsdf sd Fss, fun v hv => ?_⟩
  · rw [albedo_scaling_channels]
    simp only [make_float3]
    cases microfacet_ggx_albedo_scaling_float k bsdf sd f <;> rfl
  · rw [albedo_scaling_channels] at hv
    simp only [Option.bind_eq_some] at hv
    obtain ⟨sx, hx, sy, hy, sz, hz, hv⟩ := hv
    rw [← Option.some.inj hv]
    exact ⟨hx, hy, hz⟩

/-- Witness for C27: with the tables `E = 1/2`, `E_avg = 1/2` the colour function at
`(1/2, 1/2, 1/2)` returns `(4/3, 4/3, 4/3)` and the scalar function at `1/2` returns
`4/3`. -/
theorem albedo_scaling_scalar_colour_agree_witness :
    microfacet_ggx_albedo_scaling_float half_albedo_helpers plain_closure up_context (1 / 2) =
      some (4 / 3) ∧
    microfacet_ggx_albedo_scaling half_albedo_helpers plain_closure up_context
      (make_float3 (1 / 2) (1 / 2) (1 / 2)) = some (make_float3 (4 / 3) (4 / 3) (4 / 3)) := by
  have h : microfacet_ggx_albedo_scaling_float half_albedo_helpers plain_closure up_context
      (1 / 2) = some (4 / 3) := by
    rw [albedo_scaling_float_eq]
    simp [fdiv, half_albedo_helpers]
    norm_num
  refine ⟨h, ?_⟩
  rw [(albedo_scaling_scalar_colour_agree half_albedo_helpers plain_closure up_context (1 / 2)
    zero_float3).1, h]
  rfl

theorem rat_sqrt_zero : Rat.sqrt 0 = 0 := by
  have h := rat_sqrt_mul_self 0 le_rfl
  rwa [mul_zero] at h

theorem rat_sqrt_one : Rat.sqrt 1 = 1 := by
  have h := rat_sqrt_mul_self 1 zero_le_one
  rwa [mul_one] at h

theorem fms_den_pos (F A : ℚ) (hF0 : 0 ≤ F) (hF1 : F ≤ 1) (hA0 : 0 ≤ A)
    (h : F < 1 ∨ 0 < A) : 0 < 1 - F * (1 - A) := by
  have hFA : 0 ≤ F * A := mul_nonneg hF0 hA0
  rcases h with h | h
  · linarith
  · rcases eq_or_lt_of_le hF0 with h0 | h0
    · rw [← h0]
      norm_num
    · have : 0 < F * A := mul_pos h0 h
      linarith

theorem loss_ratio_anti (E1 E2 : ℚ) (h0 : 0 < E2) (h : E2 ≤ E1) :
    (1 - E1) / E1 ≤ (1 - E2) / E2 := by
  rw [div_le_div_iff₀ (lt_of_lt_of_le h0 h) h0]
  nlinarith

theorem loss_ratio_anti_conv (E1 E2 : ℚ) (h1 : 0 < E1) (h2 : 0 < E2)
    (h : (1 - E1) / E1 ≤ (1 - E2) / E2) : E2 ≤ E1 := by
  rw [div_le_div_iff₀ h1 h2] at h
  nlinarith

theorem scale_le_of (F A1 A2 g1 g2 : ℚ) (hF0 : 0 ≤ F) (hF1 : F ≤ 1)
    (hD1 : 0 < 1 - F * (1 - A1)) (hD2 : 0 < 1 - F * (1 - A2))
    (hA1 : 0 ≤ A1) (hA2 : 0 ≤ A2) (hg : g1 ≤ g2) (hq : A1 * g1 ≤ A2 * g2) :
    1 + F * A1 / (1 - F * (1 - A1)) * g1 ≤ 1 + F * A2 / (1 - F * (1 - A2)) * g2 := by
  have e1 : F * A1 / (1 - F * (1 - A1)) * g1 = F * A1 * g1 / (1 - F * (1 - A1)) := by
    rw [div_mul_eq_mul_div]
  have e2 : F * A2 / (1 - F * (1 - A2)) * g2 = F * A2 * g2 / (1 - F * (1 - A2)) := by
    rw [div_mul_eq_mul_div]
  rw [e1, e2, add_le_add_iff_left, div_le_div_iff₀ hD1 hD2]
  have t1 : F * (1 - F) * (A1 * g1) ≤ F * (1 - F) * (A2 * g2) :=
    mul_le_mul_of_nonneg_left hq (mul_nonneg hF0 (by linarith))
  have t2 : F * F * (A1 * A2) * g1 ≤ F * F * (A1 * A2) * g2 :=
    mul_le_mul_of_nonneg_left hg
      (mul_nonneg (mul_nonneg hF0 hF0) (mul_nonneg hA1 hA2))
  nlinarith [t1, t2]

theorem scale_at_one (A g : ℚ) (hA : 0 < A) :
    1 + 1 * A / (1 - 1 * (1 - A)) * g = 1 + g := by
  have hA0 : A ≠ 0 := ne_of_gt hA
  have : (1 : ℚ) - 1 * (1 - A) = A := by ring
  rw [this, one_mul, div_self hA0, one_mul]

theorem scale_small_F (A1 A2 g1 g2 : ℚ) (hA1 : 0 ≤ A1) (hA1u : A1 ≤ 1) (hA2 : 0 ≤ A2)
    (hg2 : 0 ≤ g2) (hlt : A2 * g2 < A1 * g1) :
    1 + (A1 * g1 - A2 * g2) / (2 * (A1 * g1)) * A2 /
        (1 - (A1 * g1 - A2 * g2) / (2 * (A1 * g1)) * (1 - A2)) * g2 <
      1 + (A1 * g1 - A2 * g2) / (2 * (A1 * g1)) * A1 /
        (1 - (A1 * g1 - A2 * g2) / (2 * (A1 * g1)) * (1 - A1)) * g1 := by
  have hq2 : 0 ≤ A2 * g2 := mul_nonneg hA2 hg2
  have hq1 : 0 < A1 * g1 := lt_of_le_of_lt hq2 hlt
  generalize hF : (A1 * g1 - A2 * g2) / (2 * (A1 * g1)) = F
  have hFpos : 0 < F := by
    rw [← hF]
    exact div_pos (by linarith) (by linarith)
  have hFhalf : F ≤ 1 / 2 := by
    rw [← hF, div_le_iff₀ (by linarith)]
    linarith
  have hFq : F * (2 * (A1 * g1)) = A1 * g1 - A2 * g2 := by
    rw [← hF]
    field_simp
  have hD1 : 0 < 1 - F * (1 - A1) := by nlinarith [mul_nonneg (le_of_lt hFpos) hA1]
  have hD1u : 1 - F * (1 - A1) ≤ 1 := by nlinarith [mul_nonneg (le_of_lt hFpos) (by linarith : (0:ℚ) ≤ 1 - A1)]
  have hD2 : 1 - F ≤ 1 - F * (1 - A2) := by nlinarith [mul_nonneg (le_of_lt hFpos) hA2]
  have hF1 : 0 < 1 - F := by linarith
  have e1 : F * A1 / (1 - F * (1 - A1)) * g1 = F * (A1 * g1) / (1 - F * (1 - A1)) := by
    rw [div_mul_eq_mul_div, mul_assoc]
  have e2 : F * A2 / (1 - F * (1 - A2)) * g2 = F * (A2 * g2) / (1 - F * (1 - A2)) := by
    rw [div_mul_eq_mul_div, mul_assoc]
  rw [e1, e2, add_lt_add_iff_left]
  have hlow : F * (A1 * g1) ≤ F * (A1 * g1) / (1 - F * (1 - A1)) := by
    rw [le_div_iff₀ hD1]
    nlinarith [mul_nonneg (le_of_lt hFpos) (le_of_lt hq1)]
  have hup : F * (A2 * g2) / (1 - F * (1 - A2)) ≤ F * (A2 * g2) / (1 - F) :=
    div_le_div_of_nonneg_left (mul_nonneg (le_of_lt hFpos) hq2) hF1 hD2
  have hmid : F * (A2 * g2) / (1 - F) < F * (A1 * g1) := by
    rw [div_lt_iff₀ hF1]
    nlinarith [mul_pos hFpos hq1, mul_pos hFpos hFpos]
  linarith

theorem albedo_scaling_float_value (k : Helpers) (bsdf : MicrofacetBsdf) (sd : ShaderData)
    (F E A : ℚ)
    (hE : k.microfacet_ggx_E (dot sd.I bsdf.N)
      (k.sqrtf (k.sqrtf (bsdf.alpha_x * bsdf.alpha_y))) = E)
    (hA : k.microfacet_ggx_E_avg (k.sqrtf (k.sqrtf (bsdf.alpha_x * bsdf.alpha_y))) = A)
    (hd : 1 - F * (1 - A) ≠ 0) (hE0 : E ≠ 0) :
    microfacet_ggx_albedo_scaling_float k bsdf sd F =
      some (1 + F * A / (1 - F * (1 - A)) * ((1 - E) / E)) := by
  rw [albedo_scaling_float_eq, hE, hA]
  simp [fdiv, hd, hE0]

theorem albedo_scaling_float_le (k : Helpers) (b1 b2 : MicrofacetBsdf) (sd : ShaderData)
    (r1 r2 F : ℚ)
    (hN : b1.N = b2.N)
    (h1 : k.sqrtf (k.sqrtf (b1.alpha_x * b1.alpha_y)) = r1)
    (h2 : k.sqrtf (k.sqrtf (b2.alpha_x * b2.alpha_y)) = r2)
    (hE1 : 0 < k.microfacet_ggx_E (dot sd.I b1.N) r1 ∧ k.microfacet_ggx_E (dot sd.I b1.N) r1 ≤ 1)
    (hE2 : 0 < k.microfacet_ggx_E (dot sd.I b1.N) r2)
    (hA1 : 0 ≤ k.microfacet_ggx_E_avg r1) (hA2 : 0 ≤ k.microfacet_ggx_E_avg r2)
    (hE : k.microfacet_ggx_E (dot sd.I b1.N) r2 ≤ k.microfacet_ggx_E (dot sd.I b1.N) r1)
    (hq : k.microfacet_ggx_E_avg r1 *
        ((1 - k.microfacet_ggx_E (dot sd.I b1.N) r1) / k.microfacet_ggx_E (dot sd.I b1.N) r1) ≤
      k.microfacet_ggx_E_avg r2 *
        ((1 - k.microfacet_ggx_E (dot sd.I b1.N) r2) / k.microfacet_ggx_E (dot sd.I b1.N) r2))
    (hF0 : 0 ≤ F) (hF1 : F ≤ 1)
    (hdef : F < 1 ∨ (0 < k.microfacet_ggx_E_avg r1 ∧ 0 < k.microfacet_ggx_E_avg r2)) :
    ∃ s1 s2, microfacet_ggx_albedo_scaling_float k b1 sd F = some s1 ∧
      microfacet_ggx_albedo_scaling_float k b2 sd F = some s2 ∧ s1 ≤ s2 := by
  have hD1 : 0 < 1 - F * (1 - k.microfacet_ggx_E_avg r1) :=
    fms_den_pos F _ hF0 hF1 hA1 (hdef.imp id fun h => h.1)
  have hD2 : 0 < 1 - F * (1 - k.microfacet_ggx_E_avg r2) :=
    fms_den_pos F _ hF0 hF1 hA2 (hdef.imp id fun h => h.2)
  exact ⟨_, _,
    albedo_scaling_float_value k b1 sd F _ _ (by rw [h1]) (by rw [h1]) (ne_of_gt hD1)
      (ne_of_gt hE1.1),
    albedo_scaling_float_value k b2 sd F _ _ (by rw [h2, ← hN]) (by rw [h2]) (ne_of_gt hD2)
      (ne_of_gt hE2),
    scale_le_of F _ _ _ _ hF0 hF1 hD1 hD2 hA1 hA2 (loss_ratio_anti _ _ hE2 hE) hq⟩

/-- C21, as amended: the energy-compensation scale is non-decreasing in roughness when the
directional albedo does not increase with roughness and the product
`E_avg(r) * (1 - E(mu, r)) / E(mu, r)` does not decrease with it; the average albedo itself
may fall with roughness. For roughness values `r1 <= r2` in `[0,1]`, tables with `E(mu, r)`
in `(0,1]` and `E_avg(r)` in `[0,1]`, and every `Fss` in `[0,1]` (with `Fss < 1` or
`E_avg > 0`, so that no divisor is zero), both scales
`1 + Fms * (1 - E) / E`, `Fms = Fss * E_avg / (1 - Fss * (1 - E_avg))`, are defined and
`scale(r1) <= scale(r2)`, for the scalar function and for every channel of the colour
function. The two conditions on the tables are also necessary when `E_avg > 0`: if
`scale(r1) <= scale(r2)` for every `Fss` in `[0,1]`, then `E(mu, r2) <= E(mu, r1)` and
`E_avg(r1) * (1 - E(mu, r1)) / E(mu, r1) <= E_avg(r2) * (1 - E(mu, r2)) / E(mu, r2)`. -/
theorem albedo_scaling_monotone (k : Helpers) (b1 b2 : MicrofacetBsdf) (sd : ShaderData)
    (r1 r2 : ℚ)
    (hN : b1.N = b2.N)
    (h1 : k.sqrtf (k.sqrtf (b1.alpha_x * b1.alpha_y)) = r1)
    (h2 : k.sqrtf (k.sqrtf (b2.alpha_x * b2.alpha_y)) = r2)
    (hr : 0 ≤ r1 ∧ r1 ≤ r2 ∧ r2 ≤ 1)
    (hErange : ∀ r, 0 ≤ r → r ≤ 1 →
      0 < k.microfacet_ggx_E (dot sd.I b1.N) r ∧ k.microfacet_ggx_E (dot sd.I b1.N) r ≤ 1)
    (hArange : ∀ r, 0 ≤ r → r ≤ 1 →
      0 ≤ k.microfacet_ggx_E_avg r ∧ k.microfacet_ggx_E_avg r ≤ 1) :
    ((∀ r r', 0 ≤ r → r ≤ r' → r' ≤ 1 →
        k.microfacet_ggx_E (dot sd.I b1.N) r' ≤ k.microfacet_ggx_E (dot sd.I b1.N) r) →
      (∀ r r', 0 ≤ r → r ≤ r' → r' ≤ 1 →
        k.microfacet_ggx_E_avg r *
            ((1 - k.microfacet_ggx_E (dot sd.I b1.N) r) /
              k.microfacet_ggx_E (dot sd.I b1.N) r) ≤
          k.microfacet_ggx_E_avg r' *
            ((1 - k.microfacet_ggx_E (dot sd.I b1.N) r') /
              k.microfacet_ggx_E (dot sd.I b1.N) r')) →
      (∀ Fss, 0 ≤ Fss → Fss ≤ 1 →
        (Fss < 1 ∨ (0 < k.microfacet_ggx_E_avg r1 ∧ 0 < k.microfacet_ggx_E_avg r2)) →
        ∃ s1 s2, microfacet_ggx_albedo_scaling_float k b1 sd Fss = some s1 ∧
          microfacet_ggx_albedo_scaling_float k b2 sd Fss = some s2 ∧ s1 ≤ s2) ∧
      (∀ Fss : float3, (0 ≤ Fss.x ∧ Fss.x ≤ 1) → (0 ≤ Fss.y ∧ Fss.y ≤ 1) →
        (0 ≤ Fss.z ∧ Fss.z ≤ 1) →
        ((Fss.x < 1 ∧ Fss.y < 1 ∧ Fss.z < 1) ∨
          (0 < k.microfacet_ggx_E_avg r1 ∧ 0 < k.microfacet_ggx_E_avg r2)) →
        ∃ v1 v2, microfacet_ggx_albedo_scaling k b1 sd Fss = some v1 ∧
          microfacet_ggx_albedo_scaling k b2 sd Fss = some v2 ∧
          v1.x ≤ v2.x ∧ v1.y ≤ v2.y ∧ v1.z ≤ v2.z)) ∧
    (0 < k.microfacet_ggx_E_avg r1 → 0 < k.microfacet_ggx_E_avg r2 →
      (∀ Fss, 0 ≤ Fss → Fss ≤ 1 → ∀ s1 s2,
        microfacet_ggx_albedo_scaling_float k b1 sd Fss = some s1 →
        microfacet_ggx_albedo_scaling_float k b2 sd Fss = some s2 → s1 ≤ s2) →
      k.microfacet_ggx_E (dot sd.I b1.N) r2 ≤ k.microfacet_ggx_E (dot sd.I b1.N) r1 ∧
      k.microfacet_ggx_E_avg r1 *
          ((1 - k.microfacet_ggx_E (dot sd.I b1.N) r1) /
            k.microfacet_ggx_E (dot sd.I b1.N) r1) ≤
        k.microfacet_ggx_E_avg r2 *
          ((1 - k.microfacet_ggx_E (dot sd.I b1.N) r2) /
            k.microfacet_ggx_E (dot sd.I b1.N) r2)) := by
  obtain ⟨hr0, hr12, hr1⟩ := hr
  obtain ⟨hE1pos, hE1le⟩ := hErange r1 hr0 (le_trans hr12 hr1)
  obtain ⟨hE2pos, hE2le⟩ := hErange r2 (le_trans hr0 hr12) hr1
  obtain ⟨hA1, hA1u⟩ := hArange r1 hr0 (le_trans hr12 hr1)
  obtain ⟨hA2, hA2u⟩ := hArange r2 (le_trans hr0 hr12) hr1
  refine ⟨fun hEmono hqmono => ?_, fun hA1pos hA2pos hall => ?_⟩
  · have hE := hEmono r1 r2 hr0 hr12 hr1
    have hq := hqmono r1 r2 hr0 hr12 hr1
    have hs : ∀ F, 0 ≤ F → F ≤ 1 →
        (F < 1 ∨ (0 < k.microfacet_ggx_E_avg r1 ∧ 0 < k.microfacet_ggx_E_avg r2)) →
        ∃ s1 s2, microfacet_ggx_albedo_scaling_float k b1 sd F = some s1 ∧
          microfacet_ggx_albedo_scaling_float k b2 sd F = some s2 ∧ s1 ≤ s2 :=
      fun F hF0 hF1 hdef =>
        albedo_scaling_float_le k b1 b2 sd r1 r2 F hN h1 h2 ⟨hE1pos, hE1le⟩ hE2pos hA1 hA2 hE
          hq hF0 hF1 hdef
    refine ⟨hs, fun Fss hx hy hz hdef => ?_⟩
    obtain ⟨x1, x2, hx1, hx2, hxle⟩ := hs Fss.x hx.1 hx.2 (hdef.imp (fun h => h.1) id)
    obtain ⟨y1, y2, hy1, hy2, hyle⟩ := hs Fss.y hy.1 hy.2 (hdef.imp (fun h => h.2.1) id)
    obtain ⟨z1, z2, hz1, hz2, hzle⟩ := hs Fss.z hz.1 hz.2 (hdef.imp (fun h => h.2.2) id)
    refine ⟨make_float3 x1 y1 z1, make_float3 x2 y2 z2, ?_, ?_, hxle, hyle, hzle⟩
    · rw [albedo_scaling_channels, hx1, hy1, hz1]
      rfl
    · rw [albedo_scaling_channels, hx2, hy2, hz2]
      rfl
  · have hv : ∀ F, 0 ≤ F → F ≤ 1 →
        1 + F * k.microfacet_ggx_E_avg r1 / (1 - F * (1 - k.microfacet_ggx_E_avg r1)) *
            ((1 - k.microfacet_ggx_E (dot sd.I b1.N) r1) /
              k.microfacet_ggx_E (dot sd.I b1.N) r1) ≤
          1 + F * k.microfacet_ggx_E_avg r2 / (1 - F * (1 - k.microfacet_ggx_E_avg r2)) *
            ((1 - k.microfacet_ggx_E (dot sd.I b1.N) r2) /
              k.microfacet_ggx_E (dot sd.I b1.N) r2) := by
      intro F hF0 hF1
      exact hall F hF0 hF1 _ _
        (albedo_scaling_float_value k b1 sd F _ _ (by rw [h1]) (by rw [h1])
          (ne_of_gt (fms_den_pos F _ hF0 hF1 hA1 (Or.inr hA1pos))) (ne_of_gt hE1pos))
        (albedo_scaling_float_value k b2 sd F _ _ (by rw [h2, ← hN]) (by rw [h2])
          (ne_of_gt (fms_den_pos F _ hF0 hF1 hA2 (Or.inr hA2pos))) (ne_of_gt hE2pos))
    have hg : (1 - k.microfacet_ggx_E (dot sd.I b1.N) r1) /
          k.microfacet_ggx_E (dot sd.I b1.N) r1 ≤
        (1 - k.microfacet_ggx_E (dot sd.I b1.N) r2) /
          k.microfacet_ggx_E (dot sd.I b1.N) r2 := by
      have h := hv 1 zero_le_one le_rfl
      rw [scale_at_one _ _ hA1pos, scale_at_one _ _ hA2pos] at h
      linarith
    refine ⟨loss_ratio_anti_conv _ _ hE1pos hE2pos hg, ?_⟩
    by_contra hcon
    have hlt := not_le.mp hcon
    have hg2 : 0 ≤ (1 - k.microfacet_ggx_E (dot sd.I b1.N) r2) /
        k.microfacet_ggx_E (dot sd.I b1.N) r2 :=
      div_nonneg (by linarith) (le_of_lt hE2pos)
    have hq2 := mul_nonneg hA2 hg2
    have hstrict := scale_small_F _ _ _ _ hA1 hA1u hA2 hg2 hlt
    have hFpos : 0 ≤ (k.microfacet_ggx_E_avg r1 *
          ((1 - k.microfacet_ggx_E (dot sd.I b1.N) r1) /
            k.microfacet_ggx_E (dot sd.I b1.N) r1) -
        k.microfacet_ggx_E_avg r2 *
          ((1 - k.microfacet_ggx_E (dot sd.I b1.N) r2) /
            k.microfacet_ggx_E (dot sd.I b1.N) r2)) /
        (2 * (k.microfacet_ggx_E_avg r1 *
          ((1 - k.microfacet_ggx_E (dot sd.I b1.N) r1) /
            k.microfacet_ggx_E (dot sd.I b1.N) r1))) :=
      div_nonneg (by linarith) (by linarith)
    have hFle : (k.microfacet_ggx_E_avg r1 *
          ((1 - k.microfacet_ggx_E (dot sd.I b1.N) r1) /
            k.microfacet_ggx_E (dot sd.I b1.N) r1) -
        k.microfacet_ggx_E_avg r2 *
          ((1 - k.microfacet_ggx_E (dot sd.I b1.N) r2) /
            k.microfacet_ggx_E (dot sd.I b1.N) r2)) /
        (2 * (k.microfacet_ggx_E_avg r1 *
          ((1 - k.microfacet_ggx_E (dot sd.I b1.N) r1) /
            k.microfacet_ggx_E (dot sd.I b1.N) r1))) ≤ 1 := by
      rw [div_le_iff₀ (by linarith)]
      linarith
    exact absurd (hv _ hFpos hFle) (not_le.mpr hstrict)
theorem mirror_rough : rational_helpers.sqrtf (rational_helpers.sqrtf
    (mirror_closure.alpha_x * mirror_closure.alpha_y)) = 0 := by
  simp [rational_helpers, mirror_closure, rat_sqrt_zero]

theorem rough_rough : rational_helpers.sqrtf (rational_helpers.sqrtf
    (rough_closure.alpha_x * rough_closure.alpha_y)) = 1 := by
  simp [rational_helpers, rough_closure, rat_sqrt_one]

theorem rational_tables_up (r : ℚ) :
    rational_helpers.microfacet_ggx_E (dot up_context.I mirror_closure.N) r = 1 - r / 2 ∧
    rational_helpers.microfacet_ggx_E_avg r = 1 - r / 2 := by
  constructor
  · simp only [rational_helpers, up_context, up, mirror_closure, plain_closure, dot,
      make_float3]
    ring
  · rfl

theorem rational_tables_product (r : ℚ) (h : r ≤ 1) :
    rational_helpers.microfacet_ggx_E_avg r *
      ((1 - rational_helpers.microfacet_ggx_E (dot up_context.I mirror_closure.N) r) /
        rational_helpers.microfacet_ggx_E (dot up_context.I mirror_closure.N) r) = r / 2 := by
  rw [(rational_tables_up r).1, (rational_tables_up r).2]
  have hne : (1 : ℚ) - r / 2 ≠ 0 := by
    have : (0 : ℚ) < 1 - r / 2 := by linarith
    exact ne_of_gt this
  have hnum : (1 : ℚ) - (1 - r / 2) = r / 2 := by ring
  rw [hnum, mul_div_assoc', mul_comm, mul_div_assoc, div_self hne, mul_one]

/-- Witness for C21 as amended: with the tables `E = 1 - r * (1 - mu / 2)` and
`E_avg = 1 - r / 2`, whose average albedo falls with roughness, viewed along the normal, the
scale at `Fss = 1/2` is defined at roughness 0 and at roughness 1 and does not decrease. -/
theorem albedo_scaling_monotone_witness :
    rational_helpers.microfacet_ggx_E_avg 1 < rational_helpers.microfacet_ggx_E_avg 0 ∧
    ∃ s1 s2, microfacet_ggx_albedo_scaling_float rational_helpers mirror_closure up_context
        (1 / 2) = some s1 ∧
      microfacet_ggx_albedo_scaling_float rational_helpers rough_closure up_context (1 / 2) =
        some s2 ∧ s1 ≤ s2 :=
  ⟨by norm_num [rational_helpers],
    ((albedo_scaling_monotone rational_helpers mirror_closure rough_closure up_context 0 1
      rfl mirror_rough rough_rough (by norm_num)
      (fun r h0 h1 => by
        rw [(rational_tables_up r).1]
        constructor <;> linarith)
      (fun r h0 h1 => by
        rw [(rational_tables_up r).2]
        constructor <;> linarith)).1
      (fun r r' _ h _ => by
        rw [(rational_tables_up r).1, (rational_tables_up r').1]
        linarith)
      (fun r r' _ h h1 => by
        rw [rational_tables_product r (le_trans h h1), rational_tables_product r' h1]
        linarith)).1 (1 / 2) (by norm_num) (by norm_num) (Or.inl (by norm_num))⟩
/-- Counterexample to C21 as stated: tables with values in `[0,1]` that are monotonic in
roughness do not make the scale non-decreasing. With `E = 1/2` constant and
`E_avg = 1 - r/2` the scale at `Fss = 1/2` falls from `3/2` at roughness 0 to `4/3` at
roughness 1; with `E = (1 + r)/2` and `E_avg = 1/2` it falls from `4/3` to `1`; with `E = 0`
the scale is undefined, and so it is with `Fss = 1` and `E_avg = 0`. -/
theorem albedo_scaling_monotone_counterexample :
    (∀ r r' : ℚ, r ≤ r' →
      flat_E_helpers.microfacet_ggx_E_avg r' ≤ flat_E_helpers.microfacet_ggx_E_avg r) ∧
    (∀ mu r r' : ℚ,
      flat_E_helpers.microfacet_ggx_E mu r' = flat_E_helpers.microfacet_ggx_E mu r) ∧
    (∀ mu r : ℚ, 0 ≤ r → r ≤ 1 →
      0 ≤ flat_E_helpers.microfacet_ggx_E mu r ∧ flat_E_helpers.microfacet_ggx_E mu r ≤ 1 ∧
      0 ≤ flat_E_helpers.microfacet_ggx_E_avg r ∧ flat_E_helpers.microfacet_ggx_E_avg r ≤ 1) ∧
    microfacet_ggx_albedo_scaling_float flat_E_helpers mirror_closure up_context (1 / 2) =
      some (3 / 2) ∧
    microfacet_ggx_albedo_scaling_float flat_E_helpers rough_closure up_context (1 / 2) =
      some (4 / 3) ∧
    ¬((3 / 2 : ℚ) ≤ 4 / 3) ∧
    (∀ mu r r' : ℚ, r ≤ r' →
      rising_E_helpers.microfacet_ggx_E mu r ≤ rising_E_helpers.microfacet_ggx_E mu r') ∧
    microfacet_ggx_albedo_scaling_float rising_E_helpers mirror_closure up_context (1 / 2) =
      some (4 / 3) ∧
    microfacet_ggx_albedo_scaling_float rising_E_helpers rough_closure up_context (1 / 2) =
      some 1 ∧
    ¬((4 / 3 : ℚ) ≤ 1) ∧
    microfacet_ggx_albedo_scaling_float zero_albedo_helpers mirror_closure up_context (1 / 2) =
      none ∧
    microfacet_ggx_albedo_scaling_float zero_average_helpers mirror_closure up_context 1 =
      none := by
  have hm : Rat.sqrt (Rat.sqrt (mirror_closure.alpha_x * mirror_closure.alpha_y)) = 0 :=
    mirror_rough
  have hr : Rat.sqrt (Rat.sqrt (rough_closure.alpha_x * rough_closure.alpha_y)) = 1 :=
    rough_rough
  refine ⟨fun r r' h => ?_, fun _ _ _ => rfl, fun mu r h0 h1 => ?_, ?_, ?_, by norm_num,
    fun mu r r' h => ?_, ?_, ?_, by norm_num, ?_, ?_⟩
  · simp only [flat_E_helpers, rational_helpers]
    linarith
  · simp only [flat_E_helpers, rational_helpers]
    refine ⟨by norm_num, by norm_num, by linarith, by linarith⟩
  · rw [albedo_scaling_float_value flat_E_helpers mirror_closure up_context (1 / 2) (1 / 2) 1
      rfl (by norm_num [flat_E_helpers, rational_helpers, hm]) (by norm_num) (by norm_num)]
    norm_num
  · rw [albedo_scaling_float_value flat_E_helpers rough_closure up_context (1 / 2) (1 / 2)
      (1 / 2) rfl (by norm_num [flat_E_helpers, rational_helpers, hr]) (by norm_num) (by norm_num)]
    norm_num
  · simp only [rising_E_helpers]
    linarith
  · rw [albedo_scaling_float_value rising_E_helpers mirror_closure up_context (1 / 2) (1 / 2)
      (1 / 2) (by norm_num [rising_E_helpers, rational_helpers, hm]) rfl (by norm_num)
      (by norm_num)]
    norm_num
  · rw [albedo_scaling_float_value rising_E_helpers rough_closure up_context (1 / 2) 1
      (1 / 2) (by norm_num [rising_E_helpers, rational_helpers, hr]) rfl (by norm_num)
      (by norm_num)]
    norm_num
  · rw [albedo_scaling_float_eq]
    simp [fdiv, zero_albedo_helpers]
  · rw [albedo_scaling_float_eq]
    simp [fdiv, zero_average_helpers]

/-! ## Divisors of the reflection evaluator -/

theorem eval_transmit_zero_half_vector (k : Helpers) (bsdf : MicrofacetBsdf)
    (I omega_in : float3)
    (hR : bsdf.type = CLOSURE_BSDF_MICROFACET_GGX_REFRACTION_ID)
    (ha : 1 / 10000000 < bsdf.alpha_x * bsdf.alpha_y)
    (hO : 0 < dot bsdf.N I) (hI : dot bsdf.N omega_in < 0)
    (h0 : dot (-(bsdf.ior * omega_in + I)) (-(bsdf.ior * omega_in + I)) = 0) :
    bsdf_microfacet_ggx_eval_transmit k bsdf I omega_in = none := by
  unfold bsdf_microfacet_ggx_eval_transmit
  simp only [hR, decide_True, Bool.true_eq_false, false_or, not_le.mpr ha, if_false,
    ge_iff_le, not_le.mpr hO, not_le.mpr hI, or_self]
  cases hn : normalize k (-(bsdf.ior * omega_in + I)) with
  | none => rfl
  | some m => simp [fdiv, h0]

/-- C24 at the failing input: for the refraction closure with `ior = 1` and roughness `1/2`,
the view `(3/5, 0, 4/5)` and the light direction `(-3/5, 0, -4/5)` pass every reject check of
`bsdf_microfacet_ggx_eval_transmit`, the half vector `-(ior * omega_in + I)` is zero, and the
function divides by `cosNO * Ht2 = 0`: it returns no value instead of zero value and zero
pdf. For every closure and pair of directions that pass the checks with a zero-length half
vector the result is undefined. The sampler guards the same closure: with `|ior - 1| < 1e-4`
it takes the singular branch and divides by nothing. -/
theorem eval_transmit_divides_by_zero_half_vector :
    unit_ior_closure.type = CLOSURE_BSDF_MICROFACET_GGX_REFRACTION_ID ∧
    1 / 10000000 < unit_ior_closure.alpha_x * unit_ior_closure.alpha_y ∧
    0 < dot unit_ior_closure.N tilted ∧ dot unit_ior_closure.N (-tilted) < 0 ∧
    -(unit_ior_closure.ior * -tilted + tilted) = zero_float3 ∧
    bsdf_microfacet_ggx_eval_transmit rational_helpers unit_ior_closure tilted (-tilted) =
      none ∧
    bsdf_microfacet_ggx_eval_transmit rational_helpers unit_ior_closure tilted (-tilted) ≠
      some (make_float3 0 0 0, 0) ∧
    (∀ (k : Helpers) (bsdf : MicrofacetBsdf) (I omega_in : float3),
      bsdf.type = CLOSURE_BSDF_MICROFACET_GGX_REFRACTION_ID →
      1 / 10000000 < bsdf.alpha_x * bsdf.alpha_y →
      0 < dot bsdf.N I → dot bsdf.N omega_in < 0 →
      -(bsdf.ior * omega_in + I) = zero_float3 →
      bsdf_microfacet_ggx_eval_transmit k bsdf I omega_in = none) ∧
    bsdf_microfacet_ggx_sample rational_helpers unit_ior_closure up tilted up up 0 0
        blank_out =
      some (LABEL_TRANSMIT ||| LABEL_SINGULAR,
        { eval := make_float3 1000000 1000000 1000000,
          omega_in := -tilted,
          domega_in_dx := -up,
          domega_in_dy := -up,
          pdf := 1000000 }) := by
  have hO : 0 < dot unit_ior_closure.N tilted := by
    norm_num [unit_ior_closure, refraction_closure, plain_closure, tilted, dot, make_float3]
  have hI : dot unit_ior_closure.N (-tilted) < 0 := by
    norm_num [unit_ior_closure, refraction_closure, plain_closure, tilted, dot, make_float3,
      float3.neg_def]
  have ha : 1 / 10000000 < unit_ior_closure.alpha_x * unit_ior_closure.alpha_y := by
    norm_num [unit_ior_closure, refraction_closure, plain_closure]
  have hz : -(unit_ior_closure.ior * -tilted + tilted) = zero_float3 := by
    simp [unit_ior_closure, refraction_closure, plain_closure, tilted, make_float3,
      zero_float3, float3.neg_def, float3.add_def, float3.smul_def]
  have hnone : bsdf_microfacet_ggx_eval_transmit rational_helpers unit_ior_closure tilted
      (-tilted) = none :=
    eval_transmit_zero_half_vector rational_helpers unit_ior_closure tilted (-tilted) rfl ha hO
      hI (by rw [hz]; simp [dot, zero_float3, make_float3])
  refine ⟨rfl, ha, hO, hI, hz, hnone, (by rw [hnone]; simp),
    fun k bsdf I omega_in hR ha hO hI h0 =>
      eval_transmit_zero_half_vector k bsdf I omega_in hR ha hO hI
        (by rw [h0]; simp [dot, zero_float3, make_float3]), ?_⟩
  rw [sample_refract_unfold _ _ _ _ _ _ _ _ _ rfl
    (by norm_num [unit_ior_closure, refraction_closure, plain_closure, tilted, dot,
      make_float3])]
  simp [rational_helpers, unit_ior_closure, refraction_closure, plain_closure, sample_m,
    sample_split, sample_transmit_out, sample_local_m, sample_local_O, sample_frame, dot,
    make_float3, cross, float3.add_def, float3.sub_def, float3.scale_def, float3.smul_def,
    float3.mul_def, float3.neg_def, fdiv, fabsf, sqr, tilted, up, blank_out, zero_float3,
    LABEL_TRANSMIT, LABEL_SINGULAR]

/-! ## The clearcoat distribution -/

theorem clearcoat_eval_terms (k : Helpers) (bsdf : MicrofacetBsdf) (I omega_in m : float3)
    (hC : bsdf.type = CLOSURE_BSDF_MICROFACET_GGX_CLEARCOAT_ID)
    (hiso : bsdf.alpha_x = bsdf.alpha_y) :
    eval_reflect_terms k bsdf I omega_in m =
      (k.microfacet_GTR1_D (dot bsdf.N m) (bsdf.alpha_x * bsdf.alpha_y),
        k.microfacet_ggx_lambda (dot bsdf.N I) (1 / 16),
        k.microfacet_ggx_lambda (dot bsdf.N omega_in) (1 / 16)) := by
  unfold eval_reflect_terms
  simp only [hC, if_true]
  rw [if_pos hiso]

theorem clearcoat_sample_terms (k : Helpers) (bsdf : MicrofacetBsdf) (I : float3)
    (randu randv : ℚ)
    (hC : bsdf.type = CLOSURE_BSDF_MICROFACET_GGX_CLEARCOAT_ID)
    (hiso : bsdf.alpha_x = bsdf.alpha_y) :
    sample_reflect_terms k bsdf I randu randv =
      (k.microfacet_GTR1_D (sample_local_m k bsdf I randu randv).z
          (bsdf.alpha_x * bsdf.alpha_y),
        k.microfacet_ggx_lambda (dot bsdf.N I) (1 / 16),
        k.microfacet_ggx_lambda (dot bsdf.N (sample_reflected k bsdf I randu randv))
          (1 / 16)) := by
  unfold sample_reflect_terms
  simp only [hC, if_true]
  rw [if_pos hiso]

/-- C25, as amended: for a Clearcoat closure with `alpha_x = alpha_y`,
`alpha_x * alpha_y > 1e-7` and directions passing the hemisphere checks, the distribution
term `D` of `bsdf_microfacet_ggx_eval_reflect` is the GTR1 distribution evaluated at the
closure's own `alpha_x * alpha_y`, and both Smith-lambda terms are evaluated at the fixed
`alpha^2 = 0.0625`; the glossy reflection path of `bsdf_microfacet_ggx_sample` uses the same
three terms for the sampled normal. -/
theorem clearcoat_distribution_terms (k : Helpers) (bsdf : MicrofacetBsdf)
    (I omega_in : float3) (randu randv : ℚ)
    (hC : bsdf.type = CLOSURE_BSDF_MICROFACET_GGX_CLEARCOAT_ID)
    (hiso : bsdf.alpha_x = bsdf.alpha_y)
    (ha : 1 / 10000000 < bsdf.alpha_x * bsdf.alpha_y)
    (hO : 0 < dot bsdf.N I) (hI : 0 < dot bsdf.N omega_in) :
    bsdf_microfacet_ggx_eval_reflect k bsdf I omega_in =
      ((normalize k (omega_in + I)).bind fun m =>
      (fdiv (k.microfacet_GTR1_D (dot bsdf.N m) (bsdf.alpha_x * bsdf.alpha_y) * (1 / 4))
        (dot bsdf.N I)).bind fun common =>
      (reflection_color k bsdf omega_in m).bind fun F =>
      ((F * common).div_float (1 + k.microfacet_ggx_lambda (dot bsdf.N I) (1 / 16) +
        k.microfacet_ggx_lambda (dot bsdf.N omega_in) (1 / 16))).bind fun value =>
      (fdiv common (1 + k.microfacet_ggx_lambda (dot bsdf.N I) (1 / 16))).bind fun pdf =>
      some (value, pdf)) ∧
    sample_reflect_terms k bsdf I randu randv =
      (k.microfacet_GTR1_D (sample_local_m k bsdf I randu randv).z
          (bsdf.alpha_x * bsdf.alpha_y),
        k.microfacet_ggx_lambda (dot bsdf.N I) (1 / 16),
        k.microfacet_ggx_lambda (dot bsdf.N (sample_reflected k bsdf I randu randv))
          (1 / 16)) := by
  have hR : bsdf.type ≠ CLOSURE_BSDF_MICROFACET_GGX_REFRACTION_ID := by
    rw [hC]
    decide
  refine ⟨?_, clearcoat_sample_terms k bsdf I randu randv hC hiso⟩
  rw [eval_reflect_unfold k bsdf I omega_in hR ha hO hI]
  simp only [clearcoat_eval_terms k bsdf I omega_in _ hC hiso]

theorem clearcoat_eval_up :
    bsdf_microfacet_ggx_eval_reflect squared_helpers clearcoat_closure up up =
      some (make_float3 (1 / 1600) (1 / 1600) (1 / 1600), 1 / 64) := by
  rw [eval_reflect_unfold squared_helpers clearcoat_closure up up (by decide)
    (by norm_num [clearcoat_closure, plain_closure])
    (by norm_num [clearcoat_closure, plain_closure, up, dot, make_float3])
    (by norm_num [clearcoat_closure, plain_closure, up, dot, make_float3])]
  have h4 : (4 : ℚ) = 2 * 2 := by norm_num
  simp [normalize, len, eval_reflect_terms, squared_helpers, rational_helpers,
    clearcoat_closure, plain_closure, up, dot, make_float3, float3.add_def, float3.sub_def,
    float3.smul_def, float3.div_float, fdiv, reflection_color, one_float3, float3.scale_def,
    sqr, mix, schlick_weight]
  norm_num [h4, rat_sqrt_mul_self]

/-- Witness for C25 as amended: the clearcoat closure with roughness `1/2`, viewed and lit
along the normal, has `D` evaluated at `alpha_x * alpha_y = 1/4`. -/
theorem clearcoat_distribution_terms_witness :
    sample_reflect_terms squared_helpers clearcoat_closure up 0 0 =
      (squared_helpers.microfacet_GTR1_D
          (sample_local_m squared_helpers clearcoat_closure up 0 0).z
          (clearcoat_closure.alpha_x * clearcoat_closure.alpha_y),
        squared_helpers.microfacet_ggx_lambda (dot clearcoat_closure.N up) (1 / 16),
        squared_helpers.microfacet_ggx_lambda
          (dot clearcoat_closure.N (sample_reflected squared_helpers clearcoat_closure up 0 0))
          (1 / 16)) :=
  (clearcoat_distribution_terms squared_helpers clearcoat_closure up up 0 0 rfl rfl
    (by norm_num [clearcoat_closure, plain_closure])
    (by norm_num [clearcoat_closure, plain_closure, up, dot, make_float3])
    (by norm_num [clearcoat_closure, plain_closure, up, dot, make_float3])).2

/-- Counterexample to C25 as stated: for the clearcoat closure with
`alpha_x = alpha_y = 1/2`, viewed and lit along the normal, the evaluator and the sampler
use `D = GTR1(1, 1/4) = 1/16`, not `GTR1(1, 1/16) = 1/256`; the evaluator returns
`pdf = 1/64`, whereas `D` at the fixed `alpha^2 = 0.0625` would give `pdf = 1/1024`. -/
theorem clearcoat_distribution_counterexample :
    clearcoat_closure.type = CLOSURE_BSDF_MICROFACET_GGX_CLEARCOAT_ID ∧
    clearcoat_closure.alpha_x = clearcoat_closure.alpha_y ∧
    1 / 10000000 < clearcoat_closure.alpha_x * clearcoat_closure.alpha_y ∧
    0 < dot clearcoat_closure.N up ∧
    (eval_reflect_terms squared_helpers clearcoat_closure up up up).1 = 1 / 16 ∧
    (sample_reflect_terms squared_helpers clearcoat_closure up 0 0).1 = 1 / 16 ∧
    squared_helpers.microfacet_GTR1_D (dot clearcoat_closure.N up) (1 / 16) = 1 / 256 ∧
    bsdf_microfacet_ggx_eval_reflect squared_helpers clearcoat_closure up up =
      some (make_float3 (1 / 1600) (1 / 1600) (1 / 1600), 1 / 64) ∧
    fdiv (squared_helpers.microfacet_GTR1_D (dot clearcoat_closure.N up) (1 / 16) * (1 / 4) /
        dot clearcoat_closure.N up)
      (1 + squared_helpers.microfacet_ggx_lambda (dot clearcoat_closure.N up) (1 / 16)) =
      some (1 / 1024) := by
  refine ⟨rfl, rfl, by norm_num [clearcoat_closure, plain_closure],
    by norm_num [clearcoat_closure, plain_closure, up, dot, make_float3], ?_, ?_, ?_,
    clearcoat_eval_up, ?_⟩
  · rw [clearcoat_eval_terms _ _ _ _ _ rfl rfl]
    norm_num [squared_helpers, clearcoat_closure, plain_closure, up, dot, make_float3, sqr]
  · rw [clearcoat_sample_terms _ _ _ _ _ rfl rfl]
    norm_num [squared_helpers, rational_helpers, sample_local_m, clearcoat_closure,
      plain_closure, make_float3, sqr]
  · norm_num [squared_helpers, clearcoat_closure, plain_closure, up, dot, make_float3, sqr]
  · norm_num [fdiv, squared_helpers, clearcoat_closure, plain_closure, up, dot, make_float3,
      sqr]

/-! ## The `FresnelV2` setup -/

theorem falloff_range (a : ℚ) :
    1 ≤ 1 / clamp a (1 / 1000) 1 ∧ 1 / clamp a (1 / 1000) 1 ≤ 1000 := by
  have h1 : (1 / 1000 : ℚ) ≤ clamp a (1 / 1000) 1 :=
    le_min (le_max_right a (1 / 1000)) (by norm_num)
  have h2 : clamp a (1 / 1000) 1 ≤ 1 := min_le_right _ _
  have hpos : (0 : ℚ) < clamp a (1 / 1000) 1 := lt_of_lt_of_le (by norm_num) h1
  constructor
  · rw [le_div_iff₀ hpos]
    linarith
  · rw [div_le_iff₀ hpos]
    linarith

theorem fresnel_v2_setup_eq (k : Helpers) (bsdf : MicrofacetBsdf) (sd : ShaderData)
    (metallic dielectric : ℚ) (e : MicrofacetExtrav2)
    (h : bsdf.extra = some (ExtraPayload.v2 e)) :
    bsdf_microfacet_ggx_fresnel_v2_setup k bsdf sd metallic dielectric =
      ((if 0 < metallic then
          (microfacet_ggx_albedo_scaling k
            (with_roughness bsdf (saturatef bsdf.alpha_x) (saturatef bsdf.alpha_y)) sd
            (k.metallic_Fss (saturate e.metal_base) (saturate e.metal_edge)
              (1 / clamp e.metal_falloff (1 / 1000) 1))).bind fun s =>
          some ({ metal_base := saturate e.metal_base * (metallic * s),
                  metal_edge := saturate e.metal_edge * (metallic * s),
                  metal_falloff := 1 / clamp e.metal_falloff (1 / 1000) 1,
                  dielectric := e.dielectric } : MicrofacetExtrav2)
        else
          some { metal_base := zero_float3, metal_edge := zero_float3, metal_falloff := 0,
                 dielectric := e.dielectric }).bind fun e1 =>
      (if 0 < dielectric then
          (microfacet_ggx_albedo_scaling_float k
            (with_roughness bsdf (saturatef bsdf.alpha_x) (saturatef bsdf.alpha_y)) sd
            (k.dielectric_fresnel_Fss bsdf.ior)).bind fun s =>
          some ({ e1 with dielectric := dielectric * s } : MicrofacetExtrav2)
        else some { e1 with dielectric := 0 }).bind fun e2 =>
      some ({ with_roughness bsdf (saturatef bsdf.alpha_x) (saturatef bsdf.alpha_y) with
          extra := some (ExtraPayload.v2 e2),
          type := CLOSURE_BSDF_MICROFACET_GGX_FRESNEL_V2_ID }, SD_BSDF ||| SD_BSDF_HAS_EVAL)) := by
  obtain ⟨w, t, sw, N, ax, ay, ior, extra, T⟩ := bsdf
  simp only at h
  subst h
  simp only [bsdf_microfacet_ggx_fresnel_v2_setup, with_roughness, gt_iff_lt,
    Option.bind_eq_bind, Option.pure_def, fdiv, if_neg (clamp_falloff_ne_zero _),
    Option.some_bind]
  generalize microfacet_ggx_albedo_scaling k
      { weight := w, type := t, sample_weight := sw, N := N, alpha_x := saturatef ax,
        alpha_y := saturatef ay, ior := ior, extra := some (ExtraPayload.v2 e), T := T }
      sd (k.metallic_Fss (saturate e.metal_base) (saturate e.metal_edge)
        (1 / clamp e.metal_falloff (1 / 1000) 1)) = S1
  generalize microfacet_ggx_albedo_scaling_float k
      { weight := w, type := t, sample_weight := sw, N := N, alpha_x := saturatef ax,
        alpha_y := saturatef ay, ior := ior, extra := some (ExtraPayload.v2 e), T := T }
      sd (k.dielectric_fresnel_Fss ior) = S2
  by_cases hm : 0 < metallic <;> by_cases hd : 0 < dielectric <;>
    simp only [hm, hd, if_true, if_false, Option.some_bind] <;>
    cases S1 <;> cases S2 <;> rfl

/-- C22: for a closure with a `MicrofacetExtrav2` payload, whenever
`bsdf_microfacet_ggx_fresnel_v2_setup` returns, the stored payload is as follows. When
`metallic > 0`, `metal_falloff` is `1 / clamp(metal_falloff_in, 1e-3, 1)`, which lies in
`[1, 1000]`, and `metal_base`, `metal_edge` are their `[0,1]`-clamped inputs multiplied by
`metallic` and by the colour energy-compensation scale for `metallic_Fss` (taken at the
clamped roughness, clamped colours and new falloff); when `dielectric > 0`,
`extra.dielectric` is `dielectric` times the scalar scale for `dielectric_fresnel_Fss(ior)`;
when `metallic <= 0` the three metal fields are zero and when `dielectric <= 0`
`extra.dielectric` is zero. The setup returns exactly when the scales it needs are
defined. -/
theorem fresnel_v2_setup_effect (k : Helpers) (bsdf : MicrofacetBsdf) (sd : ShaderData)
    (metallic dielectric : ℚ) (e : MicrofacetExtrav2)
    (h : bsdf.extra = some (ExtraPayload.v2 e)) :
    (∀ r, bsdf_microfacet_ggx_fresnel_v2_setup k bsdf sd metallic dielectric = some r →
      ∃ e2, r.1.extra = some (ExtraPayload.v2 e2) ∧
        (0 < metallic →
          e2.metal_falloff = 1 / clamp e.metal_falloff (1 / 1000) 1 ∧
          1 ≤ e2.metal_falloff ∧ e2.metal_falloff ≤ 1000 ∧
          ∃ s, microfacet_ggx_albedo_scaling k
              (with_roughness bsdf (saturatef bsdf.alpha_x) (saturatef bsdf.alpha_y)) sd
              (k.metallic_Fss (saturate e.metal_base) (saturate e.metal_edge)
                (1 / clamp e.metal_falloff (1 / 1000) 1)) = some s ∧
            e2.metal_base = saturate e.metal_base * (metallic * s) ∧
            e2.metal_edge = saturate e.metal_edge * (metallic * s)) ∧
        (0 < dielectric →
          ∃ s, microfacet_ggx_albedo_scaling_float k
              (with_roughness bsdf (saturatef bsdf.alpha_x) (saturatef bsdf.alpha_y)) sd
              (k.dielectric_fresnel_Fss bsdf.ior) = some s ∧
            e2.dielectric = dielectric * s) ∧
        (metallic ≤ 0 →
          e2.metal_falloff = 0 ∧ e2.metal_base = zero_float3 ∧ e2.metal_edge = zero_float3) ∧
        (dielectric ≤ 0 → e2.dielectric = 0)) ∧
    ((bsdf_microfacet_ggx_fresnel_v2_setup k bsdf sd metallic dielectric).isSome = true ↔
      (0 < metallic →
        (microfacet_ggx_albedo_scaling k
          (with_roughness bsdf (saturatef bsdf.alpha_x) (saturatef bsdf.alpha_y)) sd
          (k.metallic_Fss (saturate e.metal_base) (saturate e.metal_edge)
            (1 / clamp e.metal_falloff (1 / 1000) 1))).isSome = true) ∧
      (0 < dielectric →
        (microfacet_ggx_albedo_scaling_float k
          (with_roughness bsdf (saturatef bsdf.alpha_x) (saturatef bsdf.alpha_y)) sd
          (k.dielectric_fresnel_Fss bsdf.ior)).isSome = true)) := by
  rw [fresnel_v2_setup_eq k bsdf sd metallic dielectric e h]
  generalize microfacet_ggx_albedo_scaling k
    (with_roughness bsdf (saturatef bsdf.alpha_x) (saturatef bsdf.alpha_y)) sd
    (k.metallic_Fss (saturate e.metal_base) (saturate e.metal_edge)
      (1 / clamp e.metal_falloff (1 / 1000) 1)) = S1
  generalize microfacet_ggx_albedo_scaling_float k
    (with_roughness bsdf (saturatef bsdf.alpha_x) (saturatef bsdf.alpha_y)) sd
    (k.dielectric_fresnel_Fss bsdf.ior) = S2
  obtain ⟨hf1, hf2⟩ := falloff_range e.metal_falloff
  simp only [one_div] at hf1 hf2
  by_cases hm : 0 < metallic <;> by_cases hd : 0 < dielectric <;>
    cases S1 <;> cases S2 <;>
    simp [hm, hd, not_le.mpr, hf1, hf2]

theorem metal_setup_value :
    bsdf_microfacet_ggx_fresnel_v2_setup half_albedo_helpers metal_v2_closure up_context 1 1 =
      some ({ metal_v2_closure with
          alpha_x := 1, alpha_y := 0,
          extra := some (ExtraPayload.v2
            { metal_base := make_float3 2 2 2, metal_edge := make_float3 2 2 2,
              metal_falloff := 5, dielectric := 50 / 49 }) },
        SD_BSDF ||| SD_BSDF_HAS_EVAL) := by
  rw [fresnel_v2_setup_eq half_albedo_helpers metal_v2_closure up_context 1 1 _ rfl,
    albedo_scaling_eq, albedo_scaling_float_eq]
  simp [half_albedo_helpers, rational_helpers, metal_v2_closure, metal_closure, plain_closure,
    with_roughness, saturatef, saturate, clamp, fdiv, float3.div, mix, one_float3, make_float3,
    float3.add_def, float3.sub_def, float3.scale_def, float3.smul_def, float3.mul_def, sqr]
  norm_num

/-- Witness for C22: the closure `metal_v2_closure` (clamped colours `(1,1,1)`, falloff
`1/5`), set up with `metallic = 1`, `dielectric = 1` and constant albedo tables `1/2`, stores
the falloff `5`, the colours `(2,2,2)` and the dielectric weight `50/49`. -/
theorem fresnel_v2_setup_effect_witness :
    bsdf_microfacet_ggx_fresnel_v2_setup half_albedo_helpers metal_v2_closure up_context 1 1 =
      some ({ metal_v2_closure with
          alpha_x := 1, alpha_y := 0,
          extra := some (ExtraPayload.v2
            { metal_base := make_float3 2 2 2, metal_edge := make_float3 2 2 2,
              metal_falloff := 5, dielectric := 50 / 49 }) },
        SD_BSDF ||| SD_BSDF_HAS_EVAL) ∧
    ∃ e2 : MicrofacetExtrav2,
      some (ExtraPayload.v2
        { metal_base := make_float3 2 2 2, metal_edge := make_float3 2 2 2,
          metal_falloff := 5, dielectric := 50 / 49 }) = some (ExtraPayload.v2 e2) ∧
      e2.metal_falloff = 1 / clamp (1 / 5) (1 / 1000) 1 ∧
      1 ≤ e2.metal_falloff ∧ e2.metal_falloff ≤ 1000 := by
  obtain ⟨e2, h1, h2, -⟩ :=
    (fresnel_v2_setup_effect half_albedo_helpers metal_v2_closure up_context 1 1
      { metal_base := one_float3, metal_edge := one_float3, metal_falloff := 1 / 5,
        dielectric := 1 } rfl).1
      ({ metal_v2_closure with
          alpha_x := 1, alpha_y := 0,
          extra := some (ExtraPayload.v2
            { metal_base := make_float3 2 2 2, metal_edge := make_float3 2 2 2,
              metal_falloff := 5, dielectric := 50 / 49 }) },
        SD_BSDF ||| SD_BSDF_HAS_EVAL) metal_setup_value
  obtain ⟨h3, h4, h5, -⟩ := h2 one_pos
  exact ⟨metal_setup_value, e2, h1, h3, h4, h5⟩

theorem fresnel_v2_setup_sample_weight (k : Helpers) (bsdf : MicrofacetBsdf)
    (sd : ShaderData) (metallic dielectric : ℚ) (r : MicrofacetBsdf × Nat)
    (hr : bsdf_microfacet_ggx_fresnel_v2_setup k bsdf sd metallic dielectric = some r) :
    r.1.sample_weight = bsdf.sample_weight := by
  have hsome : (bsdf_microfacet_ggx_fresnel_v2_setup k bsdf sd metallic dielectric).isSome =
      true := by rw [hr]; rfl
  obtain ⟨e, he, -⟩ := (fresnel_v2_setup_facts k bsdf sd metallic dielectric).2.mp hsome
  rw [fresnel_v2_setup_eq k bsdf sd metallic dielectric e he] at hr
  simp only [Option.bind_eq_some] at hr
  obtain ⟨e1, -, e2, -, hr⟩ := hr
  rw [← Option.some.inj hr]
  rfl

/-- C23 at the failing input: `bsdf_microfacet_ggx_fresnel_v2_setup` leaves `sample_weight`
as it was for every input (the call of `bsdf_microfacet_fresnel_color` is commented out with
a TODO), so it does not fold the mean Fresnel colour into it. For `metal_v2_closure` with
`metallic = 1`, `dielectric = 1` and constant albedo tables `1/2`, the closure after setup
has `sample_weight = 1`, whereas `reflection_color(bsdf, sd.I, bsdf.N)` has mean `100/49` on
the closure after setup and `26/25` on the closure before it. -/
theorem fresnel_v2_setup_keeps_sample_weight :
    (∀ (k : Helpers) (bsdf : MicrofacetBsdf) (sd : ShaderData) (metallic dielectric : ℚ)
      (r : MicrofacetBsdf × Nat),
      bsdf_microfacet_ggx_fresnel_v2_setup k bsdf sd metallic dielectric = some r →
      r.1.sample_weight = bsdf.sample_weight) ∧
    metal_v2_closure.sample_weight = 1 ∧
    (bsdf_microfacet_ggx_fresnel_v2_setup half_albedo_helpers metal_v2_closure up_context 1
      1).map (fun r => r.1.sample_weight) = some 1 ∧
    ((bsdf_microfacet_ggx_fresnel_v2_setup half_albedo_helpers metal_v2_closure up_context 1
      1).bind fun r => (reflection_color half_albedo_helpers r.1 up_context.I r.1.N).map
        fun c => metal_v2_closure.sample_weight * average c) = some (100 / 49) ∧
    (reflection_color half_albedo_helpers metal_v2_closure up_context.I
      metal_v2_closure.N).map (fun c => metal_v2_closure.sample_weight * average c) =
        some (26 / 25) := by
  refine ⟨fresnel_v2_setup_sample_weight, rfl, ?_, ?_, ?_⟩
  · rw [metal_setup_value]
    rfl
  · rw [metal_setup_value]
    simp [reflection_color, metal_v2_closure, metal_closure, plain_closure, half_albedo_helpers,
      rational_helpers, up_context, up, dot, make_float3, mix, average, schlick_weight, sqr,
      float3.add_def, float3.sub_def, float3.smul_def]
    norm_num
  · simp [reflection_color, metal_v2_closure, metal_closure, plain_closure, half_albedo_helpers,
      rational_helpers, up_context, up, dot, make_float3, mix, average, schlick_weight, sqr,
      float3.add_def, float3.sub_def, float3.smul_def, one_float3]
    norm_num

/-! ## The side of a sampled refraction -/

theorem rat_sqrt_nine_25 : Rat.sqrt (9 / 25) = 3 / 5 := by
  have h : (9 / 25 : ℚ) = 3 / 5 * (3 / 5) := by norm_num
  rw [h]
  exact rat_sqrt_mul_self _ (by norm_num)

theorem thin_sample_m :
    sample_m snell_helpers thin_closure grazing 0 0 = make_float3 (20 / 29) 0 (21 / 29) := by
  simp [sample_m, sample_local_m, sample_frame, snell_helpers, rational_helpers, thin_closure,
    refraction_closure, plain_closure, make_float3, cross, float3.add_def, float3.scale_def]

theorem thin_sample_split (dIdx dIdy : float3) :
    sample_split snell_helpers thin_closure grazing dIdx dIdy 0 0 =
      { fresnel := 1 / 49,
        R := make_float3 (17 / 145) 0 (144 / 145),
        T := make_float3 (-144 / 145) 0 (17 / 145),
        inside := false,
        dRdx := zero_float3, dRdy := zero_float3, dTdx := zero_float3, dTdy := zero_float3 } := by
  unfold sample_split
  rw [thin_sample_m]
  have hcos : dot (make_float3 (20 / 29) 0 (21 / 29)) grazing = 4 / 5 := by
    norm_num [dot, make_float3, grazing]
  have harg : (1 : ℚ) - 1 / (3 / 4) * (1 / (3 / 4)) * (1 - 4 / 5 * (4 / 5)) = 9 / 25 := by
    norm_num
  simp only [snell_helpers, thin_closure, refraction_closure, plain_closure, snell_split, hcos,
    harg, rat_sqrt_nine_25]
  norm_num [make_float3, grazing, sqr, float3.add_def, float3.sub_def, float3.neg_def,
    float3.smul_def]

theorem thin_sample_grazing :
    bsdf_microfacet_ggx_sample snell_helpers thin_closure up grazing up up 0 0 blank_out =
      some (LABEL_TRANSMIT ||| LABEL_GLOSSY,
        { eval := make_float3 (2458344893137920 / 3916094393677921)
            (2458344893137920 / 3916094393677921) (2458344893137920 / 3916094393677921),
          omega_in := make_float3 (-144 / 145) 0 (17 / 145),
          domega_in_dx := zero_float3,
          domega_in_dy := zero_float3,
          pdf := 8506383713280 / 5114593972033 }) := by
  rw [sample_refract_unfold _ _ _ _ _ _ _ _ _ rfl
    (by norm_num [thin_closure, refraction_closure, plain_closure, grazing, dot, make_float3])]
  rw [thin_sample_split, thin_sample_m]
  simp [snell_helpers, rational_helpers, thin_closure, refraction_closure, plain_closure,
    sample_transmit_out, sample_local_m, dot, make_float3, fdiv, fabsf, sqr, grazing,
    blank_out, zero_float3]
  norm_num [abs_of_neg, abs_of_pos]

/-- C26 at the failing input: for the refraction closure with `ior = 3/4` and roughness
`1/2`, the view `(143/145, 0, 24/145)` and the sampled microfacet normal
`(20/29, 0, 21/29)`, Snell's law refracts the view to `(-144/145, 0, 17/145)`, the solver
reports neither `inside` nor total reflection, and `bsdf_microfacet_ggx_sample` returns
`LABEL_TRANSMIT | LABEL_GLOSSY` with that direction and a non-zero pdf although
`dot(N, omega_in) = 17/145 > 0`: the direction is on the view's side of the surface.
`bsdf_microfacet_ggx_eval_transmit` rejects the same pair of directions with zero value and
zero pdf. -/
theorem sample_refraction_same_side :
    thin_closure.type = CLOSURE_BSDF_MICROFACET_GGX_REFRACTION_ID ∧
    sample_m snell_helpers thin_closure grazing 0 0 = make_float3 (20 / 29) 0 (21 / 29) ∧
    (sample_split snell_helpers thin_closure grazing up up 0 0).T =
      make_float3 (-144 / 145) 0 (17 / 145) ∧
    bsdf_microfacet_ggx_sample snell_helpers thin_closure up grazing up up 0 0 blank_out =
      some (LABEL_TRANSMIT ||| LABEL_GLOSSY,
        { eval := make_float3 (2458344893137920 / 3916094393677921)
            (2458344893137920 / 3916094393677921) (2458344893137920 / 3916094393677921),
          omega_in := make_float3 (-144 / 145) 0 (17 / 145),
          domega_in_dx := zero_float3,
          domega_in_dy := zero_float3,
          pdf := 8506383713280 / 5114593972033 }) ∧
    (LABEL_TRANSMIT ||| LABEL_GLOSSY) &&& LABEL_TRANSMIT ≠ 0 ∧
    0 < dot thin_closure.N grazing ∧
    dot thin_closure.N (make_float3 (-144 / 145) 0 (17 / 145)) = 17 / 145 ∧
    ¬(dot thin_closure.N (make_float3 (-144 / 145) 0 (17 / 145)) < 0) ∧
    bsdf_microfacet_ggx_eval_transmit snell_helpers thin_closure grazing
      (make_float3 (-144 / 145) 0 (17 / 145)) = some (make_float3 0 0 0, 0) := by
  have hd : dot thin_closure.N (make_float3 (-144 / 145) 0 (17 / 145)) = 17 / 145 := by
    norm_num [thin_closure, refraction_closure, plain_closure, dot, make_float3]
  refine ⟨rfl, thin_sample_m, by rw [thin_sample_split], thin_sample_grazing, by decide,
    by norm_num [thin_closure, refraction_closure, plain_closure, grazing, dot, make_float3],
    hd, by rw [hd]; norm_num, ?_⟩
  unfold bsdf_microfacet_ggx_eval_transmit
  simp only [hd]
  norm_num [thin_closure, refraction_closure, plain_closure]

/-! ## Energy compensation and the clamping of roughness -/

theorem wide_rough : rational_helpers.sqrtf (rational_helpers.sqrtf
    (wide_closure.alpha_x * wide_closure.alpha_y)) = 1 := by
  simp [rational_helpers, wide_closure, plain_closure, rat_sqrt_one]

theorem wide_clamped_rough : rational_helpers.sqrtf (rational_helpers.sqrtf
    (wide_closure_clamped.alpha_x * wide_closure_clamped.alpha_y)) = 1 / 2 := by
  have h1 : (1 / 16 : ℚ) = 1 / 4 * (1 / 4) := by norm_num
  have h2 : (1 / 4 : ℚ) = 1 / 2 * (1 / 2) := by norm_num
  have h3 : Rat.sqrt (1 / 16) = 1 / 4 := by
    rw [h1]
    exact rat_sqrt_mul_self _ (by norm_num)
  have h4 : Rat.sqrt (1 / 4) = 1 / 2 := by
    rw [h2]
    exact rat_sqrt_mul_self _ (by norm_num)
  simp only [rational_helpers, wide_closure_clamped, plain_closure, one_mul, h3, h4]

/-- C28 at the failing input: `bsdf_microfacet_multi_ggx_setup` computes the
energy-compensation scale from the roughness as passed in and clamps it afterwards. For the
closure with `alpha_x = 16`, `alpha_y = 1/16` and white colour the stored roughness is
`(1, 1/16)` and the weight is `(2, 2, 2)` (scale at `sqrt(sqrt(16 * 1/16)) = 1`), whereas the
same closure with its roughness clamped to `(1, 1/16)` beforehand gets the weight
`(4/3, 4/3, 4/3)` (scale at `sqrt(sqrt(1/16)) = 1/2`). -/
theorem multi_ggx_setup_scales_before_clamping :
    wide_closure_clamped =
      { wide_closure with
        alpha_x := saturatef wide_closure.alpha_x, alpha_y := saturatef wide_closure.alpha_y } ∧
    bsdf_microfacet_multi_ggx_setup rational_helpers wide_closure up_context one_float3 =
      some ({ wide_closure_clamped with weight := make_float3 2 2 2 },
        SD_BSDF ||| SD_BSDF_HAS_EVAL) ∧
    bsdf_microfacet_multi_ggx_setup rational_helpers wide_closure_clamped up_context
        one_float3 =
      some ({ wide_closure_clamped with weight := make_float3 (4 / 3) (4 / 3) (4 / 3) },
        SD_BSDF ||| SD_BSDF_HAS_EVAL) ∧
    make_float3 2 2 2 ≠ make_float3 (4 / 3) (4 / 3) (4 / 3) := by
  refine ⟨?_, ?_, ?_, ?_⟩
  · norm_num [wide_closure_clamped, wide_closure, plain_closure, saturatef, clamp]
  · have h := wide_rough
    simp only [rational_helpers] at h
    unfold bsdf_microfacet_multi_ggx_setup
    rw [albedo_scaling_eq]
    simp only [rational_helpers, h]
    simp [bsdf_microfacet_ggx_setup, wide_closure, wide_closure_clamped, plain_closure,
      up_context, up, dot, make_float3, one_float3, saturate, saturatef, clamp, fdiv,
      float3.div, float3.add_def, float3.sub_def, float3.scale_def, float3.mul_def]
    norm_num
  · have h := wide_clamped_rough
    simp only [rational_helpers] at h
    unfold bsdf_microfacet_multi_ggx_setup
    rw [albedo_scaling_eq]
    simp only [rational_helpers, h]
    simp [bsdf_microfacet_ggx_setup, wide_closure_clamped, plain_closure,
      up_context, up, dot, make_float3, one_float3, saturate, saturatef, clamp, fdiv,
      float3.div, float3.add_def, float3.sub_def, float3.scale_def, float3.mul_def]
    norm_num
  · norm_num [make_float3]

end Microfacet
